import Mathlib

/-!
Verification development for the mcp-azure-devops server
(src/server.ts, src/shared/auth.ts, src/utils/index.ts).

The TypeScript sources are shallowly embedded:
pure helpers become Lean functions on `String`/`List Char`/`Nat`/`Int`;
JavaScript values appearing in argument bags become the inductive `Arg`;
the handler `handleToolCall` becomes a computation in a monad `M` that
threads the list of issued downstream calls (the trace) and models a
thrown exception as `Except.error`; every awaited downstream operation
(API-client getters, API methods, raw `fetch`, stream/fs operations) is an
oracle lookup in a `DevOpsEnv` and is recorded in the trace when issued.
`JSON.stringify` of opaque service responses is abstracted by concrete
renderers (`jstrNamed`, ...): no claim depends on its exact output.
-/

/-! ## JavaScript-side basic values -/

/-- A thrown JavaScript value: either an `Error` with a message, or a
non-`Error` throwable (which has no message). -/
inductive Exn where
  | err (msg : String)
  | other

/-- The message extraction performed at the dispatch boundary in
`createServer`: `error instanceof Error ? error.message : "Unknown error occurred"`. -/
def Exn.boundaryMessage : Exn → String
  | .err m => m
  | .other => "Unknown error occurred"

/-- A JavaScript value as it appears in a tool-call argument bag. -/
inductive Arg where
  | null
  | undefined
  | str (v : String)
  | num (v : Int)
  | bool (v : Bool)
  | list (elems : List Arg)
  | obj (fields : List (String × Arg))

instance : Inhabited Arg := ⟨.undefined⟩

/-- JavaScript truthiness of an `Arg`. -/
def Arg.truthy : Arg → Bool
  | .null => false
  | .undefined => false
  | .str v => v != ""
  | .num v => v != 0
  | .bool v => v
  | .list _ => true
  | .obj _ => true

/-- Destructuring default: `const { x = d } = args` replaces only `undefined`. -/
def Arg.withDefault (a : Arg) (d : Arg) : Arg :=
  match a with
  | .undefined => d
  | x => x

/-- Read an `Arg` as a string (the embedded handlers only apply this to
string-typed fields of the schema). -/
def Arg.asStr : Arg → String
  | .str v => v
  | _ => ""

/-- Read an `Arg` as a number (the embedded handlers only apply this to
number-typed fields of the schema). -/
def Arg.asInt : Arg → Int
  | .num v => v
  | _ => 0

/-- Member access `a.k`: defined on objects, `undefined` otherwise. -/
def Arg.fieldOf (a : Arg) (k : String) : Arg :=
  match a with
  | .obj fs => (fs.lookup k).getD .undefined
  | _ => .undefined

/-- Iterating `for (const x of v)` requires an array; JavaScript throws a
`TypeError` otherwise. -/
def Arg.asList : Arg → Except Exn (List Arg)
  | .list l => .ok l
  | _ => .error (.err "value is not iterable")

/-- Optional-chained map `v?.map(f)`: `undefined`/`null` propagate. -/
def Arg.mapList (a : Arg) (f : Arg → Arg) : Arg :=
  match a with
  | .list l => .list (l.map f)
  | .null => .undefined
  | .undefined => .undefined
  | x => x

/-- An argument bag (`Record<string, unknown>`); absent keys are `undefined`. -/
def Args := String → Arg

/-- One issued downstream operation: an awaited API-client method, raw
`fetch`, or stream/fs operation, identified by name and arguments. -/
structure Call where
  api : String
  callArgs : List Arg

/-- One element of a response envelope content array. -/
structure ContentItem where
  type : String
  text : String

/-- The response envelope `{ content: [...], isError? }`; an absent
`isError` is modelled as `false`. -/
structure Envelope where
  content : List ContentItem
  isError : Bool

/-- A git ref as inspected by the branch handlers (`name`, `objectId`). -/
structure GitRef where
  name : Option String
  objectId : Option String

/-- A work-item relation as inspected by `wit_work_item_unlink`. -/
structure WiRel where
  url : Option String
  rel : Option String

/-- A `fetch` response as inspected by the raw-HTTP handlers. -/
structure HttpResp where
  ok : Bool
  etag : Option String
  body : String

/-- The oracle for downstream operations.  Operations whose result the
handler only re-serializes are summarized as a `String`; operations whose
result the handler inspects structurally are typed (`fetchNamed` returns
the inspected optional string field of each element of a fetched list,
`fetchRefs` git refs, `fetchRels` work-item relations, `http` a fetch
response, `fetchStream` a possibly-null stream read). -/
structure DevOpsEnv where
  call : Call → Except Exn String
  fetchNamed : Call → Except Exn (List (Option String))
  fetchRefs : Call → Except Exn (List GitRef)
  fetchRels : Call → Except Exn (List WiRel)
  http : Call → Except Exn HttpResp
  fetchStream : Call → Except Exn (Option String)

/-- The handler monad: an environment of downstream results, a trace of
issued calls (issued calls stay in the trace even when the call throws),
and exception propagation. -/
def M (α : Type) : Type := DevOpsEnv → List Call → List Call × Except Exn α

def M.pure (a : α) : M α := fun _ tr => (tr, .ok a)

def M.bind (x : M α) (f : α → M β) : M β := fun env tr =>
  match x env tr with
  | (tr', .ok a) => f a env tr'
  | (tr', .error e) => (tr', .error e)

instance : Monad M where
  pure := M.pure
  bind := M.bind

/-- Issue a generic downstream call. -/
def mCall (api : String) (cargs : List Arg) : M String := fun env tr =>
  (tr ++ [⟨api, cargs⟩], env.call ⟨api, cargs⟩)

/-- Issue a downstream call returning a list with an inspected name field. -/
def mNamed (api : String) (cargs : List Arg) : M (List (Option String)) := fun env tr =>
  (tr ++ [⟨api, cargs⟩], env.fetchNamed ⟨api, cargs⟩)

/-- Issue a downstream call returning git refs. -/
def mRefs (api : String) (cargs : List Arg) : M (List GitRef) := fun env tr =>
  (tr ++ [⟨api, cargs⟩], env.fetchRefs ⟨api, cargs⟩)

/-- Issue a downstream call returning work-item relations. -/
def mRels (api : String) (cargs : List Arg) : M (List WiRel) := fun env tr =>
  (tr ++ [⟨api, cargs⟩], env.fetchRels ⟨api, cargs⟩)

/-- Issue a raw HTTP request. -/
def mHttp (api : String) (cargs : List Arg) : M HttpResp := fun env tr =>
  (tr ++ [⟨api, cargs⟩], env.http ⟨api, cargs⟩)

/-- Issue a downstream call returning a possibly-null stream read. -/
def mStream (api : String) (cargs : List Arg) : M (Option String) := fun env tr =>
  (tr ++ [⟨api, cargs⟩], env.fetchStream ⟨api, cargs⟩)

/-- Lift a local (traceless) fallible computation. -/
def mOfExcept (e : Except Exn α) : M α := fun _ tr => (tr, e)

/-- The envelope `{ content: [{ type: "text", text: s }] }`. -/
def textResult (s : String) : Envelope := ⟨[⟨"text", s⟩], false⟩

/-- The envelope `{ content: [{ type: "text", text: s }], isError: true }`. -/
def errorResult (s : String) : Envelope := ⟨[⟨"text", s⟩], true⟩

/-- Sequential `for (const x of l) { results.push(await f(x)) }`. -/
def forSeq (f : α → M β) : List α → M (List β)
  | [] => pure []
  | x :: xs => do
      let y ← f x
      let ys ← forSeq f xs
      pure (y :: ys)

/-- The JavaScript `||` idiom on a looked-up numeric map entry: `0` (and
a missing entry) falls through to the default. -/
def jsOrInt (o : Option Int) (d : Int) : Int :=
  match o with
  | some v => if v = 0 then d else v
  | none => d

/-- The JavaScript `||` idiom on an optional string: `""` (and a missing
value) falls through to the default. -/
def jsOrStr (o : Option String) (d : String) : String :=
  match o with
  | some s => if s = "" then d else s
  | none => d

/-- Index normalization of `Array.prototype.slice`. -/
def jsSliceIdx (len : Nat) (i : Int) : Nat :=
  if i < 0 then (max ((len : Int) + i) 0).toNat else min i.toNat len

/-- `l.slice(s, e)` of JavaScript arrays. -/
def jsSlice (l : List α) (s e : Int) : List α :=
  (l.take (jsSliceIdx l.length e)).drop (jsSliceIdx l.length s)

/-- Substring containment of JavaScript `String.prototype.includes`. -/
def listContainsSub [DecidableEq α] : List α → List α → Bool
  | hay, needle =>
    needle.isPrefixOf hay ||
      match hay with
      | [] => false
      | _ :: t => listContainsSub t needle

/-- The case-insensitive name test `name?.toLowerCase().includes(flt.toLowerCase())`
(with `undefined` name giving `false`). -/
def jsIncludesCI (nameField : Option String) (flt : String) : Bool :=
  match nameField with
  | none => false
  | some nm => listContainsSub (nm.data.map Char.toLower) (flt.data.map Char.toLower)

/-! ## utils/index.ts and the step-text transformation of server.ts -/

/-- The characters matched by `\s` (and trimmed by `String.prototype.trim`). -/
def jsWsChars : List Char :=
  (" \t\n\r\x0b\x0c\u00a0\u1680\u2000\u2001\u2002\u2003\u2004\u2005\u2006\u2007\u2008\u2009\u200a\u2028\u2029\u202f\u205f\u3000\ufeff").data

def jsWsChar (c : Char) : Bool := jsWsChars.contains c

/-- The characters matched by `.` in a JavaScript regex (anything but a
line terminator). -/
def jsDotChar (c : Char) : Bool :=
  !(c == '\n' || c == '\r' || c == Char.ofNat 0x2028 || c == Char.ofNat 0x2029)

/-- JavaScript `String.prototype.trim`. -/
def jsTrim (s : String) : String :=
  String.mk (((s.data.dropWhile jsWsChar).reverse.dropWhile jsWsChar).reverse)

/-- Split a character list at every occurrence of `sep`
(JavaScript `String.prototype.split` with a one-character separator). -/
def splitCh (sep : Char) : List Char → List (List Char)
  | [] => [[]]
  | c :: r =>
    match splitCh sep r with
    | [] => [[]]
    | g :: gs => if c = sep then [] :: g :: gs else (c :: g) :: gs

/-- JavaScript `s.split(sep)` for a one-character separator. -/
def jsSplit (sep : Char) (s : String) : List String :=
  (splitCh sep s.data).map String.mk

/-- Backtracking search for `\s*(.+)$` against the suffix `r` (the text
after the ordinal and period): the largest whitespace prefix length `k`
such that the remainder is nonempty and line-terminator free. -/
def ordinalTailAt (r : List Char) : Nat → Option (List Char)
  | 0 => if !r.isEmpty && r.all jsDotChar then some r else none
  | k + 1 =>
    let t := r.drop (k + 1)
    if !t.isEmpty && t.all jsDotChar then some t else ordinalTailAt r k

/-- Match of `\s*(.+)$` (greedy, with backtracking) returning group 2. -/
def ordinalTailMatch (r : List Char) : Option (List Char) :=
  ordinalTailAt r (r.takeWhile jsWsChar).length

/-- The step text of a step part:
`stepPart.match(/^(\d+)\.\s*(.+)$/)` gives group 2 when it matches,
otherwise the step part itself. -/
def stepTextOfPart (stepPart : String) : String :=
  let ds := stepPart.data.takeWhile Char.isDigit
  if ds.isEmpty then stepPart
  else
    match stepPart.data.drop ds.length with
    | '.' :: r =>
      match ordinalTailMatch r with
      | some t => String.mk t
      | none => stepPart
    | _ => stepPart

/-- The fixed placeholder used when a line carries no expected result. -/
def placeholderText : String := "Verify step completes successfully"

/-- `line.split("|").map(s => s.trim())`. -/
def lineParts (line : String) : List String :=
  (jsSplit '|' line).map jsTrim

/-- The step text generated for one line of `convertStepsToXml`. -/
def stepTextOfLine (line : String) : String :=
  stepTextOfPart ((lineParts line).headD "")

/-- The expected text generated for one line of `convertStepsToXml`
(`expectedPart || "Verify step completes successfully"`). -/
def expectedTextOfLine (line : String) : String :=
  jsOrStr ((lineParts line).get? 1) placeholderText

/-- The apostrophe character. -/
def aposChar : Char := Char.ofNat 39

/-- The per-character replacement of
`s.replace(/[<>&'"]/g, c => ({...})[c] || c)`. -/
def escChar (c : Char) : String :=
  if c = '<' then "&lt;"
  else if c = '>' then "&gt;"
  else if c = '&' then "&amp;"
  else if c = aposChar then "&apos;"
  else if c = '"' then "&quot;"
  else String.mk [c]

def escChars : List Char → List Char
  | [] => []
  | c :: r => (escChar c).data ++ escChars r

/-- `escapeXml` of server.ts. -/
def escapeXml (s : String) : String := String.mk (escChars s.data)

/-- The step element generated for the line with 1-based index `idx`. -/
def stepXml (idx : Nat) (line : String) : String :=
  "<step id=\"" ++ toString idx ++ "\" type=\"ActionStep\"><parameterizedString isformatted=\"true\">"
    ++ escapeXml (stepTextOfLine line)
    ++ "</parameterizedString><parameterizedString isformatted=\"true\">"
    ++ escapeXml (expectedTextOfLine line)
    ++ "</parameterizedString></step>"

/-- `convertStepsToXml` of server.ts. -/
def convertStepsToXml (steps : String) : String :=
  let lines := (jsSplit '\n' steps).filter (fun l => jsTrim l != "")
  "<steps id=\"0\" last=\"" ++ toString lines.length ++ "\">"
    ++ String.join (lines.enum.map (fun p => stepXml (p.1 + 1) p.2))
    ++ "</steps>"

/-! ### Specification-side companions for the step-text claims -/

/-- Modelled from the XML entity semantics (not from the source): read
one output character, consuming one of the five escapes produced by
`escapeXml` when present.  Strict, as XML is: a bare `&` that does not
begin one of the five entities is ill-formed and rejected, so a
successful reading certifies that every `&` starts an entity. -/
def unescStep : List Char → Option (Char × List Char)
  | [] => none
  | c :: r =>
    if c = '&' then
      match r with
      | 'l' :: 't' :: ';' :: r3 => some ('<', r3)
      | 'g' :: 't' :: ';' :: r3 => some ('>', r3)
      | 'a' :: 'm' :: 'p' :: ';' :: r4 => some ('&', r4)
      | 'a' :: 'p' :: 'o' :: 's' :: ';' :: r5 => some (aposChar, r5)
      | 'q' :: 'u' :: 'o' :: 't' :: ';' :: r5 => some ('"', r5)
      | _ => none
    else some (c, r)

/-- Modelled from the XML entity semantics: strictly unescape a
character list (fuelled by its length; each successful step consumes at
least one character), failing on any ill-formed bare `&`. -/
def unescCharsFuel : Nat → List Char → Option (List Char)
  | _, [] => some []
  | 0, _ :: _ => none
  | fuel + 1, c :: r =>
    (unescStep (c :: r)).bind fun p =>
    (unescCharsFuel fuel p.2).map fun cs => p.1 :: cs

/-- Strict XML unescaping on strings (`none` on ill-formed input). -/
def unescapeXml (s : String) : Option String :=
  (unescCharsFuel s.data.length s.data).map String.mk

/-- Specification-side: the text before the first `|` of a line. -/
def beforeFirstPipe (l : List Char) : List Char :=
  l.takeWhile (fun c => c != '|')

/-- Specification-side: the text between the first and second `|` of a
line, when a first `|` exists. -/
def betweenFirstPipes (l : List Char) : Option (List Char) :=
  if '|' ∈ l then some (((l.dropWhile (fun c => c != '|')).tail).takeWhile (fun c => c != '|'))
  else none

/-! ## Further JavaScript string/array helpers used by handlers -/

/-- Template interpolation of an argument value. -/
def Arg.interp : Arg → String
  | .str s => s
  | .num n => toString n
  | .bool b => cond b "true" "false"
  | .null => "null"
  | .undefined => "undefined"
  | .list _ => ""
  | .obj _ => "[object Object]"

/-- Read an `Arg` as an optional string. -/
def Arg.asStrOpt : Arg → Option String
  | .str s => some s
  | _ => none

/-- The `v?.length` truthiness test used by the search handlers. -/
def Arg.hasLen : Arg → Bool
  | .str s => s != ""
  | .list l => !l.isEmpty
  | _ => false

/-- An optional numeric map entry as an argument (`undefined` when absent). -/
def argOfIntOpt (o : Option Int) : Arg :=
  match o with
  | some v => .num v
  | none => .undefined

/-- `name?.startsWith(p)` (with `undefined` giving `false`). -/
def optStartsWith (o : Option String) (p : String) : Bool :=
  match o with
  | some s => p.isPrefixOf s
  | none => false

/-- `url?.endsWith(suf)` (with `undefined` giving `false`). -/
def optEndsWith (o : Option String) (suf : String) : Bool :=
  match o with
  | some s => suf.data.isSuffixOf s.data
  | none => false

/-- `rel?.includes(sub)` (with `undefined` giving `false`). -/
def optIncludes (o : Option String) (sub : String) : Bool :=
  match o with
  | some s => listContainsSub s.data sub.data
  | none => false

/-- JavaScript `String.prototype.replace` with a plain-string pattern:
only the first occurrence is replaced. -/
def replaceFirstChars (pat repl : List Char) : List Char → List Char
  | [] => if pat.isEmpty then repl else []
  | c :: r =>
    if pat.isPrefixOf (c :: r) then repl ++ (c :: r).drop pat.length
    else c :: replaceFirstChars pat repl r

/-- `name?.replace(pat, repl)` on an optional string. -/
def optReplaceFirst (o : Option String) (pat repl : String) : Option String :=
  o.map fun s => String.mk (replaceFirstChars pat.data repl.data s.data)

/-- Ref-name normalization of the pull-request handlers:
`s.startsWith("refs/") ? s : "refs/heads/" + s`. -/
def refFullName (s : String) : String :=
  if "refs/".isPrefixOf s then s else "refs/heads/" ++ s

/-- Rendering of an opaque fetched list in a text envelope.  This
abstracts `JSON.stringify(x, null, 2)`; no claim depends on its output. -/
def jstrNamed (l : List (Option String)) : String :=
  String.intercalate "\n" (l.map fun o => o.getD "null")

/-- Rendering of a fetched git-ref list; abstracts `JSON.stringify`. -/
def jstrRefs (l : List GitRef) : String :=
  String.intercalate "\n" (l.map fun r => (r.name.getD "null") ++ " " ++ (r.objectId.getD "null"))

/-- Rendering of a list of call results; abstracts `JSON.stringify`. -/
def jstrList (l : List String) : String :=
  String.intercalate "\n" l

/-! ## utils/index.ts -/

/-- The `apiVersion` constant of utils/index.ts. -/
def apiVersion : String := "7.2-preview.1"

/-- The `getUserAgent` function of utils/index.ts. -/
def getUserAgent : String := "mcp-azure-devops/1.0.0"

def encodeLtGt : List Char → List Char
  | [] => []
  | c :: r =>
    if c = '<' then '&' :: 'l' :: 't' :: ';' :: encodeLtGt r
    else if c = '>' then '&' :: 'g' :: 't' :: ';' :: encodeLtGt r
    else c :: encodeLtGt r

/-- `encodeFormattedValue` of utils/index.ts. -/
def encodeFormattedValue (value : String) (format : Option String) : String :=
  if value = "" then value
  else match format with
       | some "Markdown" => String.mk (encodeLtGt value.data)
       | _ => value

/-! ## shared/auth.ts: base64, UTF-8 and the PAT Basic header -/

def hexDigitUpper (n : Nat) : Char := "0123456789ABCDEF".data.getD n '0'

/-- UTF-8 encoding of one scalar value (used by `Buffer.from(string)`). -/
def utf8EncodeChar (c : Char) : List Nat :=
  let n := c.toNat
  if n < 128 then [n]
  else if n < 2048 then [192 + n / 64, 128 + n % 64]
  else if n < 65536 then [224 + n / 4096, 128 + n / 64 % 64, 128 + n % 64]
  else [240 + n / 262144, 128 + n / 4096 % 64, 128 + n / 64 % 64, 128 + n % 64]

/-- UTF-8 encoding of a string as a byte list (each byte a `Nat` < 256). -/
def utf8Encode (s : String) : List Nat := (s.data.map utf8EncodeChar).flatten

/-- `encodeURIComponent`: unreserved characters kept, all others
percent-encoded bytewise in UTF-8. -/
def encodeURIComponent (s : String) : String :=
  String.mk ((s.data.map fun c =>
    if c.isAlphanum || c ∈ ['-', '_', '.', '!', '~', '*', aposChar, '(', ')'] then [c]
    else ((utf8EncodeChar c).map fun b => ['%', hexDigitUpper (b / 16), hexDigitUpper (b % 16)]).flatten).flatten)

def b64Alphabet : List Char :=
  "ABCDEFGHIJKLMNOPQRSTUVWXYZabcdefghijklmnopqrstuvwxyz0123456789+/".data

def b64CharOf (n : Nat) : Char := b64Alphabet.getD n 'A'

def b64IndexOf (c : Char) : Option Nat := b64Alphabet.findIdx? (fun x => x == c)

/-- Standard base64 with padding (`Buffer.prototype.toString("base64")`). -/
def b64EncodeList : List Nat → List Char
  | b1 :: b2 :: b3 :: rest =>
    let n := b1 * 65536 + b2 * 256 + b3
    b64CharOf (n / 262144) :: b64CharOf (n / 4096 % 64) :: b64CharOf (n / 64 % 64) ::
      b64CharOf (n % 64) :: b64EncodeList rest
  | [b1, b2] =>
    let n := b1 * 1024 + b2 * 4
    [b64CharOf (n / 4096), b64CharOf (n / 64 % 64), b64CharOf (n % 64), '=']
  | [b1] =>
    let n := b1 * 16
    [b64CharOf (n / 64), b64CharOf (n % 64), '=', '=']
  | [] => []

/-- Modelled from the base64 semantics (not from the source): the inverse
reading of a padded base64 text back to bytes. -/
def b64DecodeList : List Char → Option (List Nat)
  | c1 :: c2 :: c3 :: c4 :: rest =>
    (b64IndexOf c1).bind fun i1 =>
    (b64IndexOf c2).bind fun i2 =>
    if c3 = '=' then
      if c4 = '=' ∧ rest = [] then some [i1 * 4 + i2 / 16] else none
    else
      (b64IndexOf c3).bind fun i3 =>
      if c4 = '=' then
        if rest = [] then some [i1 * 4 + i2 / 16, i2 % 16 * 16 + i3 / 4] else none
      else
        (b64IndexOf c4).bind fun i4 =>
        (b64DecodeList rest).map fun bs =>
          (i1 * 4 + i2 / 16) :: (i2 % 16 * 16 + i3 / 4) :: (i3 % 4 * 64 + i4) :: bs
  | [] => some []
  | _ => none

/-- Modelled from the UTF-8 semantics: decode one scalar value. -/
def utf8DecodeOne : List Nat → Option (Nat × List Nat)
  | [] => none
  | b :: r =>
    if b < 128 then some (b, r)
    else if b < 192 then none
    else if b < 224 then
      match r with
      | b2 :: r2 =>
        if 128 ≤ b2 ∧ b2 < 192 then some ((b - 192) * 64 + (b2 - 128), r2) else none
      | [] => none
    else if b < 240 then
      match r with
      | b2 :: b3 :: r3 =>
        if (128 ≤ b2 ∧ b2 < 192) ∧ (128 ≤ b3 ∧ b3 < 192) then
          some ((b - 224) * 4096 + (b2 - 128) * 64 + (b3 - 128), r3)
        else none
      | _ => none
    else if b < 248 then
      match r with
      | b2 :: b3 :: b4 :: r4 =>
        if (128 ≤ b2 ∧ b2 < 192) ∧ (128 ≤ b3 ∧ b3 < 192) ∧ (128 ≤ b4 ∧ b4 < 192) then
          some ((b - 240) * 262144 + (b2 - 128) * 4096 + (b3 - 128) * 64 + (b4 - 128), r4)
        else none
      | _ => none
    else none

/-- Modelled from the UTF-8 semantics: decode a byte list to characters
(fuelled by the list length). -/
def utf8DecodeChars : Nat → List Nat → Option (List Char)
  | _, [] => some []
  | 0, _ :: _ => none
  | fuel + 1, l =>
    (utf8DecodeOne l).bind fun p =>
    if Nat.isValidChar p.1 then
      (utf8DecodeChars fuel p.2).map fun cs => Char.ofNat p.1 :: cs
    else none

/-- Modelled from the UTF-8 semantics: decode a byte list to a string. -/
def utf8DecodeString (bs : List Nat) : Option String :=
  (utf8DecodeChars bs.length bs).map String.mk

/-- `getPatAuthHeader` of auth.ts:
`Basic ` + base64 of the UTF-8 bytes of `":" + pat`. -/
def getPatAuthHeader (pat : String) : String :=
  "Basic " ++ String.mk (b64EncodeList (utf8Encode (":" ++ pat)))

/-! ## shared/auth.ts: memoized client construction -/

/-- The observable state of an `AzureDevOpsClient`: `constructions`
counts `createPatClient` invocations (ghost instrumentation), and
`clientPromise` holds the promise stored by the first call, identified by
its construction index.  The field is assigned synchronously, before the
promise resolves, exactly as in `getClient`. -/
structure ClientState where
  constructions : Nat
  clientPromise : Option Nat

def initialClientState : ClientState := ⟨0, none⟩

/-- `getClient` of auth.ts:
`if (!this.clientPromise) { this.clientPromise = createPatClient(this.config); } return this.clientPromise;`. -/
def getClient (st : ClientState) : Nat × ClientState :=
  match st.clientPromise with
  | some p => (p, st)
  | none => (st.constructions, ⟨st.constructions + 1, some st.constructions⟩)

/-- The handles observed by a sequence of `n` calls to `getClient`
(concurrent callers interleave on the single-threaded event loop, so any
interleaving is this sequence). -/
def getClientCalls (st : ClientState) : Nat → List Nat × ClientState
  | 0 => ([], st)
  | n + 1 =>
    let (p, st1) := getClient st
    let (ps, st2) := getClientCalls st1 n
    (p :: ps, st2)

/-! ## server.ts: the fixed lookup tables of the dispatcher -/

/-- The `statusMap` of `repo_list_pull_requests_by_repo_or_project`. -/
def prStatusMap : List (String × Int) :=
  [("Abandoned", 2), ("Active", 1), ("All", 4), ("Completed", 3), ("NotSet", 0)]

/-- The `statusMap` of `repo_update_pull_request`. -/
def updatePrStatusMap : List (String × Int) :=
  [("active", 1), ("abandoned", 2), ("completed", 3)]

/-- The `statusMap` of the pull-request thread handlers. -/
def threadStatusMap : List (String × Int) :=
  [("active", 1), ("fixed", 2), ("wontFix", 3), ("closed", 4), ("pending", 6)]

/-- The `expandMap` of `wit_get_work_item` and `wit_get_work_items_batch_by_ids`. -/
def witExpandMap : List (String × Int) :=
  [("all", 4), ("fields", 1), ("links", 2), ("none", 0), ("relations", 3)]

/-- The `expandMap` of `wit_get_query`. -/
def queryExpandMap : List (String × Int) :=
  [("all", 2), ("clauses", 1), ("minimal", 0), ("none", 0), ("wiql", 1)]

/-- The `linkTypeMap` of `wit_work_items_link`. -/
def linkTypeMap : List (String × String) :=
  [("parent", "System.LinkTypes.Hierarchy-Reverse"), ("child", "System.LinkTypes.Hierarchy-Forward"),
   ("related", "System.LinkTypes.Related"), ("duplicate", "System.LinkTypes.Duplicate-Forward")]

/-- The `stageUpdateMap` of `pipelines_update_build_stage`. -/
def stageUpdateMap : List (String × Int) :=
  [("Retry", 1), ("Cancel", 2)]

/-- The numeric criteria status sent by `repo_list_pull_requests_by_repo_or_project`:
`statusMap[status] || 1`. -/
def prCriteriaStatus (status : String) : Int :=
  jsOrInt (prStatusMap.lookup status) 1

/-! ## server.ts: catalog and dispatcher -/

/-- Per-invocation context: `connection.serverUrl`, the module-level
`orgName`, and the auth-header/user-agent providers. -/
structure Ctx where
  serverUrl : String
  orgName : String
  authHeader : String
  userAgent : String

/-- The names of the 82 descriptors returned by `getAllToolDefinitions`,
in catalog order. -/
def toolNames : List String :=
  ["core_list_project_teams", "core_list_projects", "core_get_identity_ids",
   "repo_list_repos_by_project", "repo_get_repo_by_name_or_id", "repo_list_branches_by_repo",
   "repo_list_my_branches_by_repo", "repo_get_branch_by_name", "repo_create_branch",
   "repo_list_pull_requests_by_repo_or_project", "repo_get_pull_request_by_id",
   "repo_create_pull_request", "repo_update_pull_request", "repo_update_pull_request_reviewers",
   "repo_list_pull_request_threads", "repo_list_pull_request_thread_comments",
   "repo_create_pull_request_thread", "repo_update_pull_request_thread", "repo_reply_to_comment",
   "repo_search_commits", "repo_list_pull_requests_by_commits",
   "wit_get_work_item", "wit_get_work_items_batch_by_ids", "wit_create_work_item",
   "wit_update_work_item", "wit_update_work_items_batch", "wit_my_work_items",
   "wit_list_backlogs", "wit_list_backlog_work_items", "wit_list_work_item_comments",
   "wit_add_work_item_comment", "wit_list_work_item_revisions", "wit_get_work_items_for_iteration",
   "wit_add_child_work_items", "wit_work_items_link", "wit_work_item_unlink",
   "wit_link_work_item_to_pull_request", "wit_add_artifact_link", "wit_get_work_item_type",
   "wit_get_query", "wit_get_query_results_by_id",
   "pipelines_get_builds", "pipelines_get_build_changes", "pipelines_get_build_definitions",
   "pipelines_get_build_definition_revisions", "pipelines_get_build_log",
   "pipelines_get_build_log_by_id", "pipelines_get_build_status", "pipelines_update_build_stage",
   "pipelines_create_pipeline", "pipelines_get_run", "pipelines_list_runs",
   "pipelines_run_pipeline", "pipelines_list_artifacts", "pipelines_download_artifact",
   "wiki_list_wikis", "wiki_get_wiki", "wiki_list_pages", "wiki_get_page",
   "wiki_get_page_content", "wiki_create_or_update_page",
   "search_code", "search_wiki", "search_workitem",
   "testplan_list_test_plans", "testplan_create_test_plan", "testplan_list_test_suites",
   "testplan_create_test_suite", "testplan_list_test_cases", "testplan_create_test_case",
   "testplan_update_test_case_steps", "testplan_add_test_cases_to_suite",
   "testplan_show_test_results_from_build_id",
   "advsec_get_alerts", "advsec_get_alert_details",
   "work_list_team_iterations", "work_list_iterations", "work_create_iterations",
   "work_assign_iterations", "work_get_team_capacity", "work_update_team_capacity",
   "work_get_iteration_capacities"]

/-- Each `case` of the `handleToolCall` switch is embedded as a named
branch function; each issues the downstream operations of its source case
in order and wraps the serialized result in a one-element text envelope.
The switch itself is the dispatch `handleToolCall` below. -/
def branch_core_list_project_teams (ctx : Ctx) (args : Args) : M Envelope := do
  let _ ← mCall "connection.getCoreApi" []
  let teams ← mCall "coreApi.getTeams" [args "project", args "mine", args "top", args "skip", .bool false]
  pure (textResult teams)

def branch_core_list_projects (ctx : Ctx) (args : Args) : M Envelope := do
  let _ ← mCall "connection.getCoreApi" []
  let projects ← mNamed "coreApi.getProjects" [args "stateFilter", args "top", args "skip"]
  let projects := if (args "projectNameFilter").truthy then
      projects.filter (fun p => jsIncludesCI p (args "projectNameFilter").asStr)
    else projects
  pure (textResult (jstrNamed projects))

def branch_core_get_identity_ids (ctx : Ctx) (args : Args) : M Envelope := do
  let resp ← mHttp "fetch" [.str ("https://vssps.dev.azure.com/" ++ ctx.orgName
    ++ "/_apis/identities?api-version=" ++ apiVersion
    ++ "&searchFilter=General&filterValue=" ++ encodeURIComponent (args "searchFilter").asStr)]
  pure (textResult resp.body)

def branch_repo_list_repos_by_project (ctx : Ctx) (args : Args) : M Envelope := do
  let _ ← mCall "connection.getGitApi" []
  let repos ← mNamed "gitApi.getRepositories" [args "project"]
  let top := ((args "top").withDefault (.num 100)).asInt
  let skip := ((args "skip").withDefault (.num 0)).asInt
  let repos := if (args "repoNameFilter").truthy then
      repos.filter (fun r => jsIncludesCI r (args "repoNameFilter").asStr)
    else repos
  pure (textResult (jstrNamed (jsSlice repos skip (skip + top))))

def branch_repo_get_repo_by_name_or_id (ctx : Ctx) (args : Args) : M Envelope := do
  let _ ← mCall "connection.getGitApi" []
  let repo ← mCall "gitApi.getRepository" [args "repositoryId", args "project"]
  pure (textResult repo)

def branch_repo_list_branches_by_repo (ctx : Ctx) (args : Args) : M Envelope := do
  let _ ← mCall "connection.getGitApi" []
  let top := ((args "top").withDefault (.num 100)).asInt
  let branches ← mRefs "gitApi.getRefs" [args "repositoryId", .undefined, .str "heads/",
    .undefined, .undefined, .undefined, .undefined, .undefined, args "filterContains"]
  let result := (branches.filter (fun b => optStartsWith b.name "refs/heads/")).map
    (fun b => optReplaceFirst b.name "refs/heads/" "")
  pure (textResult (jstrNamed (jsSlice result 0 top)))

def branch_repo_list_my_branches_by_repo (ctx : Ctx) (args : Args) : M Envelope := do
  let _ ← mCall "connection.getGitApi" []
  let top := ((args "top").withDefault (.num 100)).asInt
  let branches ← mRefs "gitApi.getRefs" [args "repositoryId", .undefined, .str "heads/",
    .undefined, .undefined, .undefined, .undefined, .undefined]
  let result := branches.filter (fun b => optStartsWith b.name "refs/heads/")
  pure (textResult (jstrRefs (jsSlice result 0 top)))

def branch_repo_get_branch_by_name (ctx : Ctx) (args : Args) : M Envelope := do
  let _ ← mCall "connection.getGitApi" []
  let branch ← mCall "gitApi.getBranch" [args "repositoryId", args "branchName"]
  pure (textResult branch)

def branch_repo_create_branch (ctx : Ctx) (args : Args) : M Envelope := do
  let _ ← mCall "connection.getGitApi" []
  let sourceBranchName := ((args "sourceBranchName").withDefault (.str "main")).asStr
  if (args "sourceCommitId").truthy then do
    let result ← mCall "gitApi.updateRefs" [.list [.obj
      [("name", .str ("refs/heads/" ++ (args "branchName").asStr)),
       ("newObjectId", args "sourceCommitId"),
       ("oldObjectId", .str "0000000000000000000000000000000000000000")]], args "repositoryId"]
    pure (textResult result)
  else do
    let refs ← mRefs "gitApi.getRefs" [args "repositoryId", .undefined,
      .str ("heads/" ++ sourceBranchName)]
    match refs.find? (fun r => r.name == some ("refs/heads/" ++ sourceBranchName)) with
    | none => pure (errorResult ("Source branch \x27" ++ sourceBranchName ++ "\x27 not found"))
    | some ref =>
      match ref.objectId with
      | none => pure (errorResult ("Source branch \x27" ++ sourceBranchName ++ "\x27 not found"))
      | some oid =>
        if oid = "" then
          pure (errorResult ("Source branch \x27" ++ sourceBranchName ++ "\x27 not found"))
        else do
          let result ← mCall "gitApi.updateRefs" [.list [.obj
            [("name", .str ("refs/heads/" ++ (args "branchName").asStr)),
             ("newObjectId", .str oid),
             ("oldObjectId", .str "0000000000000000000000000000000000000000")]], args "repositoryId"]
          pure (textResult result)

def branch_repo_list_pull_requests_by_repo_or_project (ctx : Ctx) (args : Args) : M Envelope := do
  let _ ← mCall "connection.getGitApi" []
  let top := ((args "top").withDefault (.num 100)).asInt
  let skip := ((args "skip").withDefault (.num 0)).asInt
  let status := ((args "status").withDefault (.str "Active")).asStr
  if (args "repositoryId").truthy then do
    let prs ← mCall "gitApi.getPullRequests" [args "repositoryId",
      .obj [("status", .num (prCriteriaStatus status))], args "project", .undefined, .num skip, .num top]
    pure (textResult prs)
  else if (args "project").truthy then do
    let prs ← mCall "gitApi.getPullRequestsByProject" [args "project",
      .obj [("status", .num (prCriteriaStatus status))], .undefined, .num skip, .num top]
    pure (textResult prs)
  else pure (errorResult "Either repositoryId or project required")

def branch_repo_get_pull_request_by_id (ctx : Ctx) (args : Args) : M Envelope := do
  let _ ← mCall "connection.getGitApi" []
  let pr ← mCall "gitApi.getPullRequest" [args "repositoryId", args "pullRequestId",
    .undefined, .undefined, .undefined, .undefined, .undefined, args "includeWorkItemRefs"]
  pure (textResult pr)

def branch_repo_create_pull_request (ctx : Ctx) (args : Args) : M Envelope := do
  let _ ← mCall "connection.getGitApi" []
  let pr ← mCall "gitApi.createPullRequest" [.obj
    [("sourceRefName", .str (refFullName (args "sourceRefName").asStr)),
     ("targetRefName", .str (refFullName (args "targetRefName").asStr)),
     ("title", args "title"), ("description", args "description"), ("isDraft", args "isDraft"),
     ("reviewers", (args "reviewers").mapList (fun id => .obj [("id", id)]))],
    args "repositoryId"]
  pure (textResult pr)

def branch_repo_update_pull_request (ctx : Ctx) (args : Args) : M Envelope := do
  let _ ← mCall "connection.getGitApi" []
  let update :=
    (if (args "title").truthy then [("title", args "title")] else [])
    ++ (if (args "description").truthy then [("description", args "description")] else [])
    ++ (if (args "status").truthy then
          [("status", argOfIntOpt (updatePrStatusMap.lookup (args "status").asStr))] else [])
    ++ (if (args "targetRefName").truthy then
          [("targetRefName", .str (refFullName (args "targetRefName").asStr))] else [])
  let pr ← mCall "gitApi.updatePullRequest" [.obj update, args "repositoryId", args "pullRequestId"]
  pure (textResult pr)

def branch_repo_update_pull_request_reviewers (ctx : Ctx) (args : Args) : M Envelope := do
  let _ ← mCall "connection.getGitApi" []
  let reviewer ← mCall "gitApi.createPullRequestReviewer" [.obj
    [("vote", (args "vote").withDefault (.num 0)), ("isRequired", args "isRequired")],
    args "repositoryId", args "pullRequestId", args "reviewerId"]
  pure (textResult reviewer)

def branch_repo_list_pull_request_threads (ctx : Ctx) (args : Args) : M Envelope := do
  let _ ← mCall "connection.getGitApi" []
  let threads ← mCall "gitApi.getThreads" [args "repositoryId", args "pullRequestId"]
  pure (textResult threads)

def branch_repo_list_pull_request_thread_comments (ctx : Ctx) (args : Args) : M Envelope := do
  let _ ← mCall "connection.getGitApi" []
  let comments ← mCall "gitApi.getComments" [args "repositoryId", args "pullRequestId", args "threadId"]
  pure (textResult comments)

def branch_repo_create_pull_request_thread (ctx : Ctx) (args : Args) : M Envelope := do
  let _ ← mCall "connection.getGitApi" []
  let lineNumber := if (args "lineNumber").truthy then args "lineNumber" else .num 1
  let thread :=
    [("comments", Arg.list [.obj [("content", args "content"), ("commentType", .num 1)]]),
     ("status", Arg.num (jsOrInt (threadStatusMap.lookup (args "status").asStr) 1))]
    ++ (if (args "filePath").truthy then
         [("threadContext", Arg.obj
           [("filePath", args "filePath"),
            ("rightFileStart", .obj [("line", lineNumber), ("offset", .num 1)]),
            ("rightFileEnd", .obj [("line", lineNumber), ("offset", .num 1)])])]
        else [])
  let result ← mCall "gitApi.createThread" [.obj thread, args "repositoryId", args "pullRequestId"]
  pure (textResult result)

def branch_repo_update_pull_request_thread (ctx : Ctx) (args : Args) : M Envelope := do
  let _ ← mCall "connection.getGitApi" []
  let thread ← mCall "gitApi.updateThread" [.obj
    [("status", argOfIntOpt (threadStatusMap.lookup (args "status").asStr))],
    args "repositoryId", args "pullRequestId", args "threadId"]
  pure (textResult thread)

def branch_repo_reply_to_comment (ctx : Ctx) (args : Args) : M Envelope := do
  let _ ← mCall "connection.getGitApi" []
  let comment ← mCall "gitApi.createComment" [.obj
    [("content", args "content"), ("commentType", .num 1)],
    args "repositoryId", args "pullRequestId", args "threadId"]
  pure (textResult comment)

def branch_repo_search_commits (ctx : Ctx) (args : Args) : M Envelope := do
  let _ ← mCall "connection.getGitApi" []
  let top := ((args "top").withDefault (.num 100)).asInt
  let criteria :=
    [("$top", Arg.num top)]
    ++ (if (args "author").truthy then [("author", args "author")] else [])
    ++ (if (args "fromDate").truthy then [("fromDate", args "fromDate")] else [])
    ++ (if (args "toDate").truthy then [("toDate", args "toDate")] else [])
  let commits ← mNamed "gitApi.getCommits" [args "repositoryId", .obj criteria, args "project"]
  let result := if (args "searchText").truthy then
      commits.filter (fun c => jsIncludesCI c (args "searchText").asStr)
    else commits
  pure (textResult (jstrNamed result))

def branch_repo_list_pull_requests_by_commits (ctx : Ctx) (args : Args) : M Envelope := do
  let _ ← mCall "connection.getGitApi" []
  let commitIds ← mOfExcept (args "commitIds").asList
  let result ← mCall "gitApi.getPullRequestQuery" [.obj
    [("queries", .list (commitIds.map (fun id => .obj [("type", .num 1), ("items", .list [id])])))],
    args "repositoryId", args "project"]
  pure (textResult result)

def branch_wit_get_work_item (ctx : Ctx) (args : Args) : M Envelope := do
  let _ ← mCall "connection.getWorkItemTrackingApi" []
  let workItem ← mCall "witApi.getWorkItem" [args "id", args "fields", .undefined,
    argOfIntOpt (witExpandMap.lookup (args "expand").asStr), args "project"]
  pure (textResult workItem)

def branch_wit_get_work_items_batch_by_ids (ctx : Ctx) (args : Args) : M Envelope := do
  let _ ← mCall "connection.getWorkItemTrackingApi" []
  let workItems ← mCall "witApi.getWorkItems" [args "ids", args "fields", .undefined,
    argOfIntOpt (witExpandMap.lookup (args "expand").asStr), .undefined, args "project"]
  pure (textResult workItems)

def branch_wit_create_work_item (ctx : Ctx) (args : Args) : M Envelope := do
  let _ ← mCall "connection.getWorkItemTrackingApi" []
  let fields ← mOfExcept (args "fields").asList
  let document := Arg.list (fields.map (fun f => .obj
    [("op", .str "add"), ("path", .str ("/fields/" ++ (f.fieldOf "name").asStr)),
     ("value", .str (encodeFormattedValue (f.fieldOf "value").asStr (f.fieldOf "format").asStrOpt))]))
  let workItem ← mCall "witApi.createWorkItem" [.null, document, args "project", args "workItemType"]
  pure (textResult workItem)

def branch_wit_update_work_item (ctx : Ctx) (args : Args) : M Envelope := do
  let _ ← mCall "connection.getWorkItemTrackingApi" []
  let workItem ← mCall "witApi.updateWorkItem" [.null, args "updates", args "id"]
  pure (textResult workItem)

def branch_wit_update_work_items_batch (ctx : Ctx) (args : Args) : M Envelope := do
  let _ ← mCall "connection.getWorkItemTrackingApi" []
  let workItems ← mOfExcept (args "workItems").asList
  let results ← forSeq (fun item =>
    mCall "witApi.updateWorkItem" [.null, item.fieldOf "updates", item.fieldOf "id"]) workItems
  pure (textResult (jstrList results))

def branch_wit_my_work_items (ctx : Ctx) (args : Args) : M Envelope := do
  let _ ← mCall "connection.getWorkItemTrackingApi" []
  let type := ((args "type").withDefault (.str "assignedtome")).asStr
  let top := ((args "top").withDefault (.num 50)).asInt
  let wiql := if type = "assignedtome" then
      "SELECT [System.Id] FROM WorkItems WHERE [System.AssignedTo] = @Me AND [System.TeamProject] = \x27"
        ++ (args "project").interp ++ "\x27 ORDER BY [System.ChangedDate] DESC"
    else
      "SELECT [System.Id] FROM WorkItems WHERE ([System.AssignedTo] = @Me OR [System.CreatedBy] = @Me) AND [System.TeamProject] = \x27"
        ++ (args "project").interp ++ "\x27 ORDER BY [System.ChangedDate] DESC"
  let result ← mCall "witApi.queryByWiql" [.obj [("query", .str wiql)], args "project", .undefined, .num top]
  pure (textResult result)

def branch_wit_list_backlogs (ctx : Ctx) (args : Args) : M Envelope := do
  let _ ← mCall "connection.getWorkApi" []
  let backlogs ← mCall "workApi.getBacklogs" [.obj [("project", args "project"), ("team", args "team")]]
  pure (textResult backlogs)

def branch_wit_list_backlog_work_items (ctx : Ctx) (args : Args) : M Envelope := do
  let _ ← mCall "connection.getWorkApi" []
  let items ← mCall "workApi.getBacklogLevelWorkItems" [.obj
    [("project", args "project"), ("team", args "team")], args "backlogId"]
  pure (textResult items)

def branch_wit_list_work_item_comments (ctx : Ctx) (args : Args) : M Envelope := do
  let _ ← mCall "connection.getWorkItemTrackingApi" []
  let comments ← mCall "witApi.getComments" [args "project", args "workItemId"]
  pure (textResult comments)

def branch_wit_add_work_item_comment (ctx : Ctx) (args : Args) : M Envelope := do
  let _ ← mCall "connection.getWorkItemTrackingApi" []
  let comment ← mCall "witApi.addComment" [.obj [("text", args "text")], args "project", args "workItemId"]
  pure (textResult comment)

def branch_wit_list_work_item_revisions (ctx : Ctx) (args : Args) : M Envelope := do
  let _ ← mCall "connection.getWorkItemTrackingApi" []
  let revisions ← mCall "witApi.getRevisions" [args "workItemId", args "top", args "skip"]
  pure (textResult revisions)

def branch_wit_get_work_items_for_iteration (ctx : Ctx) (args : Args) : M Envelope := do
  let _ ← mCall "connection.getWorkApi" []
  let items ← mCall "workApi.getIterationWorkItems" [.obj
    [("project", args "project"), ("team", args "team")], args "iterationId"]
  pure (textResult items)

def branch_wit_add_child_work_items (ctx : Ctx) (args : Args) : M Envelope := do
  let _ ← mCall "connection.getWorkItemTrackingApi" []
  let childIds ← mOfExcept (args "childIds").asList
  let results ← forSeq (fun childId =>
    mCall "witApi.updateWorkItem" [.null, .list [.obj
      [("op", .str "add"), ("path", .str "/relations/-"),
       ("value", .obj [("rel", .str "System.LinkTypes.Hierarchy-Forward"),
         ("url", .str (ctx.serverUrl ++ "/_apis/wit/workItems/" ++ childId.interp))])]],
      args "parentId"]) childIds
  pure (textResult (jstrList results))

def branch_wit_work_items_link (ctx : Ctx) (args : Args) : M Envelope := do
  let _ ← mCall "connection.getWorkItemTrackingApi" []
  let rel := jsOrStr (linkTypeMap.lookup (args "linkType").asStr) (args "linkType").asStr
  let updated ← mCall "witApi.updateWorkItem" [.null, .list [.obj
    [("op", .str "add"), ("path", .str "/relations/-"),
     ("value", .obj [("rel", .str rel),
       ("url", .str (ctx.serverUrl ++ "/_apis/wit/workItems/" ++ (args "targetId").interp)),
       ("attributes", if (args "comment").truthy then .obj [("comment", args "comment")] else .undefined)])]],
    args "sourceId"]
  pure (textResult updated)

def branch_wit_work_item_unlink (ctx : Ctx) (args : Args) : M Envelope := do
  let _ ← mCall "connection.getWorkItemTrackingApi" []
  let relations ← mRels "witApi.getWorkItem" [args "sourceId", .undefined, .undefined, .num 3]
  match relations.findIdx? (fun r =>
      optEndsWith r.url ("/" ++ (args "targetId").interp) && optIncludes r.rel (args "linkType").asStr) with
  | none => pure (errorResult "Link not found")
  | some idx => do
      let updated ← mCall "witApi.updateWorkItem" [.null, .list [.obj
        [("op", .str "remove"), ("path", .str ("/relations/" ++ toString idx))]], args "sourceId"]
      pure (textResult updated)

def branch_wit_link_work_item_to_pull_request (ctx : Ctx) (args : Args) : M Envelope := do
  let _ ← mCall "connection.getWorkItemTrackingApi" []
  let updated ← mCall "witApi.updateWorkItem" [.null, .list [.obj
    [("op", .str "add"), ("path", .str "/relations/-"),
     ("value", .obj [("rel", .str "ArtifactLink"),
       ("url", .str ("vstfs:///Git/PullRequestId/" ++ (args "repositoryId").interp
         ++ "/" ++ (args "pullRequestId").interp)),
       ("attributes", .obj [("name", .str "Pull Request")])])]],
    args "workItemId"]
  pure (textResult updated)

def branch_wit_add_artifact_link (ctx : Ctx) (args : Args) : M Envelope := do
  let _ ← mCall "connection.getWorkItemTrackingApi" []
  let linkType := (args "linkType").withDefault (.str "ArtifactLink")
  let updated ← mCall "witApi.updateWorkItem" [.null, .list [.obj
    [("op", .str "add"), ("path", .str "/relations/-"),
     ("value", .obj [("rel", linkType), ("url", args "artifactUri"),
       ("attributes", if (args "comment").truthy then .obj [("comment", args "comment")] else .undefined)])]],
    args "workItemId"]
  pure (textResult updated)

def branch_wit_get_work_item_type (ctx : Ctx) (args : Args) : M Envelope := do
  let _ ← mCall "connection.getWorkItemTrackingApi" []
  let witType ← mCall "witApi.getWorkItemType" [args "project", args "type"]
  pure (textResult witType)

def branch_wit_get_query (ctx : Ctx) (args : Args) : M Envelope := do
  let _ ← mCall "connection.getWorkItemTrackingApi" []
  let query ← mCall "witApi.getQuery" [args "project", args "queryPath",
    argOfIntOpt (queryExpandMap.lookup (args "expand").asStr), .num 1]
  pure (textResult query)

def branch_wit_get_query_results_by_id (ctx : Ctx) (args : Args) : M Envelope := do
  let _ ← mCall "connection.getWorkItemTrackingApi" []
  let result ← mCall "witApi.queryById" [args "queryId",
    .obj [("project", args "project"), ("team", args "team")]]
  pure (textResult result)

def branch_pipelines_get_builds (ctx : Ctx) (args : Args) : M Envelope := do
  let _ ← mCall "connection.getBuildApi" []
  let builds ← mCall "buildApi.getBuilds" [args "project", args "definitions", .undefined,
    args "buildNumber", .undefined, .undefined, .undefined, .undefined, args "statusFilter", args "resultFilter",
    .undefined, .undefined, args "top", .undefined, .undefined, .undefined, .undefined, args "branchName"]
  pure (textResult builds)

def branch_pipelines_get_build_changes (ctx : Ctx) (args : Args) : M Envelope := do
  let _ ← mCall "connection.getBuildApi" []
  let top := ((args "top").withDefault (.num 100)).asInt
  let changes ← mCall "buildApi.getBuildChanges" [args "project", args "buildId", .undefined, .num top]
  pure (textResult changes)

def branch_pipelines_get_build_definitions (ctx : Ctx) (args : Args) : M Envelope := do
  let _ ← mCall "connection.getBuildApi" []
  let defs ← mCall "buildApi.getDefinitions" [args "project", args "name", args "repositoryId",
    args "repositoryType", .undefined, args "top", .undefined, .undefined, .undefined, args "path"]
  pure (textResult defs)

def branch_pipelines_get_build_definition_revisions (ctx : Ctx) (args : Args) : M Envelope := do
  let _ ← mCall "connection.getBuildApi" []
  let revisions ← mCall "buildApi.getDefinitionRevisions" [args "project", args "definitionId"]
  pure (textResult revisions)

def branch_pipelines_get_build_log (ctx : Ctx) (args : Args) : M Envelope := do
  let _ ← mCall "connection.getBuildApi" []
  let logs ← mCall "buildApi.getBuildLogs" [args "project", args "buildId"]
  pure (textResult logs)

def branch_pipelines_get_build_log_by_id (ctx : Ctx) (args : Args) : M Envelope := do
  let _ ← mCall "connection.getBuildApi" []
  let logLines ← mCall "buildApi.getBuildLogLines" [args "project", args "buildId", args "logId",
    args "startLine", args "endLine"]
  pure (textResult logLines)

def branch_pipelines_get_build_status (ctx : Ctx) (args : Args) : M Envelope := do
  let _ ← mCall "connection.getBuildApi" []
  let report ← mCall "buildApi.getBuildReport" [args "project", args "buildId"]
  pure (textResult report)

def branch_pipelines_update_build_stage (ctx : Ctx) (args : Args) : M Envelope := do
  let resp ← mHttp "fetch" [.str (ctx.serverUrl ++ "/" ++ (args "project").interp
      ++ "/_apis/build/builds/" ++ (args "buildId").interp ++ "/stages/"
      ++ (args "stageName").interp ++ "?api-version=" ++ apiVersion),
    .obj [("state", .num (jsOrInt (stageUpdateMap.lookup (args "status").asStr) 1)),
          ("forceRetryAllJobs", args "forceRetryAllJobs")]]
  pure (textResult resp.body)

def branch_pipelines_create_pipeline (ctx : Ctx) (args : Args) : M Envelope := do
  let _ ← mCall "connection.getPipelinesApi" []
  let folder := if (args "folder").truthy then args "folder" else .str "\\"
  let pipeline ← mCall "pipelinesApi.createPipeline" [.obj
    [("name", args "name"), ("folder", folder),
     ("configuration", .obj [("type", .str "yaml"), ("path", args "yamlPath"),
       ("repository", .obj [("type", args "repositoryType"), ("name", args "repositoryName"),
         ("id", args "repositoryId")])])], args "project"]
  pure (textResult pipeline)

def branch_pipelines_get_run (ctx : Ctx) (args : Args) : M Envelope := do
  let _ ← mCall "connection.getPipelinesApi" []
  let run ← mCall "pipelinesApi.getRun" [args "project", args "pipelineId", args "runId"]
  pure (textResult run)

def branch_pipelines_list_runs (ctx : Ctx) (args : Args) : M Envelope := do
  let _ ← mCall "connection.getPipelinesApi" []
  let runs ← mCall "pipelinesApi.listRuns" [args "project", args "pipelineId"]
  pure (textResult runs)

def branch_pipelines_run_pipeline (ctx : Ctx) (args : Args) : M Envelope := do
  let _ ← mCall "connection.getPipelinesApi" []
  let run ← mCall "pipelinesApi.runPipeline" [.obj
    [("templateParameters", args "templateParameters"), ("stagesToSkip", args "stagesToSkip"),
     ("variables", args "variables")], args "project", args "pipelineId"]
  pure (textResult run)

def branch_pipelines_list_artifacts (ctx : Ctx) (args : Args) : M Envelope := do
  let _ ← mCall "connection.getBuildApi" []
  let artifacts ← mCall "buildApi.getArtifacts" [args "project", args "buildId"]
  pure (textResult artifacts)

def branch_pipelines_download_artifact (ctx : Ctx) (args : Args) : M Envelope := do
  let _ ← mCall "connection.getBuildApi" []
  let _ ← mCall "buildApi.getArtifactContentZip" [args "project", args "buildId", args "artifactName"]
  if (args "destinationPath").truthy then do
    let _ ← mCall "fs.mkdirSync" [args "destinationPath"]
    let _ ← mCall "stream.pipeToFile" [.str ((args "destinationPath").asStr ++ "/"
      ++ (args "artifactName").asStr ++ ".zip")]
    pure (textResult ("Artifact saved to " ++ (args "destinationPath").asStr ++ "/"
      ++ (args "artifactName").asStr ++ ".zip"))
  else do
    let chunks ← mCall "stream.collect" []
    pure (textResult ("Artifact size: " ++ toString chunks.length ++ " bytes (base64 not shown)"))

def branch_wiki_list_wikis (ctx : Ctx) (args : Args) : M Envelope := do
  let _ ← mCall "connection.getWikiApi" []
  let wikis ← mCall "wikiApi.getAllWikis" [args "project"]
  pure (textResult wikis)

def branch_wiki_get_wiki (ctx : Ctx) (args : Args) : M Envelope := do
  let _ ← mCall "connection.getWikiApi" []
  let wiki ← mCall "wikiApi.getWiki" [args "wikiIdentifier", args "project"]
  pure (textResult wiki)

def branch_wiki_list_pages (ctx : Ctx) (args : Args) : M Envelope := do
  let _ ← mCall "connection.getWikiApi" []
  let top := (args "top").withDefault (.num 20)
  let pages ← mCall "wikiApi.getPagesBatch" [.obj
    [("top", top), ("continuationToken", args "continuationToken")],
    args "project", args "wikiIdentifier"]
  pure (textResult pages)

def branch_wiki_get_page (ctx : Ctx) (args : Args) : M Envelope := do
  let normalizedPath := if "/".isPrefixOf (args "path").asStr then (args "path").asStr
    else "/" ++ (args "path").asStr
  let resp ← mHttp "fetch" [.str (ctx.serverUrl ++ "/" ++ (args "project").interp
    ++ "/_apis/wiki/wikis/" ++ (args "wikiIdentifier").interp
    ++ "/pages?path=" ++ encodeURIComponent normalizedPath
    ++ "&recursionLevel=" ++ (if (args "recursionLevel").truthy then (args "recursionLevel").interp else "None")
    ++ "&api-version=7.1")]
  pure (textResult resp.body)

def branch_wiki_get_page_content (ctx : Ctx) (args : Args) : M Envelope := do
  let _ ← mCall "connection.getWikiApi" []
  let path := ((args "path").withDefault (.str "/")).asStr
  let stream ← mStream "wikiApi.getPageText" [args "project", args "wikiIdentifier", .str path,
    .undefined, .undefined, .bool true]
  match stream with
  | none => pure (errorResult "No content found")
  | some content => pure (textResult content)

def branch_wiki_create_or_update_page (ctx : Ctx) (args : Args) : M Envelope := do
  let normalizedPath := if "/".isPrefixOf (args "path").asStr then (args "path").asStr
    else "/" ++ (args "path").asStr
  let url := ctx.serverUrl ++ "/" ++ jsOrStr (args "project").asStrOpt ""
    ++ "/_apis/wiki/wikis/" ++ (args "wikiIdentifier").interp
    ++ "/pages?path=" ++ encodeURIComponent normalizedPath ++ "&api-version=7.1"
  let resp ← mHttp "fetch" [.str url, args "content",
    if (args "etag").truthy then args "etag" else .undefined]
  if resp.ok then pure (textResult resp.body)
  else do
    let getResp ← mHttp "fetch" [.str url]
    if getResp.ok then
      match getResp.etag with
      | some currentEtag => do
          let updateResp ← mHttp "fetch" [.str url, args "content", .str currentEtag]
          if updateResp.ok then pure (textResult updateResp.body)
          else pure (errorResult resp.body)
      | none => pure (errorResult resp.body)
    else pure (errorResult resp.body)

def branch_search_code (ctx : Ctx) (args : Args) : M Envelope := do
  let filters :=
    (if (args "project").hasLen then [("Project", args "project")] else [])
    ++ (if (args "repository").hasLen then [("Repository", args "repository")] else [])
    ++ (if (args "path").hasLen then [("Path", args "path")] else [])
    ++ (if (args "branch").hasLen then [("Branch", args "branch")] else [])
  let body :=
    [("searchText", args "searchText"),
     ("$skip", (args "skip").withDefault (.num 0)), ("$top", (args "top").withDefault (.num 10))]
    ++ (if !filters.isEmpty then [("filters", Arg.obj filters)] else [])
  let resp ← mHttp "fetch" [.str ("https://almsearch.dev.azure.com/" ++ ctx.orgName
    ++ "/_apis/search/codesearchresults?api-version=" ++ apiVersion), .obj body]
  pure (textResult resp.body)

def branch_search_wiki (ctx : Ctx) (args : Args) : M Envelope := do
  let filters :=
    (if (args "project").hasLen then [("Project", args "project")] else [])
    ++ (if (args "wiki").hasLen then [("Wiki", args "wiki")] else [])
  let body :=
    [("searchText", args "searchText"),
     ("$skip", (args "skip").withDefault (.num 0)), ("$top", (args "top").withDefault (.num 10))]
    ++ (if !filters.isEmpty then [("filters", Arg.obj filters)] else [])
  let resp ← mHttp "fetch" [.str ("https://almsearch.dev.azure.com/" ++ ctx.orgName
    ++ "/_apis/search/wikisearchresults?api-version=" ++ apiVersion), .obj body]
  pure (textResult resp.body)

def branch_search_workitem (ctx : Ctx) (args : Args) : M Envelope := do
  let filters :=
    (if (args "project").hasLen then [("System.TeamProject", args "project")] else [])
    ++ (if (args "workItemType").hasLen then [("System.WorkItemType", args "workItemType")] else [])
    ++ (if (args "state").hasLen then [("System.State", args "state")] else [])
    ++ (if (args "assignedTo").hasLen then [("System.AssignedTo", args "assignedTo")] else [])
  let body :=
    [("searchText", args "searchText"),
     ("$skip", (args "skip").withDefault (.num 0)), ("$top", (args "top").withDefault (.num 10))]
    ++ (if !filters.isEmpty then [("filters", Arg.obj filters)] else [])
  let resp ← mHttp "fetch" [.str ("https://almsearch.dev.azure.com/" ++ ctx.orgName
    ++ "/_apis/search/workitemsearchresults?api-version=" ++ apiVersion), .obj body]
  pure (textResult resp.body)

def branch_testplan_list_test_plans (ctx : Ctx) (args : Args) : M Envelope := do
  let _ ← mCall "connection.getTestPlanApi" []
  let plans ← mCall "testPlanApi.getTestPlans" [args "project", .str "", args "continuationToken",
    (args "includePlanDetails").withDefault (.bool false),
    (args "filterActivePlans").withDefault (.bool true)]
  pure (textResult plans)

def branch_testplan_create_test_plan (ctx : Ctx) (args : Args) : M Envelope := do
  let _ ← mCall "connection.getTestPlanApi" []
  let plan ← mCall "testPlanApi.createTestPlan" [.obj
    [("name", args "name"), ("iteration", args "iteration"), ("description", args "description"),
     ("startDate", if (args "startDate").truthy then .str ("Date(" ++ (args "startDate").interp ++ ")") else .undefined),
     ("endDate", if (args "endDate").truthy then .str ("Date(" ++ (args "endDate").interp ++ ")") else .undefined),
     ("areaPath", args "areaPath")], args "project"]
  pure (textResult plan)

def branch_testplan_list_test_suites (ctx : Ctx) (args : Args) : M Envelope := do
  let _ ← mCall "connection.getTestPlanApi" []
  let suites ← mCall "testPlanApi.getTestSuitesForPlan" [args "project", args "planId",
    .str "children", args "continuationToken"]
  pure (textResult suites)

def branch_testplan_create_test_suite (ctx : Ctx) (args : Args) : M Envelope := do
  let _ ← mCall "connection.getTestPlanApi" []
  let suite ← mCall "testPlanApi.createTestSuite" [.obj
    [("name", args "name"), ("parentSuite", .obj [("id", args "parentSuiteId"), ("name", .str "")]),
     ("suiteType", .num 2)], args "project", args "planId"]
  pure (textResult suite)

def branch_testplan_list_test_cases (ctx : Ctx) (args : Args) : M Envelope := do
  let _ ← mCall "connection.getTestPlanApi" []
  let cases ← mCall "testPlanApi.getTestCaseList" [args "project", args "planId", args "suiteId"]
  pure (textResult cases)

def branch_testplan_create_test_case (ctx : Ctx) (args : Args) : M Envelope := do
  let _ ← mCall "connection.getWorkItemTrackingApi" []
  let doc :=
    [Arg.obj [("op", .str "add"), ("path", .str "/fields/System.Title"), ("value", args "title")]]
    ++ (if (args "steps").truthy then
         [Arg.obj [("op", .str "add"), ("path", .str "/fields/Microsoft.VSTS.TCM.Steps"),
           ("value", .str (convertStepsToXml (args "steps").asStr))]] else [])
    ++ (if (args "priority").truthy then
         [Arg.obj [("op", .str "add"), ("path", .str "/fields/Microsoft.VSTS.Common.Priority"),
           ("value", args "priority")]] else [])
    ++ (if (args "areaPath").truthy then
         [Arg.obj [("op", .str "add"), ("path", .str "/fields/System.AreaPath"),
           ("value", args "areaPath")]] else [])
    ++ (if (args "iterationPath").truthy then
         [Arg.obj [("op", .str "add"), ("path", .str "/fields/System.IterationPath"),
           ("value", args "iterationPath")]] else [])
  let testCase ← mCall "witApi.createWorkItem" [.obj [], .list doc, args "project", .str "Test Case"]
  pure (textResult testCase)

def branch_testplan_update_test_case_steps (ctx : Ctx) (args : Args) : M Envelope := do
  let _ ← mCall "connection.getWorkItemTrackingApi" []
  let testCase ← mCall "witApi.updateWorkItem" [.obj [], .list
    [.obj [("op", .str "add"), ("path", .str "/fields/Microsoft.VSTS.TCM.Steps"),
      ("value", .str (convertStepsToXml (args "steps").asStr))]], args "id"]
  pure (textResult testCase)

def branch_testplan_add_test_cases_to_suite (ctx : Ctx) (args : Args) : M Envelope := do
  let _ ← mCall "connection.getTestApi" []
  let testCaseIds ← mOfExcept (args "testCaseIds").asList
  let result ← mCall "testApi.addTestCasesToSuite" [args "project", args "planId", args "suiteId",
    .str (String.intercalate "," (testCaseIds.map Arg.interp))]
  pure (textResult result)

def branch_testplan_show_test_results_from_build_id (ctx : Ctx) (args : Args) : M Envelope := do
  let _ ← mCall "connection.getTestResultsApi" []
  let results ← mCall "testResultsApi.getTestResultDetailsForBuild" [args "project", args "buildId"]
  pure (textResult results)

def branch_advsec_get_alerts (ctx : Ctx) (args : Args) : M Envelope := do
  let _ ← mCall "connection.getAlertApi" []
  let criteria :=
    [("onlyDefaultBranch", (args "onlyDefaultBranch").withDefault (.bool true))]
    ++ (if (args "alertType").truthy then [("alertType", args "alertType")] else [])
    ++ (if (args "states").truthy then [("states", args "states")] else [])
    ++ (if (args "severities").truthy then [("severities", args "severities")] else [])
  let alerts ← mCall "alertApi.getAlerts" [args "project", args "repository",
    (args "top").withDefault (.num 100), .str "severity", .obj criteria]
  pure (textResult alerts)

def branch_advsec_get_alert_details (ctx : Ctx) (args : Args) : M Envelope := do
  let _ ← mCall "connection.getAlertApi" []
  let alert ← mCall "alertApi.getAlert" [args "project", args "alertId", args "repository", args "ref"]
  pure (textResult alert)

def branch_work_list_team_iterations (ctx : Ctx) (args : Args) : M Envelope := do
  let _ ← mCall "connection.getWorkApi" []
  let iterations ← mCall "workApi.getTeamIterations" [.obj
    [("project", args "project"), ("team", args "team")], args "timeframe"]
  pure (textResult iterations)

def branch_work_list_iterations (ctx : Ctx) (args : Args) : M Envelope := do
  let _ ← mCall "connection.getWorkItemTrackingApi" []
  let depth := (args "depth").withDefault (.num 2)
  let nodes ← mNamed "witApi.getClassificationNodes" [args "project", .list [], depth]
  let iterations := nodes.filter (fun n => n == some "Iteration")
  pure (textResult (jstrNamed iterations))

def branch_work_create_iterations (ctx : Ctx) (args : Args) : M Envelope := do
  let _ ← mCall "connection.getWorkItemTrackingApi" []
  let iterations ← mOfExcept (args "iterations").asList
  let results ← forSeq (fun it =>
    mCall "witApi.createOrUpdateClassificationNode" [.obj
      [("name", it.fieldOf "iterationName"),
       ("attributes", .obj
         [("startDate", if (it.fieldOf "startDate").truthy then
             .str ("Date(" ++ (it.fieldOf "startDate").interp ++ ")") else .undefined),
          ("finishDate", if (it.fieldOf "finishDate").truthy then
             .str ("Date(" ++ (it.fieldOf "finishDate").interp ++ ")") else .undefined)])],
      args "project", .str "Iterations"]) iterations
  pure (textResult (jstrList results))

def branch_work_assign_iterations (ctx : Ctx) (args : Args) : M Envelope := do
  let _ ← mCall "connection.getWorkApi" []
  let iterations ← mOfExcept (args "iterations").asList
  let results ← forSeq (fun it =>
    mCall "workApi.postTeamIteration" [.obj
      [("id", it.fieldOf "identifier"), ("path", it.fieldOf "path")],
      .obj [("project", args "project"), ("team", args "team")]]) iterations
  pure (textResult (jstrList results))

def branch_work_get_team_capacity (ctx : Ctx) (args : Args) : M Envelope := do
  let _ ← mCall "connection.getWorkApi" []
  let capacity ← mCall "workApi.getCapacitiesWithIdentityRefAndTotals" [.obj
    [("project", args "project"), ("team", args "team")], args "iterationId"]
  pure (textResult capacity)

def branch_work_update_team_capacity (ctx : Ctx) (args : Args) : M Envelope := do
  let _ ← mCall "connection.getWorkApi" []
  let activities ← mOfExcept (args "activities").asList
  let patch := Arg.obj
    [("activities", .list (activities.map (fun a => .obj
       [("name", a.fieldOf "name"), ("capacityPerDay", a.fieldOf "capacityPerDay")]))),
     ("daysOff", (args "daysOff").mapList (fun d => .obj
       [("start", .str ("Date(" ++ (d.fieldOf "start").interp ++ ")")),
        ("end", .str ("Date(" ++ (d.fieldOf "end").interp ++ ")"))]))]
  let updated ← mCall "workApi.updateCapacityWithIdentityRef" [patch,
    .obj [("project", args "project"), ("team", args "team")],
    args "iterationId", args "teamMemberId"]
  pure (textResult updated)

def branch_work_get_iteration_capacities (ctx : Ctx) (args : Args) : M Envelope := do
  let _ ← mCall "connection.getWorkApi" []
  let capacities ← mCall "workApi.getTotalIterationCapacities" [args "project", args "iterationId"]
  pure (textResult capacities)

/-- `handleToolCall` of server.ts: the 82-branch string-keyed switch. -/
def handleToolCall (ctx : Ctx) (name : String) (args : Args) : M Envelope :=
  match name with
  | "core_list_project_teams" => branch_core_list_project_teams ctx args
  | "core_list_projects" => branch_core_list_projects ctx args
  | "core_get_identity_ids" => branch_core_get_identity_ids ctx args
  | "repo_list_repos_by_project" => branch_repo_list_repos_by_project ctx args
  | "repo_get_repo_by_name_or_id" => branch_repo_get_repo_by_name_or_id ctx args
  | "repo_list_branches_by_repo" => branch_repo_list_branches_by_repo ctx args
  | "repo_list_my_branches_by_repo" => branch_repo_list_my_branches_by_repo ctx args
  | "repo_get_branch_by_name" => branch_repo_get_branch_by_name ctx args
  | "repo_create_branch" => branch_repo_create_branch ctx args
  | "repo_list_pull_requests_by_repo_or_project" => branch_repo_list_pull_requests_by_repo_or_project ctx args
  | "repo_get_pull_request_by_id" => branch_repo_get_pull_request_by_id ctx args
  | "repo_create_pull_request" => branch_repo_create_pull_request ctx args
  | "repo_update_pull_request" => branch_repo_update_pull_request ctx args
  | "repo_update_pull_request_reviewers" => branch_repo_update_pull_request_reviewers ctx args
  | "repo_list_pull_request_threads" => branch_repo_list_pull_request_threads ctx args
  | "repo_list_pull_request_thread_comments" => branch_repo_list_pull_request_thread_comments ctx args
  | "repo_create_pull_request_thread" => branch_repo_create_pull_request_thread ctx args
  | "repo_update_pull_request_thread" => branch_repo_update_pull_request_thread ctx args
  | "repo_reply_to_comment" => branch_repo_reply_to_comment ctx args
  | "repo_search_commits" => branch_repo_search_commits ctx args
  | "repo_list_pull_requests_by_commits" => branch_repo_list_pull_requests_by_commits ctx args
  | "wit_get_work_item" => branch_wit_get_work_item ctx args
  | "wit_get_work_items_batch_by_ids" => branch_wit_get_work_items_batch_by_ids ctx args
  | "wit_create_work_item" => branch_wit_create_work_item ctx args
  | "wit_update_work_item" => branch_wit_update_work_item ctx args
  | "wit_update_work_items_batch" => branch_wit_update_work_items_batch ctx args
  | "wit_my_work_items" => branch_wit_my_work_items ctx args
  | "wit_list_backlogs" => branch_wit_list_backlogs ctx args
  | "wit_list_backlog_work_items" => branch_wit_list_backlog_work_items ctx args
  | "wit_list_work_item_comments" => branch_wit_list_work_item_comments ctx args
  | "wit_add_work_item_comment" => branch_wit_add_work_item_comment ctx args
  | "wit_list_work_item_revisions" => branch_wit_list_work_item_revisions ctx args
  | "wit_get_work_items_for_iteration" => branch_wit_get_work_items_for_iteration ctx args
  | "wit_add_child_work_items" => branch_wit_add_child_work_items ctx args
  | "wit_work_items_link" => branch_wit_work_items_link ctx args
  | "wit_work_item_unlink" => branch_wit_work_item_unlink ctx args
  | "wit_link_work_item_to_pull_request" => branch_wit_link_work_item_to_pull_request ctx args
  | "wit_add_artifact_link" => branch_wit_add_artifact_link ctx args
  | "wit_get_work_item_type" => branch_wit_get_work_item_type ctx args
  | "wit_get_query" => branch_wit_get_query ctx args
  | "wit_get_query_results_by_id" => branch_wit_get_query_results_by_id ctx args
  | "pipelines_get_builds" => branch_pipelines_get_builds ctx args
  | "pipelines_get_build_changes" => branch_pipelines_get_build_changes ctx args
  | "pipelines_get_build_definitions" => branch_pipelines_get_build_definitions ctx args
  | "pipelines_get_build_definition_revisions" => branch_pipelines_get_build_definition_revisions ctx args
  | "pipelines_get_build_log" => branch_pipelines_get_build_log ctx args
  | "pipelines_get_build_log_by_id" => branch_pipelines_get_build_log_by_id ctx args
  | "pipelines_get_build_status" => branch_pipelines_get_build_status ctx args
  | "pipelines_update_build_stage" => branch_pipelines_update_build_stage ctx args
  | "pipelines_create_pipeline" => branch_pipelines_create_pipeline ctx args
  | "pipelines_get_run" => branch_pipelines_get_run ctx args
  | "pipelines_list_runs" => branch_pipelines_list_runs ctx args
  | "pipelines_run_pipeline" => branch_pipelines_run_pipeline ctx args
  | "pipelines_list_artifacts" => branch_pipelines_list_artifacts ctx args
  | "pipelines_download_artifact" => branch_pipelines_download_artifact ctx args
  | "wiki_list_wikis" => branch_wiki_list_wikis ctx args
  | "wiki_get_wiki" => branch_wiki_get_wiki ctx args
  | "wiki_list_pages" => branch_wiki_list_pages ctx args
  | "wiki_get_page" => branch_wiki_get_page ctx args
  | "wiki_get_page_content" => branch_wiki_get_page_content ctx args
  | "wiki_create_or_update_page" => branch_wiki_create_or_update_page ctx args
  | "search_code" => branch_search_code ctx args
  | "search_wiki" => branch_search_wiki ctx args
  | "search_workitem" => branch_search_workitem ctx args
  | "testplan_list_test_plans" => branch_testplan_list_test_plans ctx args
  | "testplan_create_test_plan" => branch_testplan_create_test_plan ctx args
  | "testplan_list_test_suites" => branch_testplan_list_test_suites ctx args
  | "testplan_create_test_suite" => branch_testplan_create_test_suite ctx args
  | "testplan_list_test_cases" => branch_testplan_list_test_cases ctx args
  | "testplan_create_test_case" => branch_testplan_create_test_case ctx args
  | "testplan_update_test_case_steps" => branch_testplan_update_test_case_steps ctx args
  | "testplan_add_test_cases_to_suite" => branch_testplan_add_test_cases_to_suite ctx args
  | "testplan_show_test_results_from_build_id" => branch_testplan_show_test_results_from_build_id ctx args
  | "advsec_get_alerts" => branch_advsec_get_alerts ctx args
  | "advsec_get_alert_details" => branch_advsec_get_alert_details ctx args
  | "work_list_team_iterations" => branch_work_list_team_iterations ctx args
  | "work_list_iterations" => branch_work_list_iterations ctx args
  | "work_create_iterations" => branch_work_create_iterations ctx args
  | "work_assign_iterations" => branch_work_assign_iterations ctx args
  | "work_get_team_capacity" => branch_work_get_team_capacity ctx args
  | "work_update_team_capacity" => branch_work_update_team_capacity ctx args
  | "work_get_iteration_capacities" => branch_work_get_iteration_capacities ctx args
  | _ => pure (errorResult ("Unknown tool: " ++ name))

/-- The `CallToolRequestSchema` handler of `createServer`: awaits the
connection provider and the dispatcher inside a `try`, and converts any
thrown value into an error-flagged text envelope. -/
def callToolRequestHandler (connRes : Except Exn Unit) (ctx : Ctx) (name : String)
    (args : Args) (env : DevOpsEnv) : Envelope :=
  match connRes with
  | .error e => errorResult ("Error: " ++ e.boundaryMessage)
  | .ok _ =>
    match handleToolCall ctx name args env [] with
    | (_, .ok e) => e
    | (_, .error ex) => errorResult ("Error: " ++ ex.boundaryMessage)

/-! ## Witness fixtures -/

/-- An environment where every downstream operation succeeds. -/
def trivialEnv : DevOpsEnv :=
  ⟨fun _ => .ok "r", fun _ => .ok [], fun _ => .ok [], fun _ => .ok [],
   fun _ => .ok ⟨true, none, "body"⟩, fun _ => .ok (some "content")⟩

/-- An empty argument bag. -/
def emptyArgs : Args := fun _ => .undefined

/-- A concrete context. -/
def ctx0 : Ctx := ⟨"https://dev.azure.com/org", "org", "Basic x", getUserAgent⟩

/-- An argument bag from an association list. -/
def argsOf (l : List (String × Arg)) : Args := fun k => (l.lookup k).getD .undefined

/-! ## Envelope-shape machinery -/

/-- An envelope whose content is exactly one text item. -/
def EnvelopeTextOnly (e : Envelope) : Prop :=
  e.content.map ContentItem.type = ["text"]

/-- Every successful run of a computation yields a one-text-item envelope. -/
def MOk (m : M Envelope) : Prop :=
  ∀ env tr tr' e, m env tr = (tr', .ok e) → EnvelopeTextOnly e

/-! ## Trace machinery -/

/-- Every run extends the incoming trace (by the issued calls). -/
def TraceExt (m : M α) : Prop := ∀ env tr, ∃ l, (m env tr).1 = tr ++ l

/-- Every run strictly extends the incoming trace: at least one
downstream call is issued. -/
def TraceGrows (m : M α) : Prop := ∀ env tr, (m env tr).1 ≠ tr

/-- An environment where every downstream operation throws `Error("boom")`. -/
def failEnv : DevOpsEnv :=
  ⟨fun _ => .error (.err "boom"), fun _ => .error (.err "boom"), fun _ => .error (.err "boom"),
   fun _ => .error (.err "boom"), fun _ => .error (.err "boom"), fun _ => .error (.err "boom")⟩

/-- The case labels of the `handleToolCall` switch, in source order. -/
def caseLabels : List String :=
  ["core_list_project_teams", "core_list_projects", "core_get_identity_ids",
   "repo_list_repos_by_project", "repo_get_repo_by_name_or_id", "repo_list_branches_by_repo",
   "repo_list_my_branches_by_repo", "repo_get_branch_by_name", "repo_create_branch",
   "repo_list_pull_requests_by_repo_or_project", "repo_get_pull_request_by_id",
   "repo_create_pull_request", "repo_update_pull_request", "repo_update_pull_request_reviewers",
   "repo_list_pull_request_threads", "repo_list_pull_request_thread_comments",
   "repo_create_pull_request_thread", "repo_update_pull_request_thread", "repo_reply_to_comment",
   "repo_search_commits", "repo_list_pull_requests_by_commits",
   "wit_get_work_item", "wit_get_work_items_batch_by_ids", "wit_create_work_item",
   "wit_update_work_item", "wit_update_work_items_batch", "wit_my_work_items",
   "wit_list_backlogs", "wit_list_backlog_work_items", "wit_list_work_item_comments",
   "wit_add_work_item_comment", "wit_list_work_item_revisions", "wit_get_work_items_for_iteration",
   "wit_add_child_work_items", "wit_work_items_link", "wit_work_item_unlink",
   "wit_link_work_item_to_pull_request", "wit_add_artifact_link", "wit_get_work_item_type",
   "wit_get_query", "wit_get_query_results_by_id",
   "pipelines_get_builds", "pipelines_get_build_changes", "pipelines_get_build_definitions",
   "pipelines_get_build_definition_revisions", "pipelines_get_build_log",
   "pipelines_get_build_log_by_id", "pipelines_get_build_status", "pipelines_update_build_stage",
   "pipelines_create_pipeline", "pipelines_get_run", "pipelines_list_runs",
   "pipelines_run_pipeline", "pipelines_list_artifacts", "pipelines_download_artifact",
   "wiki_list_wikis", "wiki_get_wiki", "wiki_list_pages", "wiki_get_page",
   "wiki_get_page_content", "wiki_create_or_update_page",
   "search_code", "search_wiki", "search_workitem",
   "testplan_list_test_plans", "testplan_create_test_plan", "testplan_list_test_suites",
   "testplan_create_test_suite", "testplan_list_test_cases", "testplan_create_test_case",
   "testplan_update_test_case_steps", "testplan_add_test_cases_to_suite",
   "testplan_show_test_results_from_build_id",
   "advsec_get_alerts", "advsec_get_alert_details",
   "work_list_team_iterations", "work_list_iterations", "work_create_iterations",
   "work_assign_iterations", "work_get_team_capacity", "work_update_team_capacity",
   "work_get_iteration_capacities"]

def bulkItems : List Arg :=
  [.obj [("id", .num 1), ("updates", .str "u1")], .obj [("id", .num 2), ("updates", .str "u2")]]

def bulkArgs : Args := argsOf [("workItems", .list bulkItems)]

def bulkFailEnv : DevOpsEnv :=
  { trivialEnv with call := fun c =>
      if c.api = "witApi.updateWorkItem" then .error (.err "boom") else .ok "r" }

def env101 : DevOpsEnv :=
  { trivialEnv with fetchNamed := fun _ => .ok (List.replicate 101 (some "r")) }

def projArgs : Args := argsOf [("projectNameFilter", .str "al")]

def projEnv : DevOpsEnv :=
  { trivialEnv with fetchNamed := fun _ => .ok [some "Alpha", some "beta", none] }

theorem mok_pure_text (s : String) : MOk (pure (textResult s)) := by
  intro env tr tr' e h
  simp only [pure, M.pure, Prod.mk.injEq, Except.ok.injEq] at h
  obtain ⟨-, h2⟩ := h
  subst h2
  rfl

theorem mok_pure_err (s : String) : MOk (pure (errorResult s)) := by
  intro env tr tr' e h
  simp only [pure, M.pure, Prod.mk.injEq, Except.ok.injEq] at h
  obtain ⟨-, h2⟩ := h
  subst h2
  rfl

theorem mok_bind (x : M α) (f : α → M Envelope) (hf : ∀ a, MOk (f a)) : MOk (x >>= f) := by
  intro env tr tr' e h
  simp only [Bind.bind, M.bind] at h
  rcases hx : x env tr with ⟨tr₁, r⟩
  rw [hx] at h
  cases r with
  | ok a => exact hf a env tr₁ tr' e h
  | error ex => simp at h

theorem mok_branch_core_list_project_teams (ctx : Ctx) (args : Args) : MOk (branch_core_list_project_teams ctx args) := by
  unfold branch_core_list_project_teams
  repeat first
    | exact mok_pure_text _
    | exact mok_pure_err _
    | (apply mok_bind; intro _)
    | split

theorem mok_branch_core_list_projects (ctx : Ctx) (args : Args) : MOk (branch_core_list_projects ctx args) := by
  unfold branch_core_list_projects
  repeat first
    | exact mok_pure_text _
    | exact mok_pure_err _
    | (apply mok_bind; intro _)
    | split

theorem mok_branch_core_get_identity_ids (ctx : Ctx) (args : Args) : MOk (branch_core_get_identity_ids ctx args) := by
  unfold branch_core_get_identity_ids
  repeat first
    | exact mok_pure_text _
    | exact mok_pure_err _
    | (apply mok_bind; intro _)
    | split

theorem mok_branch_repo_list_repos_by_project (ctx : Ctx) (args : Args) : MOk (branch_repo_list_repos_by_project ctx args) := by
  unfold branch_repo_list_repos_by_project
  repeat first
    | exact mok_pure_text _
    | exact mok_pure_err _
    | (apply mok_bind; intro _)
    | split

theorem mok_branch_repo_get_repo_by_name_or_id (ctx : Ctx) (args : Args) : MOk (branch_repo_get_repo_by_name_or_id ctx args) := by
  unfold branch_repo_get_repo_by_name_or_id
  repeat first
    | exact mok_pure_text _
    | exact mok_pure_err _
    | (apply mok_bind; intro _)
    | split

theorem mok_branch_repo_list_branches_by_repo (ctx : Ctx) (args : Args) : MOk (branch_repo_list_branches_by_repo ctx args) := by
  unfold branch_repo_list_branches_by_repo
  repeat first
    | exact mok_pure_text _
    | exact mok_pure_err _
    | (apply mok_bind; intro _)
    | split

theorem mok_branch_repo_list_my_branches_by_repo (ctx : Ctx) (args : Args) : MOk (branch_repo_list_my_branches_by_repo ctx args) := by
  unfold branch_repo_list_my_branches_by_repo
  repeat first
    | exact mok_pure_text _
    | exact mok_pure_err _
    | (apply mok_bind; intro _)
    | split

theorem mok_branch_repo_get_branch_by_name (ctx : Ctx) (args : Args) : MOk (branch_repo_get_branch_by_name ctx args) := by
  unfold branch_repo_get_branch_by_name
  repeat first
    | exact mok_pure_text _
    | exact mok_pure_err _
    | (apply mok_bind; intro _)
    | split

theorem mok_branch_repo_create_branch (ctx : Ctx) (args : Args) : MOk (branch_repo_create_branch ctx args) := by
  unfold branch_repo_create_branch
  repeat first
    | exact mok_pure_text _
    | exact mok_pure_err _
    | (apply mok_bind; intro _)
    | split

theorem mok_branch_repo_list_pull_requests_by_repo_or_project (ctx : Ctx) (args : Args) : MOk (branch_repo_list_pull_requests_by_repo_or_project ctx args) := by
  unfold branch_repo_list_pull_requests_by_repo_or_project
  repeat first
    | exact mok_pure_text _
    | exact mok_pure_err _
    | (apply mok_bind; intro _)
    | split

theorem mok_branch_repo_get_pull_request_by_id (ctx : Ctx) (args : Args) : MOk (branch_repo_get_pull_request_by_id ctx args) := by
  unfold branch_repo_get_pull_request_by_id
  repeat first
    | exact mok_pure_text _
    | exact mok_pure_err _
    | (apply mok_bind; intro _)
    | split

theorem mok_branch_repo_create_pull_request (ctx : Ctx) (args : Args) : MOk (branch_repo_create_pull_request ctx args) := by
  unfold branch_repo_create_pull_request
  repeat first
    | exact mok_pure_text _
    | exact mok_pure_err _
    | (apply mok_bind; intro _)
    | split

theorem mok_branch_repo_update_pull_request (ctx : Ctx) (args : Args) : MOk (branch_repo_update_pull_request ctx args) := by
  unfold branch_repo_update_pull_request
  repeat first
    | exact mok_pure_text _
    | exact mok_pure_err _
    | (apply mok_bind; intro _)
    | split

theorem mok_branch_repo_update_pull_request_reviewers (ctx : Ctx) (args : Args) : MOk (branch_repo_update_pull_request_reviewers ctx args) := by
  unfold branch_repo_update_pull_request_reviewers
  repeat first
    | exact mok_pure_text _
    | exact mok_pure_err _
    | (apply mok_bind; intro _)
    | split

theorem mok_branch_repo_list_pull_request_threads (ctx : Ctx) (args : Args) : MOk (branch_repo_list_pull_request_threads ctx args) := by
  unfold branch_repo_list_pull_request_threads
  repeat first
    | exact mok_pure_text _
    | exact mok_pure_err _
    | (apply mok_bind; intro _)
    | split

theorem mok_branch_repo_list_pull_request_thread_comments (ctx : Ctx) (args : Args) : MOk (branch_repo_list_pull_request_thread_comments ctx args) := by
  unfold branch_repo_list_pull_request_thread_comments
  repeat first
    | exact mok_pure_text _
    | exact mok_pure_err _
    | (apply mok_bind; intro _)
    | split

theorem mok_branch_repo_create_pull_request_thread (ctx : Ctx) (args : Args) : MOk (branch_repo_create_pull_request_thread ctx args) := by
  unfold branch_repo_create_pull_request_thread
  repeat first
    | exact mok_pure_text _
    | exact mok_pure_err _
    | (apply mok_bind; intro _)
    | split

theorem mok_branch_repo_update_pull_request_thread (ctx : Ctx) (args : Args) : MOk (branch_repo_update_pull_request_thread ctx args) := by
  unfold branch_repo_update_pull_request_thread
  repeat first
    | exact mok_pure_text _
    | exact mok_pure_err _
    | (apply mok_bind; intro _)
    | split

theorem mok_branch_repo_reply_to_comment (ctx : Ctx) (args : Args) : MOk (branch_repo_reply_to_comment ctx args) := by
  unfold branch_repo_reply_to_comment
  repeat first
    | exact mok_pure_text _
    | exact mok_pure_err _
    | (apply mok_bind; intro _)
    | split

theorem mok_branch_repo_search_commits (ctx : Ctx) (args : Args) : MOk (branch_repo_search_commits ctx args) := by
  unfold branch_repo_search_commits
  repeat first
    | exact mok_pure_text _
    | exact mok_pure_err _
    | (apply mok_bind; intro _)
    | split

theorem mok_branch_repo_list_pull_requests_by_commits (ctx : Ctx) (args : Args) : MOk (branch_repo_list_pull_requests_by_commits ctx args) := by
  unfold branch_repo_list_pull_requests_by_commits
  repeat first
    | exact mok_pure_text _
    | exact mok_pure_err _
    | (apply mok_bind; intro _)
    | split

theorem mok_branch_wit_get_work_item (ctx : Ctx) (args : Args) : MOk (branch_wit_get_work_item ctx args) := by
  unfold branch_wit_get_work_item
  repeat first
    | exact mok_pure_text _
    | exact mok_pure_err _
    | (apply mok_bind; intro _)
    | split

theorem mok_branch_wit_get_work_items_batch_by_ids (ctx : Ctx) (args : Args) : MOk (branch_wit_get_work_items_batch_by_ids ctx args) := by
  unfold branch_wit_get_work_items_batch_by_ids
  repeat first
    | exact mok_pure_text _
    | exact mok_pure_err _
    | (apply mok_bind; intro _)
    | split

theorem mok_branch_wit_create_work_item (ctx : Ctx) (args : Args) : MOk (branch_wit_create_work_item ctx args) := by
  unfold branch_wit_create_work_item
  repeat first
    | exact mok_pure_text _
    | exact mok_pure_err _
    | (apply mok_bind; intro _)
    | split

theorem mok_branch_wit_update_work_item (ctx : Ctx) (args : Args) : MOk (branch_wit_update_work_item ctx args) := by
  unfold branch_wit_update_work_item
  repeat first
    | exact mok_pure_text _
    | exact mok_pure_err _
    | (apply mok_bind; intro _)
    | split

theorem mok_branch_wit_update_work_items_batch (ctx : Ctx) (args : Args) : MOk (branch_wit_update_work_items_batch ctx args) := by
  unfold branch_wit_update_work_items_batch
  repeat first
    | exact mok_pure_text _
    | exact mok_pure_err _
    | (apply mok_bind; intro _)
    | split

theorem mok_branch_wit_my_work_items (ctx : Ctx) (args : Args) : MOk (branch_wit_my_work_items ctx args) := by
  unfold branch_wit_my_work_items
  repeat first
    | exact mok_pure_text _
    | exact mok_pure_err _
    | (apply mok_bind; intro _)
    | split

theorem mok_branch_wit_list_backlogs (ctx : Ctx) (args : Args) : MOk (branch_wit_list_backlogs ctx args) := by
  unfold branch_wit_list_backlogs
  repeat first
    | exact mok_pure_text _
    | exact mok_pure_err _
    | (apply mok_bind; intro _)
    | split

theorem mok_branch_wit_list_backlog_work_items (ctx : Ctx) (args : Args) : MOk (branch_wit_list_backlog_work_items ctx args) := by
  unfold branch_wit_list_backlog_work_items
  repeat first
    | exact mok_pure_text _
    | exact mok_pure_err _
    | (apply mok_bind; intro _)
    | split

theorem mok_branch_wit_list_work_item_comments (ctx : Ctx) (args : Args) : MOk (branch_wit_list_work_item_comments ctx args) := by
  unfold branch_wit_list_work_item_comments
  repeat first
    | exact mok_pure_text _
    | exact mok_pure_err _
    | (apply mok_bind; intro _)
    | split

theorem mok_branch_wit_add_work_item_comment (ctx : Ctx) (args : Args) : MOk (branch_wit_add_work_item_comment ctx args) := by
  unfold branch_wit_add_work_item_comment
  repeat first
    | exact mok_pure_text _
    | exact mok_pure_err _
    | (apply mok_bind; intro _)
    | split

theorem mok_branch_wit_list_work_item_revisions (ctx : Ctx) (args : Args) : MOk (branch_wit_list_work_item_revisions ctx args) := by
  unfold branch_wit_list_work_item_revisions
  repeat first
    | exact mok_pure_text _
    | exact mok_pure_err _
    | (apply mok_bind; intro _)
    | split

theorem mok_branch_wit_get_work_items_for_iteration (ctx : Ctx) (args : Args) : MOk (branch_wit_get_work_items_for_iteration ctx args) := by
  unfold branch_wit_get_work_items_for_iteration
  repeat first
    | exact mok_pure_text _
    | exact mok_pure_err _
    | (apply mok_bind; intro _)
    | split

theorem mok_branch_wit_add_child_work_items (ctx : Ctx) (args : Args) : MOk (branch_wit_add_child_work_items ctx args) := by
  unfold branch_wit_add_child_work_items
  repeat first
    | exact mok_pure_text _
    | exact mok_pure_err _
    | (apply mok_bind; intro _)
    | split

theorem mok_branch_wit_work_items_link (ctx : Ctx) (args : Args) : MOk (branch_wit_work_items_link ctx args) := by
  unfold branch_wit_work_items_link
  repeat first
    | exact mok_pure_text _
    | exact mok_pure_err _
    | (apply mok_bind; intro _)
    | split

theorem mok_branch_wit_work_item_unlink (ctx : Ctx) (args : Args) : MOk (branch_wit_work_item_unlink ctx args) := by
  unfold branch_wit_work_item_unlink
  repeat first
    | exact mok_pure_text _
    | exact mok_pure_err _
    | (apply mok_bind; intro _)
    | split

theorem mok_branch_wit_link_work_item_to_pull_request (ctx : Ctx) (args : Args) : MOk (branch_wit_link_work_item_to_pull_request ctx args) := by
  unfold branch_wit_link_work_item_to_pull_request
  repeat first
    | exact mok_pure_text _
    | exact mok_pure_err _
    | (apply mok_bind; intro _)
    | split

theorem mok_branch_wit_add_artifact_link (ctx : Ctx) (args : Args) : MOk (branch_wit_add_artifact_link ctx args) := by
  unfold branch_wit_add_artifact_link
  repeat first
    | exact mok_pure_text _
    | exact mok_pure_err _
    | (apply mok_bind; intro _)
    | split

theorem mok_branch_wit_get_work_item_type (ctx : Ctx) (args : Args) : MOk (branch_wit_get_work_item_type ctx args) := by
  unfold branch_wit_get_work_item_type
  repeat first
    | exact mok_pure_text _
    | exact mok_pure_err _
    | (apply mok_bind; intro _)
    | split

theorem mok_branch_wit_get_query (ctx : Ctx) (args : Args) : MOk (branch_wit_get_query ctx args) := by
  unfold branch_wit_get_query
  repeat first
    | exact mok_pure_text _
    | exact mok_pure_err _
    | (apply mok_bind; intro _)
    | split

theorem mok_branch_wit_get_query_results_by_id (ctx : Ctx) (args : Args) : MOk (branch_wit_get_query_results_by_id ctx args) := by
  unfold branch_wit_get_query_results_by_id
  repeat first
    | exact mok_pure_text _
    | exact mok_pure_err _
    | (apply mok_bind; intro _)
    | split

theorem mok_branch_pipelines_get_builds (ctx : Ctx) (args : Args) : MOk (branch_pipelines_get_builds ctx args) := by
  unfold branch_pipelines_get_builds
  repeat first
    | exact mok_pure_text _
    | exact mok_pure_err _
    | (apply mok_bind; intro _)
    | split

theorem mok_branch_pipelines_get_build_changes (ctx : Ctx) (args : Args) : MOk (branch_pipelines_get_build_changes ctx args) := by
  unfold branch_pipelines_get_build_changes
  repeat first
    | exact mok_pure_text _
    | exact mok_pure_err _
    | (apply mok_bind; intro _)
    | split

theorem mok_branch_pipelines_get_build_definitions (ctx : Ctx) (args : Args) : MOk (branch_pipelines_get_build_definitions ctx args) := by
  unfold branch_pipelines_get_build_definitions
  repeat first
    | exact mok_pure_text _
    | exact mok_pure_err _
    | (apply mok_bind; intro _)
    | split

theorem mok_branch_pipelines_get_build_definition_revisions (ctx : Ctx) (args : Args) : MOk (branch_pipelines_get_build_definition_revisions ctx args) := by
  unfold branch_pipelines_get_build_definition_revisions
  repeat first
    | exact mok_pure_text _
    | exact mok_pure_err _
    | (apply mok_bind; intro _)
    | split

theorem mok_branch_pipelines_get_build_log (ctx : Ctx) (args : Args) : MOk (branch_pipelines_get_build_log ctx args) := by
  unfold branch_pipelines_get_build_log
  repeat first
    | exact mok_pure_text _
    | exact mok_pure_err _
    | (apply mok_bind; intro _)
    | split

theorem mok_branch_pipelines_get_build_log_by_id (ctx : Ctx) (args : Args) : MOk (branch_pipelines_get_build_log_by_id ctx args) := by
  unfold branch_pipelines_get_build_log_by_id
  repeat first
    | exact mok_pure_text _
    | exact mok_pure_err _
    | (apply mok_bind; intro _)
    | split

theorem mok_branch_pipelines_get_build_status (ctx : Ctx) (args : Args) : MOk (branch_pipelines_get_build_status ctx args) := by
  unfold branch_pipelines_get_build_status
  repeat first
    | exact mok_pure_text _
    | exact mok_pure_err _
    | (apply mok_bind; intro _)
    | split

theorem mok_branch_pipelines_update_build_stage (ctx : Ctx) (args : Args) : MOk (branch_pipelines_update_build_stage ctx args) := by
  unfold branch_pipelines_update_build_stage
  repeat first
    | exact mok_pure_text _
    | exact mok_pure_err _
    | (apply mok_bind; intro _)
    | split

theorem mok_branch_pipelines_create_pipeline (ctx : Ctx) (args : Args) : MOk (branch_pipelines_create_pipeline ctx args) := by
  unfold branch_pipelines_create_pipeline
  repeat first
    | exact mok_pure_text _
    | exact mok_pure_err _
    | (apply mok_bind; intro _)
    | split

theorem mok_branch_pipelines_get_run (ctx : Ctx) (args : Args) : MOk (branch_pipelines_get_run ctx args) := by
  unfold branch_pipelines_get_run
  repeat first
    | exact mok_pure_text _
    | exact mok_pure_err _
    | (apply mok_bind; intro _)
    | split

theorem mok_branch_pipelines_list_runs (ctx : Ctx) (args : Args) : MOk (branch_pipelines_list_runs ctx args) := by
  unfold branch_pipelines_list_runs
  repeat first
    | exact mok_pure_text _
    | exact mok_pure_err _
    | (apply mok_bind; intro _)
    | split

theorem mok_branch_pipelines_run_pipeline (ctx : Ctx) (args : Args) : MOk (branch_pipelines_run_pipeline ctx args) := by
  unfold branch_pipelines_run_pipeline
  repeat first
    | exact mok_pure_text _
    | exact mok_pure_err _
    | (apply mok_bind; intro _)
    | split

theorem mok_branch_pipelines_list_artifacts (ctx : Ctx) (args : Args) : MOk (branch_pipelines_list_artifacts ctx args) := by
  unfold branch_pipelines_list_artifacts
  repeat first
    | exact mok_pure_text _
    | exact mok_pure_err _
    | (apply mok_bind; intro _)
    | split

theorem mok_branch_pipelines_download_artifact (ctx : Ctx) (args : Args) : MOk (branch_pipelines_download_artifact ctx args) := by
  unfold branch_pipelines_download_artifact
  repeat first
    | exact mok_pure_text _
    | exact mok_pure_err _
    | (apply mok_bind; intro _)
    | split

theorem mok_branch_wiki_list_wikis (ctx : Ctx) (args : Args) : MOk (branch_wiki_list_wikis ctx args) := by
  unfold branch_wiki_list_wikis
  repeat first
    | exact mok_pure_text _
    | exact mok_pure_err _
    | (apply mok_bind; intro _)
    | split

theorem mok_branch_wiki_get_wiki (ctx : Ctx) (args : Args) : MOk (branch_wiki_get_wiki ctx args) := by
  unfold branch_wiki_get_wiki
  repeat first
    | exact mok_pure_text _
    | exact mok_pure_err _
    | (apply mok_bind; intro _)
    | split

theorem mok_branch_wiki_list_pages (ctx : Ctx) (args : Args) : MOk (branch_wiki_list_pages ctx args) := by
  unfold branch_wiki_list_pages
  repeat first
    | exact mok_pure_text _
    | exact mok_pure_err _
    | (apply mok_bind; intro _)
    | split

theorem mok_branch_wiki_get_page (ctx : Ctx) (args : Args) : MOk (branch_wiki_get_page ctx args) := by
  unfold branch_wiki_get_page
  repeat first
    | exact mok_pure_text _
    | exact mok_pure_err _
    | (apply mok_bind; intro _)
    | split

theorem mok_branch_wiki_get_page_content (ctx : Ctx) (args : Args) : MOk (branch_wiki_get_page_content ctx args) := by
  unfold branch_wiki_get_page_content
  repeat first
    | exact mok_pure_text _
    | exact mok_pure_err _
    | (apply mok_bind; intro _)
    | split

theorem mok_branch_wiki_create_or_update_page (ctx : Ctx) (args : Args) : MOk (branch_wiki_create_or_update_page ctx args) := by
  unfold branch_wiki_create_or_update_page
  repeat first
    | exact mok_pure_text _
    | exact mok_pure_err _
    | (apply mok_bind; intro _)
    | split

theorem mok_branch_search_code (ctx : Ctx) (args : Args) : MOk (branch_search_code ctx args) := by
  unfold branch_search_code
  repeat first
    | exact mok_pure_text _
    | exact mok_pure_err _
    | (apply mok_bind; intro _)
    | split

theorem mok_branch_search_wiki (ctx : Ctx) (args : Args) : MOk (branch_search_wiki ctx args) := by
  unfold branch_search_wiki
  repeat first
    | exact mok_pure_text _
    | exact mok_pure_err _
    | (apply mok_bind; intro _)
    | split

theorem mok_branch_search_workitem (ctx : Ctx) (args : Args) : MOk (branch_search_workitem ctx args) := by
  unfold branch_search_workitem
  repeat first
    | exact mok_pure_text _
    | exact mok_pure_err _
    | (apply mok_bind; intro _)
    | split

theorem mok_branch_testplan_list_test_plans (ctx : Ctx) (args : Args) : MOk (branch_testplan_list_test_plans ctx args) := by
  unfold branch_testplan_list_test_plans
  repeat first
    | exact mok_pure_text _
    | exact mok_pure_err _
    | (apply mok_bind; intro _)
    | split

theorem mok_branch_testplan_create_test_plan (ctx : Ctx) (args : Args) : MOk (branch_testplan_create_test_plan ctx args) := by
  unfold branch_testplan_create_test_plan
  repeat first
    | exact mok_pure_text _
    | exact mok_pure_err _
    | (apply mok_bind; intro _)
    | split

theorem mok_branch_testplan_list_test_suites (ctx : Ctx) (args : Args) : MOk (branch_testplan_list_test_suites ctx args) := by
  unfold branch_testplan_list_test_suites
  repeat first
    | exact mok_pure_text _
    | exact mok_pure_err _
    | (apply mok_bind; intro _)
    | split

theorem mok_branch_testplan_create_test_suite (ctx : Ctx) (args : Args) : MOk (branch_testplan_create_test_suite ctx args) := by
  unfold branch_testplan_create_test_suite
  repeat first
    | exact mok_pure_text _
    | exact mok_pure_err _
    | (apply mok_bind; intro _)
    | split

theorem mok_branch_testplan_list_test_cases (ctx : Ctx) (args : Args) : MOk (branch_testplan_list_test_cases ctx args) := by
  unfold branch_testplan_list_test_cases
  repeat first
    | exact mok_pure_text _
    | exact mok_pure_err _
    | (apply mok_bind; intro _)
    | split

theorem mok_branch_testplan_create_test_case (ctx : Ctx) (args : Args) : MOk (branch_testplan_create_test_case ctx args) := by
  unfold branch_testplan_create_test_case
  repeat first
    | exact mok_pure_text _
    | exact mok_pure_err _
    | (apply mok_bind; intro _)
    | split

theorem mok_branch_testplan_update_test_case_steps (ctx : Ctx) (args : Args) : MOk (branch_testplan_update_test_case_steps ctx args) := by
  unfold branch_testplan_update_test_case_steps
  repeat first
    | exact mok_pure_text _
    | exact mok_pure_err _
    | (apply mok_bind; intro _)
    | split

theorem mok_branch_testplan_add_test_cases_to_suite (ctx : Ctx) (args : Args) : MOk (branch_testplan_add_test_cases_to_suite ctx args) := by
  unfold branch_testplan_add_test_cases_to_suite
  repeat first
    | exact mok_pure_text _
    | exact mok_pure_err _
    | (apply mok_bind; intro _)
    | split

theorem mok_branch_testplan_show_test_results_from_build_id (ctx : Ctx) (args : Args) : MOk (branch_testplan_show_test_results_from_build_id ctx args) := by
  unfold branch_testplan_show_test_results_from_build_id
  repeat first
    | exact mok_pure_text _
    | exact mok_pure_err _
    | (apply mok_bind; intro _)
    | split

theorem mok_branch_advsec_get_alerts (ctx : Ctx) (args : Args) : MOk (branch_advsec_get_alerts ctx args) := by
  unfold branch_advsec_get_alerts
  repeat first
    | exact mok_pure_text _
    | exact mok_pure_err _
    | (apply mok_bind; intro _)
    | split

theorem mok_branch_advsec_get_alert_details (ctx : Ctx) (args : Args) : MOk (branch_advsec_get_alert_details ctx args) := by
  unfold branch_advsec_get_alert_details
  repeat first
    | exact mok_pure_text _
    | exact mok_pure_err _
    | (apply mok_bind; intro _)
    | split

theorem mok_branch_work_list_team_iterations (ctx : Ctx) (args : Args) : MOk (branch_work_list_team_iterations ctx args) := by
  unfold branch_work_list_team_iterations
  repeat first
    | exact mok_pure_text _
    | exact mok_pure_err _
    | (apply mok_bind; intro _)
    | split

theorem mok_branch_work_list_iterations (ctx : Ctx) (args : Args) : MOk (branch_work_list_iterations ctx args) := by
  unfold branch_work_list_iterations
  repeat first
    | exact mok_pure_text _
    | exact mok_pure_err _
    | (apply mok_bind; intro _)
    | split

theorem mok_branch_work_create_iterations (ctx : Ctx) (args : Args) : MOk (branch_work_create_iterations ctx args) := by
  unfold branch_work_create_iterations
  repeat first
    | exact mok_pure_text _
    | exact mok_pure_err _
    | (apply mok_bind; intro _)
    | split

theorem mok_branch_work_assign_iterations (ctx : Ctx) (args : Args) : MOk (branch_work_assign_iterations ctx args) := by
  unfold branch_work_assign_iterations
  repeat first
    | exact mok_pure_text _
    | exact mok_pure_err _
    | (apply mok_bind; intro _)
    | split

theorem mok_branch_work_get_team_capacity (ctx : Ctx) (args : Args) : MOk (branch_work_get_team_capacity ctx args) := by
  unfold branch_work_get_team_capacity
  repeat first
    | exact mok_pure_text _
    | exact mok_pure_err _
    | (apply mok_bind; intro _)
    | split

theorem mok_branch_work_update_team_capacity (ctx : Ctx) (args : Args) : MOk (branch_work_update_team_capacity ctx args) := by
  unfold branch_work_update_team_capacity
  repeat first
    | exact mok_pure_text _
    | exact mok_pure_err _
    | (apply mok_bind; intro _)
    | split

theorem mok_branch_work_get_iteration_capacities (ctx : Ctx) (args : Args) : MOk (branch_work_get_iteration_capacities ctx args) := by
  unfold branch_work_get_iteration_capacities
  repeat first
    | exact mok_pure_text _
    | exact mok_pure_err _
    | (apply mok_bind; intro _)
    | split

set_option maxHeartbeats 4000000 in
/-- Every branch of the dispatcher (and the default) produces envelopes
whose content is a single text item. -/
theorem handleToolCall_MOk : ∀ ctx name args, MOk (handleToolCall ctx name args) := by
  intro ctx name args
  unfold handleToolCall
  split
  all_goals first
    | exact mok_pure_err _
    | exact mok_branch_core_list_project_teams ctx args
    | exact mok_branch_core_list_projects ctx args
    | exact mok_branch_core_get_identity_ids ctx args
    | exact mok_branch_repo_list_repos_by_project ctx args
    | exact mok_branch_repo_get_repo_by_name_or_id ctx args
    | exact mok_branch_repo_list_branches_by_repo ctx args
    | exact mok_branch_repo_list_my_branches_by_repo ctx args
    | exact mok_branch_repo_get_branch_by_name ctx args
    | exact mok_branch_repo_create_branch ctx args
    | exact mok_branch_repo_list_pull_requests_by_repo_or_project ctx args
    | exact mok_branch_repo_get_pull_request_by_id ctx args
    | exact mok_branch_repo_create_pull_request ctx args
    | exact mok_branch_repo_update_pull_request ctx args
    | exact mok_branch_repo_update_pull_request_reviewers ctx args
    | exact mok_branch_repo_list_pull_request_threads ctx args
    | exact mok_branch_repo_list_pull_request_thread_comments ctx args
    | exact mok_branch_repo_create_pull_request_thread ctx args
    | exact mok_branch_repo_update_pull_request_thread ctx args
    | exact mok_branch_repo_reply_to_comment ctx args
    | exact mok_branch_repo_search_commits ctx args
    | exact mok_branch_repo_list_pull_requests_by_commits ctx args
    | exact mok_branch_wit_get_work_item ctx args
    | exact mok_branch_wit_get_work_items_batch_by_ids ctx args
    | exact mok_branch_wit_create_work_item ctx args
    | exact mok_branch_wit_update_work_item ctx args
    | exact mok_branch_wit_update_work_items_batch ctx args
    | exact mok_branch_wit_my_work_items ctx args
    | exact mok_branch_wit_list_backlogs ctx args
    | exact mok_branch_wit_list_backlog_work_items ctx args
    | exact mok_branch_wit_list_work_item_comments ctx args
    | exact mok_branch_wit_add_work_item_comment ctx args
    | exact mok_branch_wit_list_work_item_revisions ctx args
    | exact mok_branch_wit_get_work_items_for_iteration ctx args
    | exact mok_branch_wit_add_child_work_items ctx args
    | exact mok_branch_wit_work_items_link ctx args
    | exact mok_branch_wit_work_item_unlink ctx args
    | exact mok_branch_wit_link_work_item_to_pull_request ctx args
    | exact mok_branch_wit_add_artifact_link ctx args
    | exact mok_branch_wit_get_work_item_type ctx args
    | exact mok_branch_wit_get_query ctx args
    | exact mok_branch_wit_get_query_results_by_id ctx args
    | exact mok_branch_pipelines_get_builds ctx args
    | exact mok_branch_pipelines_get_build_changes ctx args
    | exact mok_branch_pipelines_get_build_definitions ctx args
    | exact mok_branch_pipelines_get_build_definition_revisions ctx args
    | exact mok_branch_pipelines_get_build_log ctx args
    | exact mok_branch_pipelines_get_build_log_by_id ctx args
    | exact mok_branch_pipelines_get_build_status ctx args
    | exact mok_branch_pipelines_update_build_stage ctx args
    | exact mok_branch_pipelines_create_pipeline ctx args
    | exact mok_branch_pipelines_get_run ctx args
    | exact mok_branch_pipelines_list_runs ctx args
    | exact mok_branch_pipelines_run_pipeline ctx args
    | exact mok_branch_pipelines_list_artifacts ctx args
    | exact mok_branch_pipelines_download_artifact ctx args
    | exact mok_branch_wiki_list_wikis ctx args
    | exact mok_branch_wiki_get_wiki ctx args
    | exact mok_branch_wiki_list_pages ctx args
    | exact mok_branch_wiki_get_page ctx args
    | exact mok_branch_wiki_get_page_content ctx args
    | exact mok_branch_wiki_create_or_update_page ctx args
    | exact mok_branch_search_code ctx args
    | exact mok_branch_search_wiki ctx args
    | exact mok_branch_search_workitem ctx args
    | exact mok_branch_testplan_list_test_plans ctx args
    | exact mok_branch_testplan_create_test_plan ctx args
    | exact mok_branch_testplan_list_test_suites ctx args
    | exact mok_branch_testplan_create_test_suite ctx args
    | exact mok_branch_testplan_list_test_cases ctx args
    | exact mok_branch_testplan_create_test_case ctx args
    | exact mok_branch_testplan_update_test_case_steps ctx args
    | exact mok_branch_testplan_add_test_cases_to_suite ctx args
    | exact mok_branch_testplan_show_test_results_from_build_id ctx args
    | exact mok_branch_advsec_get_alerts ctx args
    | exact mok_branch_advsec_get_alert_details ctx args
    | exact mok_branch_work_list_team_iterations ctx args
    | exact mok_branch_work_list_iterations ctx args
    | exact mok_branch_work_create_iterations ctx args
    | exact mok_branch_work_assign_iterations ctx args
    | exact mok_branch_work_get_team_capacity ctx args
    | exact mok_branch_work_update_team_capacity ctx args
    | exact mok_branch_work_get_iteration_capacities ctx args

set_option maxHeartbeats 4000000 in
/-- A name outside the catalog reaches the default branch: no downstream
call is issued and the structured unknown-tool envelope is returned. -/
theorem handleToolCall_unknown : ∀ ctx name args env tr, name ∉ toolNames →
    handleToolCall ctx name args env tr = (tr, .ok (errorResult ("Unknown tool: " ++ name))) := by
  intro ctx name args env tr h
  unfold handleToolCall
  split
  all_goals first | rfl | simp_all [toolNames]

theorem te_pure (a : α) : TraceExt (pure a : M α) :=
  fun _ tr => ⟨[], (List.append_nil tr).symm⟩

theorem te_mCall (api : String) (as : List Arg) : TraceExt (mCall api as) := by
  intro env tr
  refine ⟨[⟨api, as⟩], ?_⟩
  rfl

theorem te_mNamed (api : String) (as : List Arg) : TraceExt (mNamed api as) := by
  intro env tr
  exact ⟨[⟨api, as⟩], rfl⟩

theorem te_mRefs (api : String) (as : List Arg) : TraceExt (mRefs api as) := by
  intro env tr
  exact ⟨[⟨api, as⟩], rfl⟩

theorem te_mRels (api : String) (as : List Arg) : TraceExt (mRels api as) := by
  intro env tr
  exact ⟨[⟨api, as⟩], rfl⟩

theorem te_mHttp (api : String) (as : List Arg) : TraceExt (mHttp api as) := by
  intro env tr
  exact ⟨[⟨api, as⟩], rfl⟩

theorem te_mStream (api : String) (as : List Arg) : TraceExt (mStream api as) := by
  intro env tr
  exact ⟨[⟨api, as⟩], rfl⟩

theorem te_ofExcept (e : Except Exn α) : TraceExt (mOfExcept e) :=
  fun _ tr => ⟨[], (List.append_nil tr).symm⟩

theorem te_bind (x : M α) (f : α → M β) (hx : TraceExt x) (hf : ∀ a, TraceExt (f a)) :
    TraceExt (x >>= f) := by
  intro env tr
  obtain ⟨l1, hl1⟩ := hx env tr
  rcases hrx : x env tr with ⟨tr1, r⟩
  rw [hrx] at hl1
  cases r with
  | ok a =>
    obtain ⟨l2, hl2⟩ := hf a env tr1
    refine ⟨l1 ++ l2, ?_⟩
    show (M.bind x f env tr).1 = tr ++ (l1 ++ l2)
    unfold M.bind
    rw [hrx]
    show (f a env tr1).1 = tr ++ (l1 ++ l2)
    rw [hl2]
    simp only at hl1
    rw [hl1, List.append_assoc]
  | error ex =>
    refine ⟨l1, ?_⟩
    show (M.bind x f env tr).1 = tr ++ l1
    unfold M.bind
    rw [hrx]
    simpa using hl1

theorem te_forSeq (f : α → M β) (hf : ∀ a, TraceExt (f a)) : ∀ l, TraceExt (forSeq f l)
  | [] => te_pure _
  | x :: xs =>
    te_bind _ _ (hf x) (fun y => te_bind _ _ (te_forSeq f hf xs) (fun ys => te_pure _))

theorem tg_call_bind (api : String) (as : List Arg) (k : String → M β)
    (hk : ∀ a, TraceExt (k a)) : TraceGrows (mCall api as >>= k) := by
  intro env tr
  show (M.bind (mCall api as) k env tr).1 ≠ tr
  unfold M.bind mCall
  cases h : env.call ⟨api, as⟩ with
  | ok v =>
    show (k v env (tr ++ [⟨api, as⟩])).1 ≠ tr
    obtain ⟨l, hl⟩ := hk v env (tr ++ [⟨api, as⟩])
    rw [hl]
    intro heq
    have := congrArg List.length heq
    simp at this
  | error e =>
    show tr ++ [⟨api, as⟩] ≠ tr
    intro heq
    have := congrArg List.length heq
    simp at this

theorem tg_http_bind (api : String) (as : List Arg) (k : HttpResp → M β)
    (hk : ∀ a, TraceExt (k a)) : TraceGrows (mHttp api as >>= k) := by
  intro env tr
  show (M.bind (mHttp api as) k env tr).1 ≠ tr
  unfold M.bind mHttp
  cases h : env.http ⟨api, as⟩ with
  | ok v =>
    show (k v env (tr ++ [⟨api, as⟩])).1 ≠ tr
    obtain ⟨l, hl⟩ := hk v env (tr ++ [⟨api, as⟩])
    rw [hl]
    intro heq
    have := congrArg List.length heq
    simp at this
  | error e =>
    show tr ++ [⟨api, as⟩] ≠ tr
    intro heq
    have := congrArg List.length heq
    simp at this

theorem tg_branch_core_list_project_teams (ctx : Ctx) (args : Args) :
    TraceGrows (branch_core_list_project_teams ctx args) := by
  unfold branch_core_list_project_teams
  apply tg_call_bind
  intro _
  repeat first
    | exact te_pure _
    | exact te_mCall _ _
    | exact te_mNamed _ _
    | exact te_mRefs _ _
    | exact te_mRels _ _
    | exact te_mHttp _ _
    | exact te_mStream _ _
    | exact te_ofExcept _
    | (apply te_forSeq)
    | (apply te_bind)
    | split
    | (intro _)

theorem tg_branch_core_list_projects (ctx : Ctx) (args : Args) :
    TraceGrows (branch_core_list_projects ctx args) := by
  unfold branch_core_list_projects
  apply tg_call_bind
  intro _
  repeat first
    | exact te_pure _
    | exact te_mCall _ _
    | exact te_mNamed _ _
    | exact te_mRefs _ _
    | exact te_mRels _ _
    | exact te_mHttp _ _
    | exact te_mStream _ _
    | exact te_ofExcept _
    | (apply te_forSeq)
    | (apply te_bind)
    | split
    | (intro _)

theorem tg_branch_core_get_identity_ids (ctx : Ctx) (args : Args) :
    TraceGrows (branch_core_get_identity_ids ctx args) := by
  unfold branch_core_get_identity_ids
  apply tg_http_bind
  intro _
  repeat first
    | exact te_pure _
    | exact te_mCall _ _
    | exact te_mNamed _ _
    | exact te_mRefs _ _
    | exact te_mRels _ _
    | exact te_mHttp _ _
    | exact te_mStream _ _
    | exact te_ofExcept _
    | (apply te_forSeq)
    | (apply te_bind)
    | split
    | (intro _)

theorem tg_branch_repo_list_repos_by_project (ctx : Ctx) (args : Args) :
    TraceGrows (branch_repo_list_repos_by_project ctx args) := by
  unfold branch_repo_list_repos_by_project
  apply tg_call_bind
  intro _
  repeat first
    | exact te_pure _
    | exact te_mCall _ _
    | exact te_mNamed _ _
    | exact te_mRefs _ _
    | exact te_mRels _ _
    | exact te_mHttp _ _
    | exact te_mStream _ _
    | exact te_ofExcept _
    | (apply te_forSeq)
    | (apply te_bind)
    | split
    | (intro _)

theorem tg_branch_repo_get_repo_by_name_or_id (ctx : Ctx) (args : Args) :
    TraceGrows (branch_repo_get_repo_by_name_or_id ctx args) := by
  unfold branch_repo_get_repo_by_name_or_id
  apply tg_call_bind
  intro _
  repeat first
    | exact te_pure _
    | exact te_mCall _ _
    | exact te_mNamed _ _
    | exact te_mRefs _ _
    | exact te_mRels _ _
    | exact te_mHttp _ _
    | exact te_mStream _ _
    | exact te_ofExcept _
    | (apply te_forSeq)
    | (apply te_bind)
    | split
    | (intro _)

theorem tg_branch_repo_list_branches_by_repo (ctx : Ctx) (args : Args) :
    TraceGrows (branch_repo_list_branches_by_repo ctx args) := by
  unfold branch_repo_list_branches_by_repo
  apply tg_call_bind
  intro _
  repeat first
    | exact te_pure _
    | exact te_mCall _ _
    | exact te_mNamed _ _
    | exact te_mRefs _ _
    | exact te_mRels _ _
    | exact te_mHttp _ _
    | exact te_mStream _ _
    | exact te_ofExcept _
    | (apply te_forSeq)
    | (apply te_bind)
    | split
    | (intro _)

theorem tg_branch_repo_list_my_branches_by_repo (ctx : Ctx) (args : Args) :
    TraceGrows (branch_repo_list_my_branches_by_repo ctx args) := by
  unfold branch_repo_list_my_branches_by_repo
  apply tg_call_bind
  intro _
  repeat first
    | exact te_pure _
    | exact te_mCall _ _
    | exact te_mNamed _ _
    | exact te_mRefs _ _
    | exact te_mRels _ _
    | exact te_mHttp _ _
    | exact te_mStream _ _
    | exact te_ofExcept _
    | (apply te_forSeq)
    | (apply te_bind)
    | split
    | (intro _)

theorem tg_branch_repo_get_branch_by_name (ctx : Ctx) (args : Args) :
    TraceGrows (branch_repo_get_branch_by_name ctx args) := by
  unfold branch_repo_get_branch_by_name
  apply tg_call_bind
  intro _
  repeat first
    | exact te_pure _
    | exact te_mCall _ _
    | exact te_mNamed _ _
    | exact te_mRefs _ _
    | exact te_mRels _ _
    | exact te_mHttp _ _
    | exact te_mStream _ _
    | exact te_ofExcept _
    | (apply te_forSeq)
    | (apply te_bind)
    | split
    | (intro _)

theorem tg_branch_repo_create_branch (ctx : Ctx) (args : Args) :
    TraceGrows (branch_repo_create_branch ctx args) := by
  unfold branch_repo_create_branch
  apply tg_call_bind
  intro _
  repeat first
    | exact te_pure _
    | exact te_mCall _ _
    | exact te_mNamed _ _
    | exact te_mRefs _ _
    | exact te_mRels _ _
    | exact te_mHttp _ _
    | exact te_mStream _ _
    | exact te_ofExcept _
    | (apply te_forSeq)
    | (apply te_bind)
    | split
    | (intro _)

theorem tg_branch_repo_list_pull_requests_by_repo_or_project (ctx : Ctx) (args : Args) :
    TraceGrows (branch_repo_list_pull_requests_by_repo_or_project ctx args) := by
  unfold branch_repo_list_pull_requests_by_repo_or_project
  apply tg_call_bind
  intro _
  repeat first
    | exact te_pure _
    | exact te_mCall _ _
    | exact te_mNamed _ _
    | exact te_mRefs _ _
    | exact te_mRels _ _
    | exact te_mHttp _ _
    | exact te_mStream _ _
    | exact te_ofExcept _
    | (apply te_forSeq)
    | (apply te_bind)
    | split
    | (intro _)

theorem tg_branch_repo_get_pull_request_by_id (ctx : Ctx) (args : Args) :
    TraceGrows (branch_repo_get_pull_request_by_id ctx args) := by
  unfold branch_repo_get_pull_request_by_id
  apply tg_call_bind
  intro _
  repeat first
    | exact te_pure _
    | exact te_mCall _ _
    | exact te_mNamed _ _
    | exact te_mRefs _ _
    | exact te_mRels _ _
    | exact te_mHttp _ _
    | exact te_mStream _ _
    | exact te_ofExcept _
    | (apply te_forSeq)
    | (apply te_bind)
    | split
    | (intro _)

theorem tg_branch_repo_create_pull_request (ctx : Ctx) (args : Args) :
    TraceGrows (branch_repo_create_pull_request ctx args) := by
  unfold branch_repo_create_pull_request
  apply tg_call_bind
  intro _
  repeat first
    | exact te_pure _
    | exact te_mCall _ _
    | exact te_mNamed _ _
    | exact te_mRefs _ _
    | exact te_mRels _ _
    | exact te_mHttp _ _
    | exact te_mStream _ _
    | exact te_ofExcept _
    | (apply te_forSeq)
    | (apply te_bind)
    | split
    | (intro _)

theorem tg_branch_repo_update_pull_request (ctx : Ctx) (args : Args) :
    TraceGrows (branch_repo_update_pull_request ctx args) := by
  unfold branch_repo_update_pull_request
  apply tg_call_bind
  intro _
  repeat first
    | exact te_pure _
    | exact te_mCall _ _
    | exact te_mNamed _ _
    | exact te_mRefs _ _
    | exact te_mRels _ _
    | exact te_mHttp _ _
    | exact te_mStream _ _
    | exact te_ofExcept _
    | (apply te_forSeq)
    | (apply te_bind)
    | split
    | (intro _)

theorem tg_branch_repo_update_pull_request_reviewers (ctx : Ctx) (args : Args) :
    TraceGrows (branch_repo_update_pull_request_reviewers ctx args) := by
  unfold branch_repo_update_pull_request_reviewers
  apply tg_call_bind
  intro _
  repeat first
    | exact te_pure _
    | exact te_mCall _ _
    | exact te_mNamed _ _
    | exact te_mRefs _ _
    | exact te_mRels _ _
    | exact te_mHttp _ _
    | exact te_mStream _ _
    | exact te_ofExcept _
    | (apply te_forSeq)
    | (apply te_bind)
    | split
    | (intro _)

theorem tg_branch_repo_list_pull_request_threads (ctx : Ctx) (args : Args) :
    TraceGrows (branch_repo_list_pull_request_threads ctx args) := by
  unfold branch_repo_list_pull_request_threads
  apply tg_call_bind
  intro _
  repeat first
    | exact te_pure _
    | exact te_mCall _ _
    | exact te_mNamed _ _
    | exact te_mRefs _ _
    | exact te_mRels _ _
    | exact te_mHttp _ _
    | exact te_mStream _ _
    | exact te_ofExcept _
    | (apply te_forSeq)
    | (apply te_bind)
    | split
    | (intro _)

theorem tg_branch_repo_list_pull_request_thread_comments (ctx : Ctx) (args : Args) :
    TraceGrows (branch_repo_list_pull_request_thread_comments ctx args) := by
  unfold branch_repo_list_pull_request_thread_comments
  apply tg_call_bind
  intro _
  repeat first
    | exact te_pure _
    | exact te_mCall _ _
    | exact te_mNamed _ _
    | exact te_mRefs _ _
    | exact te_mRels _ _
    | exact te_mHttp _ _
    | exact te_mStream _ _
    | exact te_ofExcept _
    | (apply te_forSeq)
    | (apply te_bind)
    | split
    | (intro _)

theorem tg_branch_repo_create_pull_request_thread (ctx : Ctx) (args : Args) :
    TraceGrows (branch_repo_create_pull_request_thread ctx args) := by
  unfold branch_repo_create_pull_request_thread
  apply tg_call_bind
  intro _
  repeat first
    | exact te_pure _
    | exact te_mCall _ _
    | exact te_mNamed _ _
    | exact te_mRefs _ _
    | exact te_mRels _ _
    | exact te_mHttp _ _
    | exact te_mStream _ _
    | exact te_ofExcept _
    | (apply te_forSeq)
    | (apply te_bind)
    | split
    | (intro _)

theorem tg_branch_repo_update_pull_request_thread (ctx : Ctx) (args : Args) :
    TraceGrows (branch_repo_update_pull_request_thread ctx args) := by
  unfold branch_repo_update_pull_request_thread
  apply tg_call_bind
  intro _
  repeat first
    | exact te_pure _
    | exact te_mCall _ _
    | exact te_mNamed _ _
    | exact te_mRefs _ _
    | exact te_mRels _ _
    | exact te_mHttp _ _
    | exact te_mStream _ _
    | exact te_ofExcept _
    | (apply te_forSeq)
    | (apply te_bind)
    | split
    | (intro _)

theorem tg_branch_repo_reply_to_comment (ctx : Ctx) (args : Args) :
    TraceGrows (branch_repo_reply_to_comment ctx args) := by
  unfold branch_repo_reply_to_comment
  apply tg_call_bind
  intro _
  repeat first
    | exact te_pure _
    | exact te_mCall _ _
    | exact te_mNamed _ _
    | exact te_mRefs _ _
    | exact te_mRels _ _
    | exact te_mHttp _ _
    | exact te_mStream _ _
    | exact te_ofExcept _
    | (apply te_forSeq)
    | (apply te_bind)
    | split
    | (intro _)

theorem tg_branch_repo_search_commits (ctx : Ctx) (args : Args) :
    TraceGrows (branch_repo_search_commits ctx args) := by
  unfold branch_repo_search_commits
  apply tg_call_bind
  intro _
  repeat first
    | exact te_pure _
    | exact te_mCall _ _
    | exact te_mNamed _ _
    | exact te_mRefs _ _
    | exact te_mRels _ _
    | exact te_mHttp _ _
    | exact te_mStream _ _
    | exact te_ofExcept _
    | (apply te_forSeq)
    | (apply te_bind)
    | split
    | (intro _)

theorem tg_branch_repo_list_pull_requests_by_commits (ctx : Ctx) (args : Args) :
    TraceGrows (branch_repo_list_pull_requests_by_commits ctx args) := by
  unfold branch_repo_list_pull_requests_by_commits
  apply tg_call_bind
  intro _
  repeat first
    | exact te_pure _
    | exact te_mCall _ _
    | exact te_mNamed _ _
    | exact te_mRefs _ _
    | exact te_mRels _ _
    | exact te_mHttp _ _
    | exact te_mStream _ _
    | exact te_ofExcept _
    | (apply te_forSeq)
    | (apply te_bind)
    | split
    | (intro _)

theorem tg_branch_wit_get_work_item (ctx : Ctx) (args : Args) :
    TraceGrows (branch_wit_get_work_item ctx args) := by
  unfold branch_wit_get_work_item
  apply tg_call_bind
  intro _
  repeat first
    | exact te_pure _
    | exact te_mCall _ _
    | exact te_mNamed _ _
    | exact te_mRefs _ _
    | exact te_mRels _ _
    | exact te_mHttp _ _
    | exact te_mStream _ _
    | exact te_ofExcept _
    | (apply te_forSeq)
    | (apply te_bind)
    | split
    | (intro _)

theorem tg_branch_wit_get_work_items_batch_by_ids (ctx : Ctx) (args : Args) :
    TraceGrows (branch_wit_get_work_items_batch_by_ids ctx args) := by
  unfold branch_wit_get_work_items_batch_by_ids
  apply tg_call_bind
  intro _
  repeat first
    | exact te_pure _
    | exact te_mCall _ _
    | exact te_mNamed _ _
    | exact te_mRefs _ _
    | exact te_mRels _ _
    | exact te_mHttp _ _
    | exact te_mStream _ _
    | exact te_ofExcept _
    | (apply te_forSeq)
    | (apply te_bind)
    | split
    | (intro _)

theorem tg_branch_wit_create_work_item (ctx : Ctx) (args : Args) :
    TraceGrows (branch_wit_create_work_item ctx args) := by
  unfold branch_wit_create_work_item
  apply tg_call_bind
  intro _
  repeat first
    | exact te_pure _
    | exact te_mCall _ _
    | exact te_mNamed _ _
    | exact te_mRefs _ _
    | exact te_mRels _ _
    | exact te_mHttp _ _
    | exact te_mStream _ _
    | exact te_ofExcept _
    | (apply te_forSeq)
    | (apply te_bind)
    | split
    | (intro _)

theorem tg_branch_wit_update_work_item (ctx : Ctx) (args : Args) :
    TraceGrows (branch_wit_update_work_item ctx args) := by
  unfold branch_wit_update_work_item
  apply tg_call_bind
  intro _
  repeat first
    | exact te_pure _
    | exact te_mCall _ _
    | exact te_mNamed _ _
    | exact te_mRefs _ _
    | exact te_mRels _ _
    | exact te_mHttp _ _
    | exact te_mStream _ _
    | exact te_ofExcept _
    | (apply te_forSeq)
    | (apply te_bind)
    | split
    | (intro _)

theorem tg_branch_wit_update_work_items_batch (ctx : Ctx) (args : Args) :
    TraceGrows (branch_wit_update_work_items_batch ctx args) := by
  unfold branch_wit_update_work_items_batch
  apply tg_call_bind
  intro _
  repeat first
    | exact te_pure _
    | exact te_mCall _ _
    | exact te_mNamed _ _
    | exact te_mRefs _ _
    | exact te_mRels _ _
    | exact te_mHttp _ _
    | exact te_mStream _ _
    | exact te_ofExcept _
    | (apply te_forSeq)
    | (apply te_bind)
    | split
    | (intro _)

theorem tg_branch_wit_my_work_items (ctx : Ctx) (args : Args) :
    TraceGrows (branch_wit_my_work_items ctx args) := by
  unfold branch_wit_my_work_items
  apply tg_call_bind
  intro _
  repeat first
    | exact te_pure _
    | exact te_mCall _ _
    | exact te_mNamed _ _
    | exact te_mRefs _ _
    | exact te_mRels _ _
    | exact te_mHttp _ _
    | exact te_mStream _ _
    | exact te_ofExcept _
    | (apply te_forSeq)
    | (apply te_bind)
    | split
    | (intro _)

theorem tg_branch_wit_list_backlogs (ctx : Ctx) (args : Args) :
    TraceGrows (branch_wit_list_backlogs ctx args) := by
  unfold branch_wit_list_backlogs
  apply tg_call_bind
  intro _
  repeat first
    | exact te_pure _
    | exact te_mCall _ _
    | exact te_mNamed _ _
    | exact te_mRefs _ _
    | exact te_mRels _ _
    | exact te_mHttp _ _
    | exact te_mStream _ _
    | exact te_ofExcept _
    | (apply te_forSeq)
    | (apply te_bind)
    | split
    | (intro _)

theorem tg_branch_wit_list_backlog_work_items (ctx : Ctx) (args : Args) :
    TraceGrows (branch_wit_list_backlog_work_items ctx args) := by
  unfold branch_wit_list_backlog_work_items
  apply tg_call_bind
  intro _
  repeat first
    | exact te_pure _
    | exact te_mCall _ _
    | exact te_mNamed _ _
    | exact te_mRefs _ _
    | exact te_mRels _ _
    | exact te_mHttp _ _
    | exact te_mStream _ _
    | exact te_ofExcept _
    | (apply te_forSeq)
    | (apply te_bind)
    | split
    | (intro _)

theorem tg_branch_wit_list_work_item_comments (ctx : Ctx) (args : Args) :
    TraceGrows (branch_wit_list_work_item_comments ctx args) := by
  unfold branch_wit_list_work_item_comments
  apply tg_call_bind
  intro _
  repeat first
    | exact te_pure _
    | exact te_mCall _ _
    | exact te_mNamed _ _
    | exact te_mRefs _ _
    | exact te_mRels _ _
    | exact te_mHttp _ _
    | exact te_mStream _ _
    | exact te_ofExcept _
    | (apply te_forSeq)
    | (apply te_bind)
    | split
    | (intro _)

theorem tg_branch_wit_add_work_item_comment (ctx : Ctx) (args : Args) :
    TraceGrows (branch_wit_add_work_item_comment ctx args) := by
  unfold branch_wit_add_work_item_comment
  apply tg_call_bind
  intro _
  repeat first
    | exact te_pure _
    | exact te_mCall _ _
    | exact te_mNamed _ _
    | exact te_mRefs _ _
    | exact te_mRels _ _
    | exact te_mHttp _ _
    | exact te_mStream _ _
    | exact te_ofExcept _
    | (apply te_forSeq)
    | (apply te_bind)
    | split
    | (intro _)

theorem tg_branch_wit_list_work_item_revisions (ctx : Ctx) (args : Args) :
    TraceGrows (branch_wit_list_work_item_revisions ctx args) := by
  unfold branch_wit_list_work_item_revisions
  apply tg_call_bind
  intro _
  repeat first
    | exact te_pure _
    | exact te_mCall _ _
    | exact te_mNamed _ _
    | exact te_mRefs _ _
    | exact te_mRels _ _
    | exact te_mHttp _ _
    | exact te_mStream _ _
    | exact te_ofExcept _
    | (apply te_forSeq)
    | (apply te_bind)
    | split
    | (intro _)

theorem tg_branch_wit_get_work_items_for_iteration (ctx : Ctx) (args : Args) :
    TraceGrows (branch_wit_get_work_items_for_iteration ctx args) := by
  unfold branch_wit_get_work_items_for_iteration
  apply tg_call_bind
  intro _
  repeat first
    | exact te_pure _
    | exact te_mCall _ _
    | exact te_mNamed _ _
    | exact te_mRefs _ _
    | exact te_mRels _ _
    | exact te_mHttp _ _
    | exact te_mStream _ _
    | exact te_ofExcept _
    | (apply te_forSeq)
    | (apply te_bind)
    | split
    | (intro _)

theorem tg_branch_wit_add_child_work_items (ctx : Ctx) (args : Args) :
    TraceGrows (branch_wit_add_child_work_items ctx args) := by
  unfold branch_wit_add_child_work_items
  apply tg_call_bind
  intro _
  repeat first
    | exact te_pure _
    | exact te_mCall _ _
    | exact te_mNamed _ _
    | exact te_mRefs _ _
    | exact te_mRels _ _
    | exact te_mHttp _ _
    | exact te_mStream _ _
    | exact te_ofExcept _
    | (apply te_forSeq)
    | (apply te_bind)
    | split
    | (intro _)

theorem tg_branch_wit_work_items_link (ctx : Ctx) (args : Args) :
    TraceGrows (branch_wit_work_items_link ctx args) := by
  unfold branch_wit_work_items_link
  apply tg_call_bind
  intro _
  repeat first
    | exact te_pure _
    | exact te_mCall _ _
    | exact te_mNamed _ _
    | exact te_mRefs _ _
    | exact te_mRels _ _
    | exact te_mHttp _ _
    | exact te_mStream _ _
    | exact te_ofExcept _
    | (apply te_forSeq)
    | (apply te_bind)
    | split
    | (intro _)

theorem tg_branch_wit_work_item_unlink (ctx : Ctx) (args : Args) :
    TraceGrows (branch_wit_work_item_unlink ctx args) := by
  unfold branch_wit_work_item_unlink
  apply tg_call_bind
  intro _
  repeat first
    | exact te_pure _
    | exact te_mCall _ _
    | exact te_mNamed _ _
    | exact te_mRefs _ _
    | exact te_mRels _ _
    | exact te_mHttp _ _
    | exact te_mStream _ _
    | exact te_ofExcept _
    | (apply te_forSeq)
    | (apply te_bind)
    | split
    | (intro _)

theorem tg_branch_wit_link_work_item_to_pull_request (ctx : Ctx) (args : Args) :
    TraceGrows (branch_wit_link_work_item_to_pull_request ctx args) := by
  unfold branch_wit_link_work_item_to_pull_request
  apply tg_call_bind
  intro _
  repeat first
    | exact te_pure _
    | exact te_mCall _ _
    | exact te_mNamed _ _
    | exact te_mRefs _ _
    | exact te_mRels _ _
    | exact te_mHttp _ _
    | exact te_mStream _ _
    | exact te_ofExcept _
    | (apply te_forSeq)
    | (apply te_bind)
    | split
    | (intro _)

theorem tg_branch_wit_add_artifact_link (ctx : Ctx) (args : Args) :
    TraceGrows (branch_wit_add_artifact_link ctx args) := by
  unfold branch_wit_add_artifact_link
  apply tg_call_bind
  intro _
  repeat first
    | exact te_pure _
    | exact te_mCall _ _
    | exact te_mNamed _ _
    | exact te_mRefs _ _
    | exact te_mRels _ _
    | exact te_mHttp _ _
    | exact te_mStream _ _
    | exact te_ofExcept _
    | (apply te_forSeq)
    | (apply te_bind)
    | split
    | (intro _)

theorem tg_branch_wit_get_work_item_type (ctx : Ctx) (args : Args) :
    TraceGrows (branch_wit_get_work_item_type ctx args) := by
  unfold branch_wit_get_work_item_type
  apply tg_call_bind
  intro _
  repeat first
    | exact te_pure _
    | exact te_mCall _ _
    | exact te_mNamed _ _
    | exact te_mRefs _ _
    | exact te_mRels _ _
    | exact te_mHttp _ _
    | exact te_mStream _ _
    | exact te_ofExcept _
    | (apply te_forSeq)
    | (apply te_bind)
    | split
    | (intro _)

theorem tg_branch_wit_get_query (ctx : Ctx) (args : Args) :
    TraceGrows (branch_wit_get_query ctx args) := by
  unfold branch_wit_get_query
  apply tg_call_bind
  intro _
  repeat first
    | exact te_pure _
    | exact te_mCall _ _
    | exact te_mNamed _ _
    | exact te_mRefs _ _
    | exact te_mRels _ _
    | exact te_mHttp _ _
    | exact te_mStream _ _
    | exact te_ofExcept _
    | (apply te_forSeq)
    | (apply te_bind)
    | split
    | (intro _)

theorem tg_branch_wit_get_query_results_by_id (ctx : Ctx) (args : Args) :
    TraceGrows (branch_wit_get_query_results_by_id ctx args) := by
  unfold branch_wit_get_query_results_by_id
  apply tg_call_bind
  intro _
  repeat first
    | exact te_pure _
    | exact te_mCall _ _
    | exact te_mNamed _ _
    | exact te_mRefs _ _
    | exact te_mRels _ _
    | exact te_mHttp _ _
    | exact te_mStream _ _
    | exact te_ofExcept _
    | (apply te_forSeq)
    | (apply te_bind)
    | split
    | (intro _)

theorem tg_branch_pipelines_get_builds (ctx : Ctx) (args : Args) :
    TraceGrows (branch_pipelines_get_builds ctx args) := by
  unfold branch_pipelines_get_builds
  apply tg_call_bind
  intro _
  repeat first
    | exact te_pure _
    | exact te_mCall _ _
    | exact te_mNamed _ _
    | exact te_mRefs _ _
    | exact te_mRels _ _
    | exact te_mHttp _ _
    | exact te_mStream _ _
    | exact te_ofExcept _
    | (apply te_forSeq)
    | (apply te_bind)
    | split
    | (intro _)

theorem tg_branch_pipelines_get_build_changes (ctx : Ctx) (args : Args) :
    TraceGrows (branch_pipelines_get_build_changes ctx args) := by
  unfold branch_pipelines_get_build_changes
  apply tg_call_bind
  intro _
  repeat first
    | exact te_pure _
    | exact te_mCall _ _
    | exact te_mNamed _ _
    | exact te_mRefs _ _
    | exact te_mRels _ _
    | exact te_mHttp _ _
    | exact te_mStream _ _
    | exact te_ofExcept _
    | (apply te_forSeq)
    | (apply te_bind)
    | split
    | (intro _)

theorem tg_branch_pipelines_get_build_definitions (ctx : Ctx) (args : Args) :
    TraceGrows (branch_pipelines_get_build_definitions ctx args) := by
  unfold branch_pipelines_get_build_definitions
  apply tg_call_bind
  intro _
  repeat first
    | exact te_pure _
    | exact te_mCall _ _
    | exact te_mNamed _ _
    | exact te_mRefs _ _
    | exact te_mRels _ _
    | exact te_mHttp _ _
    | exact te_mStream _ _
    | exact te_ofExcept _
    | (apply te_forSeq)
    | (apply te_bind)
    | split
    | (intro _)

theorem tg_branch_pipelines_get_build_definition_revisions (ctx : Ctx) (args : Args) :
    TraceGrows (branch_pipelines_get_build_definition_revisions ctx args) := by
  unfold branch_pipelines_get_build_definition_revisions
  apply tg_call_bind
  intro _
  repeat first
    | exact te_pure _
    | exact te_mCall _ _
    | exact te_mNamed _ _
    | exact te_mRefs _ _
    | exact te_mRels _ _
    | exact te_mHttp _ _
    | exact te_mStream _ _
    | exact te_ofExcept _
    | (apply te_forSeq)
    | (apply te_bind)
    | split
    | (intro _)

theorem tg_branch_pipelines_get_build_log (ctx : Ctx) (args : Args) :
    TraceGrows (branch_pipelines_get_build_log ctx args) := by
  unfold branch_pipelines_get_build_log
  apply tg_call_bind
  intro _
  repeat first
    | exact te_pure _
    | exact te_mCall _ _
    | exact te_mNamed _ _
    | exact te_mRefs _ _
    | exact te_mRels _ _
    | exact te_mHttp _ _
    | exact te_mStream _ _
    | exact te_ofExcept _
    | (apply te_forSeq)
    | (apply te_bind)
    | split
    | (intro _)

theorem tg_branch_pipelines_get_build_log_by_id (ctx : Ctx) (args : Args) :
    TraceGrows (branch_pipelines_get_build_log_by_id ctx args) := by
  unfold branch_pipelines_get_build_log_by_id
  apply tg_call_bind
  intro _
  repeat first
    | exact te_pure _
    | exact te_mCall _ _
    | exact te_mNamed _ _
    | exact te_mRefs _ _
    | exact te_mRels _ _
    | exact te_mHttp _ _
    | exact te_mStream _ _
    | exact te_ofExcept _
    | (apply te_forSeq)
    | (apply te_bind)
    | split
    | (intro _)

theorem tg_branch_pipelines_get_build_status (ctx : Ctx) (args : Args) :
    TraceGrows (branch_pipelines_get_build_status ctx args) := by
  unfold branch_pipelines_get_build_status
  apply tg_call_bind
  intro _
  repeat first
    | exact te_pure _
    | exact te_mCall _ _
    | exact te_mNamed _ _
    | exact te_mRefs _ _
    | exact te_mRels _ _
    | exact te_mHttp _ _
    | exact te_mStream _ _
    | exact te_ofExcept _
    | (apply te_forSeq)
    | (apply te_bind)
    | split
    | (intro _)

theorem tg_branch_pipelines_update_build_stage (ctx : Ctx) (args : Args) :
    TraceGrows (branch_pipelines_update_build_stage ctx args) := by
  unfold branch_pipelines_update_build_stage
  apply tg_http_bind
  intro _
  repeat first
    | exact te_pure _
    | exact te_mCall _ _
    | exact te_mNamed _ _
    | exact te_mRefs _ _
    | exact te_mRels _ _
    | exact te_mHttp _ _
    | exact te_mStream _ _
    | exact te_ofExcept _
    | (apply te_forSeq)
    | (apply te_bind)
    | split
    | (intro _)

theorem tg_branch_pipelines_create_pipeline (ctx : Ctx) (args : Args) :
    TraceGrows (branch_pipelines_create_pipeline ctx args) := by
  unfold branch_pipelines_create_pipeline
  apply tg_call_bind
  intro _
  repeat first
    | exact te_pure _
    | exact te_mCall _ _
    | exact te_mNamed _ _
    | exact te_mRefs _ _
    | exact te_mRels _ _
    | exact te_mHttp _ _
    | exact te_mStream _ _
    | exact te_ofExcept _
    | (apply te_forSeq)
    | (apply te_bind)
    | split
    | (intro _)

theorem tg_branch_pipelines_get_run (ctx : Ctx) (args : Args) :
    TraceGrows (branch_pipelines_get_run ctx args) := by
  unfold branch_pipelines_get_run
  apply tg_call_bind
  intro _
  repeat first
    | exact te_pure _
    | exact te_mCall _ _
    | exact te_mNamed _ _
    | exact te_mRefs _ _
    | exact te_mRels _ _
    | exact te_mHttp _ _
    | exact te_mStream _ _
    | exact te_ofExcept _
    | (apply te_forSeq)
    | (apply te_bind)
    | split
    | (intro _)

theorem tg_branch_pipelines_list_runs (ctx : Ctx) (args : Args) :
    TraceGrows (branch_pipelines_list_runs ctx args) := by
  unfold branch_pipelines_list_runs
  apply tg_call_bind
  intro _
  repeat first
    | exact te_pure _
    | exact te_mCall _ _
    | exact te_mNamed _ _
    | exact te_mRefs _ _
    | exact te_mRels _ _
    | exact te_mHttp _ _
    | exact te_mStream _ _
    | exact te_ofExcept _
    | (apply te_forSeq)
    | (apply te_bind)
    | split
    | (intro _)

theorem tg_branch_pipelines_run_pipeline (ctx : Ctx) (args : Args) :
    TraceGrows (branch_pipelines_run_pipeline ctx args) := by
  unfold branch_pipelines_run_pipeline
  apply tg_call_bind
  intro _
  repeat first
    | exact te_pure _
    | exact te_mCall _ _
    | exact te_mNamed _ _
    | exact te_mRefs _ _
    | exact te_mRels _ _
    | exact te_mHttp _ _
    | exact te_mStream _ _
    | exact te_ofExcept _
    | (apply te_forSeq)
    | (apply te_bind)
    | split
    | (intro _)

theorem tg_branch_pipelines_list_artifacts (ctx : Ctx) (args : Args) :
    TraceGrows (branch_pipelines_list_artifacts ctx args) := by
  unfold branch_pipelines_list_artifacts
  apply tg_call_bind
  intro _
  repeat first
    | exact te_pure _
    | exact te_mCall _ _
    | exact te_mNamed _ _
    | exact te_mRefs _ _
    | exact te_mRels _ _
    | exact te_mHttp _ _
    | exact te_mStream _ _
    | exact te_ofExcept _
    | (apply te_forSeq)
    | (apply te_bind)
    | split
    | (intro _)

theorem tg_branch_pipelines_download_artifact (ctx : Ctx) (args : Args) :
    TraceGrows (branch_pipelines_download_artifact ctx args) := by
  unfold branch_pipelines_download_artifact
  apply tg_call_bind
  intro _
  repeat first
    | exact te_pure _
    | exact te_mCall _ _
    | exact te_mNamed _ _
    | exact te_mRefs _ _
    | exact te_mRels _ _
    | exact te_mHttp _ _
    | exact te_mStream _ _
    | exact te_ofExcept _
    | (apply te_forSeq)
    | (apply te_bind)
    | split
    | (intro _)

theorem tg_branch_wiki_list_wikis (ctx : Ctx) (args : Args) :
    TraceGrows (branch_wiki_list_wikis ctx args) := by
  unfold branch_wiki_list_wikis
  apply tg_call_bind
  intro _
  repeat first
    | exact te_pure _
    | exact te_mCall _ _
    | exact te_mNamed _ _
    | exact te_mRefs _ _
    | exact te_mRels _ _
    | exact te_mHttp _ _
    | exact te_mStream _ _
    | exact te_ofExcept _
    | (apply te_forSeq)
    | (apply te_bind)
    | split
    | (intro _)

theorem tg_branch_wiki_get_wiki (ctx : Ctx) (args : Args) :
    TraceGrows (branch_wiki_get_wiki ctx args) := by
  unfold branch_wiki_get_wiki
  apply tg_call_bind
  intro _
  repeat first
    | exact te_pure _
    | exact te_mCall _ _
    | exact te_mNamed _ _
    | exact te_mRefs _ _
    | exact te_mRels _ _
    | exact te_mHttp _ _
    | exact te_mStream _ _
    | exact te_ofExcept _
    | (apply te_forSeq)
    | (apply te_bind)
    | split
    | (intro _)

theorem tg_branch_wiki_list_pages (ctx : Ctx) (args : Args) :
    TraceGrows (branch_wiki_list_pages ctx args) := by
  unfold branch_wiki_list_pages
  apply tg_call_bind
  intro _
  repeat first
    | exact te_pure _
    | exact te_mCall _ _
    | exact te_mNamed _ _
    | exact te_mRefs _ _
    | exact te_mRels _ _
    | exact te_mHttp _ _
    | exact te_mStream _ _
    | exact te_ofExcept _
    | (apply te_forSeq)
    | (apply te_bind)
    | split
    | (intro _)

theorem tg_branch_wiki_get_page (ctx : Ctx) (args : Args) :
    TraceGrows (branch_wiki_get_page ctx args) := by
  unfold branch_wiki_get_page
  apply tg_http_bind
  intro _
  repeat first
    | exact te_pure _
    | exact te_mCall _ _
    | exact te_mNamed _ _
    | exact te_mRefs _ _
    | exact te_mRels _ _
    | exact te_mHttp _ _
    | exact te_mStream _ _
    | exact te_ofExcept _
    | (apply te_forSeq)
    | (apply te_bind)
    | split
    | (intro _)

theorem tg_branch_wiki_get_page_content (ctx : Ctx) (args : Args) :
    TraceGrows (branch_wiki_get_page_content ctx args) := by
  unfold branch_wiki_get_page_content
  apply tg_call_bind
  intro _
  repeat first
    | exact te_pure _
    | exact te_mCall _ _
    | exact te_mNamed _ _
    | exact te_mRefs _ _
    | exact te_mRels _ _
    | exact te_mHttp _ _
    | exact te_mStream _ _
    | exact te_ofExcept _
    | (apply te_forSeq)
    | (apply te_bind)
    | split
    | (intro _)

theorem tg_branch_wiki_create_or_update_page (ctx : Ctx) (args : Args) :
    TraceGrows (branch_wiki_create_or_update_page ctx args) := by
  unfold branch_wiki_create_or_update_page
  apply tg_http_bind
  intro _
  repeat first
    | exact te_pure _
    | exact te_mCall _ _
    | exact te_mNamed _ _
    | exact te_mRefs _ _
    | exact te_mRels _ _
    | exact te_mHttp _ _
    | exact te_mStream _ _
    | exact te_ofExcept _
    | (apply te_forSeq)
    | (apply te_bind)
    | split
    | (intro _)

theorem tg_branch_search_code (ctx : Ctx) (args : Args) :
    TraceGrows (branch_search_code ctx args) := by
  unfold branch_search_code
  apply tg_http_bind
  intro _
  repeat first
    | exact te_pure _
    | exact te_mCall _ _
    | exact te_mNamed _ _
    | exact te_mRefs _ _
    | exact te_mRels _ _
    | exact te_mHttp _ _
    | exact te_mStream _ _
    | exact te_ofExcept _
    | (apply te_forSeq)
    | (apply te_bind)
    | split
    | (intro _)

theorem tg_branch_search_wiki (ctx : Ctx) (args : Args) :
    TraceGrows (branch_search_wiki ctx args) := by
  unfold branch_search_wiki
  apply tg_http_bind
  intro _
  repeat first
    | exact te_pure _
    | exact te_mCall _ _
    | exact te_mNamed _ _
    | exact te_mRefs _ _
    | exact te_mRels _ _
    | exact te_mHttp _ _
    | exact te_mStream _ _
    | exact te_ofExcept _
    | (apply te_forSeq)
    | (apply te_bind)
    | split
    | (intro _)

theorem tg_branch_search_workitem (ctx : Ctx) (args : Args) :
    TraceGrows (branch_search_workitem ctx args) := by
  unfold branch_search_workitem
  apply tg_http_bind
  intro _
  repeat first
    | exact te_pure _
    | exact te_mCall _ _
    | exact te_mNamed _ _
    | exact te_mRefs _ _
    | exact te_mRels _ _
    | exact te_mHttp _ _
    | exact te_mStream _ _
    | exact te_ofExcept _
    | (apply te_forSeq)
    | (apply te_bind)
    | split
    | (intro _)

theorem tg_branch_testplan_list_test_plans (ctx : Ctx) (args : Args) :
    TraceGrows (branch_testplan_list_test_plans ctx args) := by
  unfold branch_testplan_list_test_plans
  apply tg_call_bind
  intro _
  repeat first
    | exact te_pure _
    | exact te_mCall _ _
    | exact te_mNamed _ _
    | exact te_mRefs _ _
    | exact te_mRels _ _
    | exact te_mHttp _ _
    | exact te_mStream _ _
    | exact te_ofExcept _
    | (apply te_forSeq)
    | (apply te_bind)
    | split
    | (intro _)

theorem tg_branch_testplan_create_test_plan (ctx : Ctx) (args : Args) :
    TraceGrows (branch_testplan_create_test_plan ctx args) := by
  unfold branch_testplan_create_test_plan
  apply tg_call_bind
  intro _
  repeat first
    | exact te_pure _
    | exact te_mCall _ _
    | exact te_mNamed _ _
    | exact te_mRefs _ _
    | exact te_mRels _ _
    | exact te_mHttp _ _
    | exact te_mStream _ _
    | exact te_ofExcept _
    | (apply te_forSeq)
    | (apply te_bind)
    | split
    | (intro _)

theorem tg_branch_testplan_list_test_suites (ctx : Ctx) (args : Args) :
    TraceGrows (branch_testplan_list_test_suites ctx args) := by
  unfold branch_testplan_list_test_suites
  apply tg_call_bind
  intro _
  repeat first
    | exact te_pure _
    | exact te_mCall _ _
    | exact te_mNamed _ _
    | exact te_mRefs _ _
    | exact te_mRels _ _
    | exact te_mHttp _ _
    | exact te_mStream _ _
    | exact te_ofExcept _
    | (apply te_forSeq)
    | (apply te_bind)
    | split
    | (intro _)

theorem tg_branch_testplan_create_test_suite (ctx : Ctx) (args : Args) :
    TraceGrows (branch_testplan_create_test_suite ctx args) := by
  unfold branch_testplan_create_test_suite
  apply tg_call_bind
  intro _
  repeat first
    | exact te_pure _
    | exact te_mCall _ _
    | exact te_mNamed _ _
    | exact te_mRefs _ _
    | exact te_mRels _ _
    | exact te_mHttp _ _
    | exact te_mStream _ _
    | exact te_ofExcept _
    | (apply te_forSeq)
    | (apply te_bind)
    | split
    | (intro _)

theorem tg_branch_testplan_list_test_cases (ctx : Ctx) (args : Args) :
    TraceGrows (branch_testplan_list_test_cases ctx args) := by
  unfold branch_testplan_list_test_cases
  apply tg_call_bind
  intro _
  repeat first
    | exact te_pure _
    | exact te_mCall _ _
    | exact te_mNamed _ _
    | exact te_mRefs _ _
    | exact te_mRels _ _
    | exact te_mHttp _ _
    | exact te_mStream _ _
    | exact te_ofExcept _
    | (apply te_forSeq)
    | (apply te_bind)
    | split
    | (intro _)

theorem tg_branch_testplan_create_test_case (ctx : Ctx) (args : Args) :
    TraceGrows (branch_testplan_create_test_case ctx args) := by
  unfold branch_testplan_create_test_case
  apply tg_call_bind
  intro _
  repeat first
    | exact te_pure _
    | exact te_mCall _ _
    | exact te_mNamed _ _
    | exact te_mRefs _ _
    | exact te_mRels _ _
    | exact te_mHttp _ _
    | exact te_mStream _ _
    | exact te_ofExcept _
    | (apply te_forSeq)
    | (apply te_bind)
    | split
    | (intro _)

theorem tg_branch_testplan_update_test_case_steps (ctx : Ctx) (args : Args) :
    TraceGrows (branch_testplan_update_test_case_steps ctx args) := by
  unfold branch_testplan_update_test_case_steps
  apply tg_call_bind
  intro _
  repeat first
    | exact te_pure _
    | exact te_mCall _ _
    | exact te_mNamed _ _
    | exact te_mRefs _ _
    | exact te_mRels _ _
    | exact te_mHttp _ _
    | exact te_mStream _ _
    | exact te_ofExcept _
    | (apply te_forSeq)
    | (apply te_bind)
    | split
    | (intro _)

theorem tg_branch_testplan_add_test_cases_to_suite (ctx : Ctx) (args : Args) :
    TraceGrows (branch_testplan_add_test_cases_to_suite ctx args) := by
  unfold branch_testplan_add_test_cases_to_suite
  apply tg_call_bind
  intro _
  repeat first
    | exact te_pure _
    | exact te_mCall _ _
    | exact te_mNamed _ _
    | exact te_mRefs _ _
    | exact te_mRels _ _
    | exact te_mHttp _ _
    | exact te_mStream _ _
    | exact te_ofExcept _
    | (apply te_forSeq)
    | (apply te_bind)
    | split
    | (intro _)

theorem tg_branch_testplan_show_test_results_from_build_id (ctx : Ctx) (args : Args) :
    TraceGrows (branch_testplan_show_test_results_from_build_id ctx args) := by
  unfold branch_testplan_show_test_results_from_build_id
  apply tg_call_bind
  intro _
  repeat first
    | exact te_pure _
    | exact te_mCall _ _
    | exact te_mNamed _ _
    | exact te_mRefs _ _
    | exact te_mRels _ _
    | exact te_mHttp _ _
    | exact te_mStream _ _
    | exact te_ofExcept _
    | (apply te_forSeq)
    | (apply te_bind)
    | split
    | (intro _)

theorem tg_branch_advsec_get_alerts (ctx : Ctx) (args : Args) :
    TraceGrows (branch_advsec_get_alerts ctx args) := by
  unfold branch_advsec_get_alerts
  apply tg_call_bind
  intro _
  repeat first
    | exact te_pure _
    | exact te_mCall _ _
    | exact te_mNamed _ _
    | exact te_mRefs _ _
    | exact te_mRels _ _
    | exact te_mHttp _ _
    | exact te_mStream _ _
    | exact te_ofExcept _
    | (apply te_forSeq)
    | (apply te_bind)
    | split
    | (intro _)

theorem tg_branch_advsec_get_alert_details (ctx : Ctx) (args : Args) :
    TraceGrows (branch_advsec_get_alert_details ctx args) := by
  unfold branch_advsec_get_alert_details
  apply tg_call_bind
  intro _
  repeat first
    | exact te_pure _
    | exact te_mCall _ _
    | exact te_mNamed _ _
    | exact te_mRefs _ _
    | exact te_mRels _ _
    | exact te_mHttp _ _
    | exact te_mStream _ _
    | exact te_ofExcept _
    | (apply te_forSeq)
    | (apply te_bind)
    | split
    | (intro _)

theorem tg_branch_work_list_team_iterations (ctx : Ctx) (args : Args) :
    TraceGrows (branch_work_list_team_iterations ctx args) := by
  unfold branch_work_list_team_iterations
  apply tg_call_bind
  intro _
  repeat first
    | exact te_pure _
    | exact te_mCall _ _
    | exact te_mNamed _ _
    | exact te_mRefs _ _
    | exact te_mRels _ _
    | exact te_mHttp _ _
    | exact te_mStream _ _
    | exact te_ofExcept _
    | (apply te_forSeq)
    | (apply te_bind)
    | split
    | (intro _)

theorem tg_branch_work_list_iterations (ctx : Ctx) (args : Args) :
    TraceGrows (branch_work_list_iterations ctx args) := by
  unfold branch_work_list_iterations
  apply tg_call_bind
  intro _
  repeat first
    | exact te_pure _
    | exact te_mCall _ _
    | exact te_mNamed _ _
    | exact te_mRefs _ _
    | exact te_mRels _ _
    | exact te_mHttp _ _
    | exact te_mStream _ _
    | exact te_ofExcept _
    | (apply te_forSeq)
    | (apply te_bind)
    | split
    | (intro _)

theorem tg_branch_work_create_iterations (ctx : Ctx) (args : Args) :
    TraceGrows (branch_work_create_iterations ctx args) := by
  unfold branch_work_create_iterations
  apply tg_call_bind
  intro _
  repeat first
    | exact te_pure _
    | exact te_mCall _ _
    | exact te_mNamed _ _
    | exact te_mRefs _ _
    | exact te_mRels _ _
    | exact te_mHttp _ _
    | exact te_mStream _ _
    | exact te_ofExcept _
    | (apply te_forSeq)
    | (apply te_bind)
    | split
    | (intro _)

theorem tg_branch_work_assign_iterations (ctx : Ctx) (args : Args) :
    TraceGrows (branch_work_assign_iterations ctx args) := by
  unfold branch_work_assign_iterations
  apply tg_call_bind
  intro _
  repeat first
    | exact te_pure _
    | exact te_mCall _ _
    | exact te_mNamed _ _
    | exact te_mRefs _ _
    | exact te_mRels _ _
    | exact te_mHttp _ _
    | exact te_mStream _ _
    | exact te_ofExcept _
    | (apply te_forSeq)
    | (apply te_bind)
    | split
    | (intro _)

theorem tg_branch_work_get_team_capacity (ctx : Ctx) (args : Args) :
    TraceGrows (branch_work_get_team_capacity ctx args) := by
  unfold branch_work_get_team_capacity
  apply tg_call_bind
  intro _
  repeat first
    | exact te_pure _
    | exact te_mCall _ _
    | exact te_mNamed _ _
    | exact te_mRefs _ _
    | exact te_mRels _ _
    | exact te_mHttp _ _
    | exact te_mStream _ _
    | exact te_ofExcept _
    | (apply te_forSeq)
    | (apply te_bind)
    | split
    | (intro _)

theorem tg_branch_work_update_team_capacity (ctx : Ctx) (args : Args) :
    TraceGrows (branch_work_update_team_capacity ctx args) := by
  unfold branch_work_update_team_capacity
  apply tg_call_bind
  intro _
  repeat first
    | exact te_pure _
    | exact te_mCall _ _
    | exact te_mNamed _ _
    | exact te_mRefs _ _
    | exact te_mRels _ _
    | exact te_mHttp _ _
    | exact te_mStream _ _
    | exact te_ofExcept _
    | (apply te_forSeq)
    | (apply te_bind)
    | split
    | (intro _)

theorem tg_branch_work_get_iteration_capacities (ctx : Ctx) (args : Args) :
    TraceGrows (branch_work_get_iteration_capacities ctx args) := by
  unfold branch_work_get_iteration_capacities
  apply tg_call_bind
  intro _
  repeat first
    | exact te_pure _
    | exact te_mCall _ _
    | exact te_mNamed _ _
    | exact te_mRefs _ _
    | exact te_mRels _ _
    | exact te_mHttp _ _
    | exact te_mStream _ _
    | exact te_ofExcept _
    | (apply te_forSeq)
    | (apply te_bind)
    | split
    | (intro _)

set_option maxHeartbeats 4000000 in
/-- Every catalog name reaches its own dispatcher branch, never the
default: at least one downstream call is issued. -/
theorem handleToolCall_handled_trace :
    ∀ ctx name args, name ∈ toolNames → TraceGrows (handleToolCall ctx name args) := by
  intro ctx name args hmem
  unfold handleToolCall
  split
  all_goals first
    | exact tg_branch_core_list_project_teams ctx args
    | exact tg_branch_core_list_projects ctx args
    | exact tg_branch_core_get_identity_ids ctx args
    | exact tg_branch_repo_list_repos_by_project ctx args
    | exact tg_branch_repo_get_repo_by_name_or_id ctx args
    | exact tg_branch_repo_list_branches_by_repo ctx args
    | exact tg_branch_repo_list_my_branches_by_repo ctx args
    | exact tg_branch_repo_get_branch_by_name ctx args
    | exact tg_branch_repo_create_branch ctx args
    | exact tg_branch_repo_list_pull_requests_by_repo_or_project ctx args
    | exact tg_branch_repo_get_pull_request_by_id ctx args
    | exact tg_branch_repo_create_pull_request ctx args
    | exact tg_branch_repo_update_pull_request ctx args
    | exact tg_branch_repo_update_pull_request_reviewers ctx args
    | exact tg_branch_repo_list_pull_request_threads ctx args
    | exact tg_branch_repo_list_pull_request_thread_comments ctx args
    | exact tg_branch_repo_create_pull_request_thread ctx args
    | exact tg_branch_repo_update_pull_request_thread ctx args
    | exact tg_branch_repo_reply_to_comment ctx args
    | exact tg_branch_repo_search_commits ctx args
    | exact tg_branch_repo_list_pull_requests_by_commits ctx args
    | exact tg_branch_wit_get_work_item ctx args
    | exact tg_branch_wit_get_work_items_batch_by_ids ctx args
    | exact tg_branch_wit_create_work_item ctx args
    | exact tg_branch_wit_update_work_item ctx args
    | exact tg_branch_wit_update_work_items_batch ctx args
    | exact tg_branch_wit_my_work_items ctx args
    | exact tg_branch_wit_list_backlogs ctx args
    | exact tg_branch_wit_list_backlog_work_items ctx args
    | exact tg_branch_wit_list_work_item_comments ctx args
    | exact tg_branch_wit_add_work_item_comment ctx args
    | exact tg_branch_wit_list_work_item_revisions ctx args
    | exact tg_branch_wit_get_work_items_for_iteration ctx args
    | exact tg_branch_wit_add_child_work_items ctx args
    | exact tg_branch_wit_work_items_link ctx args
    | exact tg_branch_wit_work_item_unlink ctx args
    | exact tg_branch_wit_link_work_item_to_pull_request ctx args
    | exact tg_branch_wit_add_artifact_link ctx args
    | exact tg_branch_wit_get_work_item_type ctx args
    | exact tg_branch_wit_get_query ctx args
    | exact tg_branch_wit_get_query_results_by_id ctx args
    | exact tg_branch_pipelines_get_builds ctx args
    | exact tg_branch_pipelines_get_build_changes ctx args
    | exact tg_branch_pipelines_get_build_definitions ctx args
    | exact tg_branch_pipelines_get_build_definition_revisions ctx args
    | exact tg_branch_pipelines_get_build_log ctx args
    | exact tg_branch_pipelines_get_build_log_by_id ctx args
    | exact tg_branch_pipelines_get_build_status ctx args
    | exact tg_branch_pipelines_update_build_stage ctx args
    | exact tg_branch_pipelines_create_pipeline ctx args
    | exact tg_branch_pipelines_get_run ctx args
    | exact tg_branch_pipelines_list_runs ctx args
    | exact tg_branch_pipelines_run_pipeline ctx args
    | exact tg_branch_pipelines_list_artifacts ctx args
    | exact tg_branch_pipelines_download_artifact ctx args
    | exact tg_branch_wiki_list_wikis ctx args
    | exact tg_branch_wiki_get_wiki ctx args
    | exact tg_branch_wiki_list_pages ctx args
    | exact tg_branch_wiki_get_page ctx args
    | exact tg_branch_wiki_get_page_content ctx args
    | exact tg_branch_wiki_create_or_update_page ctx args
    | exact tg_branch_search_code ctx args
    | exact tg_branch_search_wiki ctx args
    | exact tg_branch_search_workitem ctx args
    | exact tg_branch_testplan_list_test_plans ctx args
    | exact tg_branch_testplan_create_test_plan ctx args
    | exact tg_branch_testplan_list_test_suites ctx args
    | exact tg_branch_testplan_create_test_suite ctx args
    | exact tg_branch_testplan_list_test_cases ctx args
    | exact tg_branch_testplan_create_test_case ctx args
    | exact tg_branch_testplan_update_test_case_steps ctx args
    | exact tg_branch_testplan_add_test_cases_to_suite ctx args
    | exact tg_branch_testplan_show_test_results_from_build_id ctx args
    | exact tg_branch_advsec_get_alerts ctx args
    | exact tg_branch_advsec_get_alert_details ctx args
    | exact tg_branch_work_list_team_iterations ctx args
    | exact tg_branch_work_list_iterations ctx args
    | exact tg_branch_work_create_iterations ctx args
    | exact tg_branch_work_assign_iterations ctx args
    | exact tg_branch_work_get_team_capacity ctx args
    | exact tg_branch_work_update_team_capacity ctx args
    | exact tg_branch_work_get_iteration_capacities ctx args
    | simp_all [toolNames]

/-- C1: the tool catalog and the dispatcher are in bijection: the catalog
names and the switch case labels are duplicate-free and are the same set
(indeed the same list); a name outside the labels reaches only the
unknown-tool default branch (no downstream call, structured error
envelope); and every catalog name reaches its own handling branch, never
the default — observable because every branch issues at least one
downstream call while the default issues none. -/
theorem C1_catalog_dispatcher_bijection :
    (toolNames.Nodup ∧ caseLabels.Nodup ∧ toolNames = caseLabels)
    ∧ (∀ name ctx args env tr, name ∉ caseLabels →
        handleToolCall ctx name args env tr = (tr, .ok (errorResult ("Unknown tool: " ++ name))))
    ∧ (∀ name ctx args env tr, name ∈ caseLabels →
        (handleToolCall ctx name args env tr).1 ≠ tr) := by
  refine ⟨⟨by decide, by decide, rfl⟩, ?_, ?_⟩
  · intro name ctx args env tr h
    exact handleToolCall_unknown ctx name args env tr h
  · intro name ctx args env tr h
    exact handleToolCall_handled_trace ctx name args h env tr

/-- C1 witness: a non-catalog name returns the unknown-tool envelope with
no call issued, and a catalog name issues a call. -/
theorem C1_witness :
    handleToolCall ctx0 "no_such_tool" emptyArgs trivialEnv []
      = ([], .ok (errorResult "Unknown tool: no_such_tool"))
    ∧ (handleToolCall ctx0 "core_list_project_teams" emptyArgs trivialEnv []).1 ≠ [] := by
  constructor
  · exact C1_catalog_dispatcher_bijection.2.1 "no_such_tool" ctx0 emptyArgs trivialEnv [] (by decide)
  · exact C1_catalog_dispatcher_bijection.2.2 "core_list_project_teams" ctx0 emptyArgs trivialEnv [] (by decide)

/-- C5: the boundary never lets a failure escape: an unknown name yields
the structured unknown-tool envelope as a normal (non-thrown) result and
the boundary returns it unchanged; a handler (or downstream) exception is
caught exactly once at the boundary and converted to an error-flagged
text envelope forwarding the `Error` message verbatim; a connection
provider failure is caught the same way.  `callToolRequestHandler` is a
total function into envelopes, so nothing terminates the serving loop. -/
theorem C5_invoke_never_throws :
    ∀ ctx name args env,
      (name ∉ toolNames →
        handleToolCall ctx name args env [] = ([], .ok (errorResult ("Unknown tool: " ++ name)))
        ∧ callToolRequestHandler (.ok ()) ctx name args env = errorResult ("Unknown tool: " ++ name))
      ∧ (∀ tr' ex, handleToolCall ctx name args env [] = (tr', .error ex) →
          callToolRequestHandler (.ok ()) ctx name args env
            = errorResult ("Error: " ++ ex.boundaryMessage))
      ∧ (∀ e, callToolRequestHandler (.error e) ctx name args env
            = errorResult ("Error: " ++ e.boundaryMessage)) := by
  intro ctx name args env
  refine ⟨?_, ?_, ?_⟩
  · intro h
    have hrun := handleToolCall_unknown ctx name args env [] h
    refine ⟨hrun, ?_⟩
    unfold callToolRequestHandler
    rw [hrun]
  · intro tr' ex hrun
    unfold callToolRequestHandler
    rw [hrun]
  · intro e
    rfl

/-- C5 witness: concrete unknown-name, thrown-downstream and
failed-connection invocations, each returning the documented envelope. -/
theorem C5_witness :
    (handleToolCall ctx0 "no_tool_here" emptyArgs trivialEnv []
       = ([], .ok (errorResult "Unknown tool: no_tool_here"))
     ∧ callToolRequestHandler (.ok ()) ctx0 "no_tool_here" emptyArgs trivialEnv
       = errorResult "Unknown tool: no_tool_here")
    ∧ callToolRequestHandler (.ok ()) ctx0 "core_list_project_teams" emptyArgs failEnv
       = errorResult "Error: boom"
    ∧ callToolRequestHandler (.error (.err "connection refused")) ctx0 "core_list_project_teams"
        emptyArgs trivialEnv = errorResult "Error: connection refused" := by
  refine ⟨?_, ?_, ?_⟩
  · exact (C5_invoke_never_throws ctx0 "no_tool_here" emptyArgs trivialEnv).1 (by decide)
  · exact (C5_invoke_never_throws ctx0 "core_list_project_teams" emptyArgs failEnv).2.1
      [⟨"connection.getCoreApi", []⟩] (.err "boom") rfl
  · exact (C5_invoke_never_throws ctx0 "core_list_project_teams" emptyArgs trivialEnv).2.2
      (.err "connection refused")

/-- C10: for every invocation — any connection result, any name (known or
unknown), any arguments and any downstream behaviour — the returned
envelope has a content array with exactly one element, of type "text". -/
theorem C10_single_text_content :
    ∀ connRes ctx name args env,
      (callToolRequestHandler connRes ctx name args env).content.map ContentItem.type = ["text"] := by
  intro connRes ctx name args env
  unfold callToolRequestHandler
  cases connRes with
  | error e => rfl
  | ok u =>
    rcases hrun : handleToolCall ctx name args env [] with ⟨tr', r⟩
    cases r with
    | ok e => exact handleToolCall_MOk ctx name args env [] tr' e hrun
    | error ex => rfl

theorem getClientCalls_memoized (c p : Nat) :
    ∀ n, getClientCalls ⟨c, some p⟩ n = (List.replicate n p, ⟨c, some p⟩) := by
  intro n
  induction n with
  | zero => rfl
  | succ m ih =>
    show (let (q, st1) := getClient ⟨c, some p⟩
          let (ps, st2) := getClientCalls st1 m
          (q :: ps, st2)) = _
    simp only [getClient, getClientCalls, ih, List.replicate]

/-- C7: the connection accessor is memoize-once/single-flight: any
sequence of at least one call to `getClient` starting from the fresh
client state performs exactly one underlying `createPatClient`
construction, and every call (including calls made while the stored
promise is still unresolved, since the promise field is assigned
synchronously) observes the identical promise handle. -/
theorem C7_connection_single_flight :
    ∀ n, 1 ≤ n →
      (getClientCalls initialClientState n).2.constructions = 1
      ∧ (getClientCalls initialClientState n).1 = List.replicate n 0 := by
  intro n hn
  obtain ⟨m, rfl⟩ : ∃ m, n = m + 1 := ⟨n - 1, by omega⟩
  show (let (q, st1) := getClient initialClientState
        let (ps, st2) := getClientCalls st1 m
        (q :: ps, st2)).2.constructions = 1
     ∧ (let (q, st1) := getClient initialClientState
        let (ps, st2) := getClientCalls st1 m
        (q :: ps, st2)).1 = List.replicate (m + 1) 0
  simp [getClient, initialClientState, getClientCalls_memoized, List.replicate]

/-- C7 witness: three calls construct once and all observe handle 0. -/
theorem C7_witness :
    (getClientCalls initialClientState 3).2.constructions = 1
    ∧ (getClientCalls initialClientState 3).1 = List.replicate 3 0 :=
  C7_connection_single_flight 3 (by decide)

/-- C4: evaluation of the dispatcher's string-to-numeric status/enum
tables.  The pull-request `statusMap` declares `NotSet ↦ 0`, but the
handler computes `statusMap[status] || 1`, and since `0` is falsy the
declared value is unreachable: `"NotSet"` is sent as `1` (Active) — a
slip contradicting the map's own declared entry and the catalog enum.
Every other declared key maps to its declared (nonzero) value, undeclared
keys fall back to the default `1` without throwing, and the work-item
`expandMap` is used by direct lookup, so it is total over its declared
domain. -/
theorem C4_enum_mapping_eval :
    (prStatusMap.lookup "NotSet" = some 0 ∧ prCriteriaStatus "NotSet" = 1)
    ∧ (∀ s v, prStatusMap.lookup s = some v → v ≠ 0 → prCriteriaStatus s = v)
    ∧ (∀ s, prStatusMap.lookup s = none → prCriteriaStatus s = 1)
    ∧ (witExpandMap.lookup "all" = some 4 ∧ witExpandMap.lookup "fields" = some 1
       ∧ witExpandMap.lookup "links" = some 2 ∧ witExpandMap.lookup "none" = some 0
       ∧ witExpandMap.lookup "relations" = some 3)
    ∧ branch_repo_list_pull_requests_by_repo_or_project ctx0
        (argsOf [("repositoryId", .str "repo1"), ("status", .str "NotSet")]) trivialEnv []
      = ([⟨"connection.getGitApi", []⟩,
          ⟨"gitApi.getPullRequests", [.str "repo1", .obj [("status", .num 1)], .undefined, .undefined,
            .num 0, .num 100]⟩], .ok (textResult "r")) := by
  refine ⟨⟨rfl, rfl⟩, ?_, ?_, ⟨rfl, rfl, rfl, rfl, rfl⟩, rfl⟩
  · intro s v h hv
    unfold prCriteriaStatus jsOrInt
    rw [h]
    simp [hv]
  · intro s h
    unfold prCriteriaStatus jsOrInt
    rw [h]

/-- C4 witness: a declared nonzero key ("Active") maps to its declared
value, and an undeclared key ("bogus") falls back to the default 1. -/
theorem C4_witness :
    prStatusMap.lookup "Active" = some 1 ∧ prCriteriaStatus "Active" = 1
    ∧ prStatusMap.lookup "bogus" = none ∧ prCriteriaStatus "bogus" = 1 :=
  ⟨rfl, C4_enum_mapping_eval.2.1 "Active" 1 rfl (by decide),
   rfl, C4_enum_mapping_eval.2.2.1 "bogus" rfl⟩

theorem unescStep_escChar (c : Char) (r : List Char) :
    unescStep ((escChar c).data ++ r) = some (c, r) := by
  by_cases h1 : c = '<'
  · subst h1; rfl
  by_cases h2 : c = '>'
  · subst h2; rfl
  by_cases h3 : c = '&'
  · subst h3; rfl
  by_cases h4 : c = aposChar
  · subst h4; rfl
  by_cases h5 : c = '"'
  · subst h5; rfl
  have hesc : escChar c = String.mk [c] := by simp [escChar, h1, h2, h3, h4, h5]
  rw [hesc]
  show unescStep (c :: r) = some (c, r)
  simp [unescStep, h3]

theorem escChar_data_ne_nil (c : Char) : (escChar c).data ≠ [] := by
  by_cases h1 : c = '<'
  · subst h1; decide
  by_cases h2 : c = '>'
  · subst h2; decide
  by_cases h3 : c = '&'
  · subst h3; decide
  by_cases h4 : c = aposChar
  · subst h4; decide
  by_cases h5 : c = '"'
  · subst h5; decide
  simp [escChar, h1, h2, h3, h4, h5]

theorem length_le_escChars (l : List Char) : l.length ≤ (escChars l).length := by
  induction l with
  | nil => simp [escChars]
  | cons c r ih =>
    rw [escChars, List.length_append]
    have h1 : 1 ≤ (escChar c).data.length := by
      rcases h : (escChar c).data with _ | _
      · exact absurd h (escChar_data_ne_nil c)
      · simp
    simp only [List.length_cons]
    omega

theorem unescFuel_escChars (l : List Char) :
    ∀ fuel, l.length ≤ fuel → unescCharsFuel fuel (escChars l) = some l := by
  induction l with
  | nil => intro fuel hf; rw [escChars]; cases fuel <;> rfl
  | cons c r ih =>
    intro fuel hf
    rcases hd : (escChar c).data with _ | ⟨e, es⟩
    · exact absurd hd (escChar_data_ne_nil c)
    obtain ⟨f, rfl⟩ : ∃ f, fuel = f + 1 := ⟨fuel - 1, by simp at hf; omega⟩
    have hstep : unescStep ((escChar c).data ++ escChars r) = some (c, escChars r) :=
      unescStep_escChar c (escChars r)
    rw [hd] at hstep
    show unescCharsFuel (f + 1) ((escChar c).data ++ escChars r) = some (c :: r)
    rw [hd]
    show (unescStep (e :: (es ++ escChars r))).bind
        (fun p => (unescCharsFuel f p.2).map fun cs => p.1 :: cs) = some (c :: r)
    rw [show e :: (es ++ escChars r) = (e :: es) ++ escChars r from rfl, hstep]
    simp only [Option.some_bind]
    simp only [List.length_cons] at hf
    rw [ih f (by omega)]
    rfl

theorem unescapeXml_escapeXml (s : String) : unescapeXml (escapeXml s) = some s := by
  rcases s with ⟨l⟩
  show (unescCharsFuel (escChars l).length (escChars l)).map String.mk = some (String.mk l)
  rw [unescFuel_escChars l (escChars l).length (length_le_escChars l)]
  rfl

theorem escChar_no_specials (x : Char) :
    ∀ c ∈ (escChar x).data, c ≠ '<' ∧ c ≠ '>' ∧ c ≠ aposChar ∧ c ≠ '"' := by
  by_cases h1 : x = '<'
  · subst h1; decide
  by_cases h2 : x = '>'
  · subst h2; decide
  by_cases h3 : x = '&'
  · subst h3; decide
  by_cases h4 : x = aposChar
  · subst h4; decide
  by_cases h5 : x = '"'
  · subst h5; decide
  intro c hc
  simp [escChar, h1, h2, h3, h4, h5] at hc
  subst hc
  exact ⟨h1, h2, h4, h5⟩

theorem escChars_no_specials (l : List Char) :
    ∀ c ∈ escChars l, c ≠ '<' ∧ c ≠ '>' ∧ c ≠ aposChar ∧ c ≠ '"' := by
  induction l with
  | nil => simp [escChars]
  | cons x r ih =>
    intro c hc
    rw [escChars] at hc
    rcases List.mem_append.mp hc with hc | hc
    · exact escChar_no_specials x c hc
    · exact ih c hc

theorem splitCh_ne_nil (sep : Char) (l : List Char) : splitCh sep l ≠ [] := by
  cases l with
  | nil => simp [splitCh]
  | cons c r =>
    rcases h : splitCh sep r with _ | ⟨g, gs⟩
    · simp [splitCh, h]
    · simp only [splitCh, h]
      split <;> simp

theorem splitCh_no_sep (sep : Char) (l : List Char) (h : sep ∉ l) : splitCh sep l = [l] := by
  induction l with
  | nil => rfl
  | cons c r ih =>
    have hc : ¬(c = sep) := fun hq => h (hq ▸ List.mem_cons_self c r)
    have hr : sep ∉ r := fun hq => h (List.mem_cons_of_mem c hq)
    show (match splitCh sep r with
          | [] => [[]]
          | g :: gs => if c = sep then [] :: g :: gs else (c :: g) :: gs) = [c :: r]
    rw [ih hr]
    simp [hc]

theorem splitCh_head (sep : Char) (l : List Char) :
    (splitCh sep l).headD [] = l.takeWhile (fun c => c != sep) := by
  induction l with
  | nil => rfl
  | cons c r ih =>
    show (match splitCh sep r with
          | [] => [[]]
          | g :: gs => if c = sep then [] :: g :: gs else (c :: g) :: gs).headD []
        = (c :: r).takeWhile (fun c => c != sep)
    rcases h : splitCh sep r with _ | ⟨g, gs⟩
    · exact absurd h (splitCh_ne_nil sep r)
    rw [h] at ih
    simp only [List.headD] at ih
    simp only [h]
    by_cases hc : c = sep
    · subst hc
      rw [if_pos rfl]
      show ([] : List Char) = _
      rw [List.takeWhile_cons]
      simp
    · rw [if_neg hc]
      show c :: g = _
      rw [List.takeWhile_cons]
      have hb : (c != sep) = true := by simp [hc]
      rw [hb, ih]
      simp

theorem splitCh_get1 (sep : Char) (l : List Char) :
    (splitCh sep l).get? 1 =
      if sep ∈ l then some (((l.dropWhile (fun c => c != sep)).tail).takeWhile (fun c => c != sep))
      else none := by
  induction l with
  | nil => rfl
  | cons c r ih =>
    show (match splitCh sep r with
          | [] => [[]]
          | g :: gs => if c = sep then [] :: g :: gs else (c :: g) :: gs).get? 1 = _
    rcases h : splitCh sep r with _ | ⟨g, gs⟩
    · exact absurd h (splitCh_ne_nil sep r)
    rw [h] at ih
    simp only [h]
    by_cases hc : c = sep
    · subst hc
      have hhead := splitCh_head c r
      rw [h] at hhead
      simp only [List.headD] at hhead
      rw [if_pos rfl]
      show some g = _
      rw [if_pos (List.mem_cons_self c r)]
      have hdrop : List.dropWhile (fun x => x != c) (c :: r) = c :: r := by
        rw [List.dropWhile_cons]
        simp
      rw [hdrop]
      show some g = some (List.takeWhile (fun x => x != c) r)
      rw [hhead]
    · rw [if_neg hc]
      show (g :: gs).get? 1 = _
      have hsc : sep ≠ c := fun hq => hc hq.symm
      have hdrop : List.dropWhile (fun x => x != sep) (c :: r)
          = List.dropWhile (fun x => x != sep) r := by
        rw [List.dropWhile_cons]
        have hb : (c != sep) = true := by simp [hc]
        rw [hb]
        simp
      rw [ih, hdrop]
      by_cases hm : sep ∈ r
      · rw [if_pos hm, if_pos (List.mem_cons_of_mem c hm)]
      · rw [if_neg hm, if_neg (by simp [List.mem_cons, hsc, hm])]

theorem expectedText_no_pipe (line : String) (h : ('|' : Char) ∉ line.data) :
    expectedTextOfLine line = placeholderText := by
  unfold expectedTextOfLine lineParts jsSplit
  rw [splitCh_no_sep _ _ h]
  rfl

set_option maxRecDepth 100000 in
/-- C2: the step-text transformation.  On the spec's concrete input the
generated markup is exactly the two-step document with sequential ids 1
and 2, stripped ordinals and the literal expected texts; for every
string, `escapeXml` is lossless under the strict XML decoder — which
rejects any bare `&` not starting one of the five entities — so its
output has every `&` opening an entity, and it contains no raw `<`,
`>`, apostrophe or quote; and every line with no `|` separator
receives the fixed placeholder expected-result text. -/
theorem C2_step_text_transformation :
    convertStepsToXml "1. Click login|User sees dashboard\n2. Enter bad password|Error shown"
      = "<steps id=\"0\" last=\"2\"><step id=\"1\" type=\"ActionStep\"><parameterizedString isformatted=\"true\">Click login</parameterizedString><parameterizedString isformatted=\"true\">User sees dashboard</parameterizedString></step><step id=\"2\" type=\"ActionStep\"><parameterizedString isformatted=\"true\">Enter bad password</parameterizedString><parameterizedString isformatted=\"true\">Error shown</parameterizedString></step></steps>"
    ∧ (∀ s : String, unescapeXml (escapeXml s) = some s
        ∧ ∀ c ∈ (escapeXml s).data, c ≠ '<' ∧ c ≠ '>' ∧ c ≠ aposChar ∧ c ≠ '"')
    ∧ (∀ line : String, ('|' : Char) ∉ line.data → expectedTextOfLine line = placeholderText) := by
  refine ⟨by decide, ?_, ?_⟩
  · intro s
    exact ⟨unescapeXml_escapeXml s, escChars_no_specials s.data⟩
  · intro line h
    exact expectedText_no_pipe line h

/-- C2 witness: concrete escape round-trip and placeholder line. -/
theorem C2_witness :
    unescapeXml (escapeXml "a<b&c") = some "a<b&c"
    ∧ (('|' : Char) ∉ "no pipe here".data)
    ∧ expectedTextOfLine "no pipe here" = placeholderText :=
  ⟨(C2_step_text_transformation.2.1 "a<b&c").1, by decide,
   C2_step_text_transformation.2.2 "no pipe here" (by decide)⟩

set_option maxRecDepth 100000 in
/-- C3 counterexample: on the line `a|b|c` the generated expected-result
text is `b`, not `b|c` — the text after the second `|` is dropped, so
the line is not split at the first `|` only. -/
theorem C3_counterexample :
    expectedTextOfLine "a|b|c" = "b" ∧ ("b" : String) ≠ "b|c"
    ∧ convertStepsToXml "a|b|c"
      = "<steps id=\"0\" last=\"1\"><step id=\"1\" type=\"ActionStep\"><parameterizedString isformatted=\"true\">a</parameterizedString><parameterizedString isformatted=\"true\">b</parameterizedString></step></steps>" :=
  ⟨by decide, by decide, by decide⟩

/-- C3 (amended): every line is split at every `|` (JavaScript
`split`), the step part is the trimmed text before the first `|`
(ordinal stripping unchanged), and the expected part is the trimmed text
between the first and second `|`; an absent first `|` — or an
expected part that is empty after trimming — yields the fixed
placeholder text. -/
theorem C3_amended_split_on_every_pipe :
    ∀ line : String,
      (lineParts line).headD "" = jsTrim (String.mk (beforeFirstPipe line.data))
      ∧ stepTextOfLine line = stepTextOfPart (jsTrim (String.mk (beforeFirstPipe line.data)))
      ∧ expectedTextOfLine line =
          (match betweenFirstPipes line.data with
           | some e => if jsTrim (String.mk e) = "" then placeholderText else jsTrim (String.mk e)
           | none => placeholderText) := by
  intro line
  rcases hs : splitCh '|' line.data with _ | ⟨g, gs⟩
  · exact absurd hs (splitCh_ne_nil _ _)
  have hg : g = beforeFirstPipe line.data := by
    have hh := splitCh_head '|' line.data
    rw [hs] at hh
    simpa [List.headD] using hh
  have hfirst : (lineParts line).headD "" = jsTrim (String.mk (beforeFirstPipe line.data)) := by
    unfold lineParts jsSplit
    rw [hs, hg]
    rfl
  refine ⟨hfirst, ?_, ?_⟩
  · unfold stepTextOfLine
    rw [hfirst]
  · unfold expectedTextOfLine lineParts jsSplit
    have hget := splitCh_get1 '|' line.data
    rw [List.get?_map, List.get?_map, hget]
    unfold betweenFirstPipes
    by_cases hm : ('|' : Char) ∈ line.data
    · simp only [if_pos hm]
      rfl
    · simp only [if_neg hm]
      rfl

theorem forSeq_mCall_ok (api : String) (cargs : α → List Arg) (res : α → String)
    (env : DevOpsEnv) (l : List α)
    (hok : ∀ a ∈ l, env.call ⟨api, cargs a⟩ = .ok (res a)) :
    ∀ tr, forSeq (fun a => mCall api (cargs a)) l env tr
      = (tr ++ l.map (fun a => (⟨api, cargs a⟩ : Call)), .ok (l.map res)) := by
  induction l with
  | nil => intro tr; simp [forSeq, pure, M.pure]
  | cons x xs ih =>
    intro tr
    have hx := hok x (List.mem_cons_self x xs)
    show (M.bind (mCall api (cargs x)) _) env tr = _
    unfold M.bind mCall
    rw [hx]
    show (M.bind (forSeq (fun a => mCall api (cargs a)) xs) _) env (tr ++ [⟨api, cargs x⟩]) = _
    unfold M.bind
    rw [ih (fun a ha => hok a (List.mem_cons_of_mem x ha))]
    show (tr ++ [⟨api, cargs x⟩] ++ xs.map (fun a => (⟨api, cargs a⟩ : Call)),
          Except.ok (res x :: xs.map res)) = _
    simp

theorem forSeq_mCall_err (api : String) (cargs : α → List Arg) (res : α → String)
    (env : DevOpsEnv) (pre : List α) (bad : α) (post : List α) (ex : Exn)
    (hok : ∀ a ∈ pre, env.call ⟨api, cargs a⟩ = .ok (res a))
    (hbad : env.call ⟨api, cargs bad⟩ = .error ex) :
    ∀ tr, forSeq (fun a => mCall api (cargs a)) (pre ++ bad :: post) env tr
      = (tr ++ pre.map (fun a => (⟨api, cargs a⟩ : Call)) ++ [⟨api, cargs bad⟩], .error ex) := by
  induction pre with
  | nil =>
    intro tr
    show (M.bind (mCall api (cargs bad)) _) env tr = _
    unfold M.bind mCall
    rw [hbad]
    simp
  | cons x xs ih =>
    intro tr
    have hx := hok x (List.mem_cons_self x xs)
    show (M.bind (mCall api (cargs x)) _) env tr = _
    unfold M.bind mCall
    rw [hx]
    show (M.bind (forSeq (fun a => mCall api (cargs a)) (xs ++ bad :: post)) _) env
        (tr ++ [⟨api, cargs x⟩]) = _
    unfold M.bind
    rw [ih (fun a ha => hok a (List.mem_cons_of_mem x ha))]
    simp

theorem bind_run (x : M α) (f : α → M β) (env : DevOpsEnv) (tr : List Call) :
    (x >>= f) env tr = match x env tr with
      | (tr1, .ok a) => f a env tr1
      | (tr1, .error e) => (tr1, .error e) := rfl

theorem mCall_run (api : String) (as : List Arg) (env : DevOpsEnv) (tr : List Call) :
    mCall api as env tr = (tr ++ [⟨api, as⟩], env.call ⟨api, as⟩) := rfl

theorem mOfExcept_run (e : Except Exn α) (env : DevOpsEnv) (tr : List Call) :
    mOfExcept e env tr = (tr, e) := rfl

/-- C6: each bulk operation (`wit_update_work_items_batch`,
`wit_add_child_work_items`, `work_create_iterations`,
`work_assign_iterations`) issues exactly one downstream call per supplied
item, sequentially in list order.  The loops are not transactional: for
each of the four operations, when the call for item k throws, the trace
shows the calls for items 1..k-1
(already committed) followed by the failing call, the calls for the
remaining items are never issued, and the run result is exactly the
failing iteration's exception (which the dispatch boundary of C5 forwards
as the only signal to the caller). -/
theorem C6_bulk_loops_sequential_non_transactional :
    ∀ (ctx : Ctx) (args : Args) (env : DevOpsEnv) (res : Arg → String) (s0 : String)
      (items pre post : List Arg) (bad : Arg) (ex : Exn),
      (args "workItems" = .list items →
        env.call ⟨"connection.getWorkItemTrackingApi", []⟩ = .ok s0 →
        (∀ i ∈ items, env.call
            ⟨"witApi.updateWorkItem", [.null, i.fieldOf "updates", i.fieldOf "id"]⟩ = .ok (res i)) →
        branch_wit_update_work_items_batch ctx args env []
          = (⟨"connection.getWorkItemTrackingApi", []⟩
              :: items.map (fun i => (⟨"witApi.updateWorkItem",
                   [.null, i.fieldOf "updates", i.fieldOf "id"]⟩ : Call)),
             .ok (textResult (jstrList (items.map res)))))
      ∧ (args "workItems" = .list (pre ++ bad :: post) →
        env.call ⟨"connection.getWorkItemTrackingApi", []⟩ = .ok s0 →
        (∀ i ∈ pre, env.call
            ⟨"witApi.updateWorkItem", [.null, i.fieldOf "updates", i.fieldOf "id"]⟩ = .ok (res i)) →
        env.call ⟨"witApi.updateWorkItem", [.null, bad.fieldOf "updates", bad.fieldOf "id"]⟩
          = .error ex →
        branch_wit_update_work_items_batch ctx args env []
          = (⟨"connection.getWorkItemTrackingApi", []⟩
              :: (pre.map (fun i => (⟨"witApi.updateWorkItem",
                    [.null, i.fieldOf "updates", i.fieldOf "id"]⟩ : Call))
                  ++ [⟨"witApi.updateWorkItem", [.null, bad.fieldOf "updates", bad.fieldOf "id"]⟩]),
             .error ex))
      ∧ (args "childIds" = .list items →
        env.call ⟨"connection.getWorkItemTrackingApi", []⟩ = .ok s0 →
        (∀ i ∈ items, env.call
            ⟨"witApi.updateWorkItem", [.null, .list [.obj
              [("op", .str "add"), ("path", .str "/relations/-"),
               ("value", .obj [("rel", .str "System.LinkTypes.Hierarchy-Forward"),
                 ("url", .str (ctx.serverUrl ++ "/_apis/wit/workItems/" ++ i.interp))])]],
              args "parentId"]⟩ = .ok (res i)) →
        branch_wit_add_child_work_items ctx args env []
          = (⟨"connection.getWorkItemTrackingApi", []⟩
              :: items.map (fun i => (⟨"witApi.updateWorkItem", [.null, .list [.obj
                   [("op", .str "add"), ("path", .str "/relations/-"),
                    ("value", .obj [("rel", .str "System.LinkTypes.Hierarchy-Forward"),
                      ("url", .str (ctx.serverUrl ++ "/_apis/wit/workItems/" ++ i.interp))])]],
                   args "parentId"]⟩ : Call)),
             .ok (textResult (jstrList (items.map res)))))
      ∧ (args "childIds" = .list (pre ++ bad :: post) →
        env.call ⟨"connection.getWorkItemTrackingApi", []⟩ = .ok s0 →
        (∀ i ∈ pre, env.call
            ⟨"witApi.updateWorkItem", [.null, .list [.obj
              [("op", .str "add"), ("path", .str "/relations/-"),
               ("value", .obj [("rel", .str "System.LinkTypes.Hierarchy-Forward"),
                 ("url", .str (ctx.serverUrl ++ "/_apis/wit/workItems/" ++ i.interp))])]],
              args "parentId"]⟩ = .ok (res i)) →
        env.call ⟨"witApi.updateWorkItem", [.null, .list [.obj
              [("op", .str "add"), ("path", .str "/relations/-"),
               ("value", .obj [("rel", .str "System.LinkTypes.Hierarchy-Forward"),
                 ("url", .str (ctx.serverUrl ++ "/_apis/wit/workItems/" ++ bad.interp))])]],
              args "parentId"]⟩ = .error ex →
        branch_wit_add_child_work_items ctx args env []
          = (⟨"connection.getWorkItemTrackingApi", []⟩
              :: (pre.map (fun i => (⟨"witApi.updateWorkItem", [.null, .list [.obj
                    [("op", .str "add"), ("path", .str "/relations/-"),
                     ("value", .obj [("rel", .str "System.LinkTypes.Hierarchy-Forward"),
                       ("url", .str (ctx.serverUrl ++ "/_apis/wit/workItems/" ++ i.interp))])]],
                    args "parentId"]⟩ : Call))
                  ++ [⟨"witApi.updateWorkItem", [.null, .list [.obj
                    [("op", .str "add"), ("path", .str "/relations/-"),
                     ("value", .obj [("rel", .str "System.LinkTypes.Hierarchy-Forward"),
                       ("url", .str (ctx.serverUrl ++ "/_apis/wit/workItems/" ++ bad.interp))])]],
                    args "parentId"]⟩]),
             .error ex))
      ∧ (args "iterations" = .list items →
        env.call ⟨"connection.getWorkItemTrackingApi", []⟩ = .ok s0 →
        (∀ i ∈ items, env.call
            ⟨"witApi.createOrUpdateClassificationNode", [.obj
              [("name", i.fieldOf "iterationName"),
               ("attributes", .obj
                 [("startDate", if (i.fieldOf "startDate").truthy then
                     .str ("Date(" ++ (i.fieldOf "startDate").interp ++ ")") else .undefined),
                  ("finishDate", if (i.fieldOf "finishDate").truthy then
                     .str ("Date(" ++ (i.fieldOf "finishDate").interp ++ ")") else .undefined)])],
              args "project", .str "Iterations"]⟩ = .ok (res i)) →
        branch_work_create_iterations ctx args env []
          = (⟨"connection.getWorkItemTrackingApi", []⟩
              :: items.map (fun i => (⟨"witApi.createOrUpdateClassificationNode", [.obj
                   [("name", i.fieldOf "iterationName"),
                    ("attributes", .obj
                      [("startDate", if (i.fieldOf "startDate").truthy then
                          .str ("Date(" ++ (i.fieldOf "startDate").interp ++ ")") else .undefined),
                       ("finishDate", if (i.fieldOf "finishDate").truthy then
                          .str ("Date(" ++ (i.fieldOf "finishDate").interp ++ ")") else .undefined)])],
                   args "project", .str "Iterations"]⟩ : Call)),
             .ok (textResult (jstrList (items.map res)))))
      ∧ (args "iterations" = .list (pre ++ bad :: post) →
        env.call ⟨"connection.getWorkItemTrackingApi", []⟩ = .ok s0 →
        (∀ i ∈ pre, env.call
            ⟨"witApi.createOrUpdateClassificationNode", [.obj
              [("name", i.fieldOf "iterationName"),
               ("attributes", .obj
                 [("startDate", if (i.fieldOf "startDate").truthy then
                     .str ("Date(" ++ (i.fieldOf "startDate").interp ++ ")") else .undefined),
                  ("finishDate", if (i.fieldOf "finishDate").truthy then
                     .str ("Date(" ++ (i.fieldOf "finishDate").interp ++ ")") else .undefined)])],
              args "project", .str "Iterations"]⟩ = .ok (res i)) →
        env.call ⟨"witApi.createOrUpdateClassificationNode", [.obj
              [("name", bad.fieldOf "iterationName"),
               ("attributes", .obj
                 [("startDate", if (bad.fieldOf "startDate").truthy then
                     .str ("Date(" ++ (bad.fieldOf "startDate").interp ++ ")") else .undefined),
                  ("finishDate", if (bad.fieldOf "finishDate").truthy then
                     .str ("Date(" ++ (bad.fieldOf "finishDate").interp ++ ")") else .undefined)])],
              args "project", .str "Iterations"]⟩ = .error ex →
        branch_work_create_iterations ctx args env []
          = (⟨"connection.getWorkItemTrackingApi", []⟩
              :: (pre.map (fun i => (⟨"witApi.createOrUpdateClassificationNode", [.obj
                    [("name", i.fieldOf "iterationName"),
                     ("attributes", .obj
                       [("startDate", if (i.fieldOf "startDate").truthy then
                           .str ("Date(" ++ (i.fieldOf "startDate").interp ++ ")") else .undefined),
                        ("finishDate", if (i.fieldOf "finishDate").truthy then
                           .str ("Date(" ++ (i.fieldOf "finishDate").interp ++ ")") else .undefined)])],
                    args "project", .str "Iterations"]⟩ : Call))
                  ++ [⟨"witApi.createOrUpdateClassificationNode", [.obj
                    [("name", bad.fieldOf "iterationName"),
                     ("attributes", .obj
                       [("startDate", if (bad.fieldOf "startDate").truthy then
                           .str ("Date(" ++ (bad.fieldOf "startDate").interp ++ ")") else .undefined),
                        ("finishDate", if (bad.fieldOf "finishDate").truthy then
                           .str ("Date(" ++ (bad.fieldOf "finishDate").interp ++ ")") else .undefined)])],
                    args "project", .str "Iterations"]⟩]),
             .error ex))
      ∧ (args "iterations" = .list items →
        env.call ⟨"connection.getWorkApi", []⟩ = .ok s0 →
        (∀ i ∈ items, env.call
            ⟨"workApi.postTeamIteration", [.obj
              [("id", i.fieldOf "identifier"), ("path", i.fieldOf "path")],
              .obj [("project", args "project"), ("team", args "team")]]⟩ = .ok (res i)) →
        branch_work_assign_iterations ctx args env []
          = (⟨"connection.getWorkApi", []⟩
              :: items.map (fun i => (⟨"workApi.postTeamIteration", [.obj
                   [("id", i.fieldOf "identifier"), ("path", i.fieldOf "path")],
                   .obj [("project", args "project"), ("team", args "team")]]⟩ : Call)),
             .ok (textResult (jstrList (items.map res)))))
      ∧ (args "iterations" = .list (pre ++ bad :: post) →
        env.call ⟨"connection.getWorkApi", []⟩ = .ok s0 →
        (∀ i ∈ pre, env.call
            ⟨"workApi.postTeamIteration", [.obj
              [("id", i.fieldOf "identifier"), ("path", i.fieldOf "path")],
              .obj [("project", args "project"), ("team", args "team")]]⟩ = .ok (res i)) →
        env.call ⟨"workApi.postTeamIteration", [.obj
              [("id", bad.fieldOf "identifier"), ("path", bad.fieldOf "path")],
              .obj [("project", args "project"), ("team", args "team")]]⟩ = .error ex →
        branch_work_assign_iterations ctx args env []
          = (⟨"connection.getWorkApi", []⟩
              :: (pre.map (fun i => (⟨"workApi.postTeamIteration", [.obj
                    [("id", i.fieldOf "identifier"), ("path", i.fieldOf "path")],
                    .obj [("project", args "project"), ("team", args "team")]]⟩ : Call))
                  ++ [⟨"workApi.postTeamIteration", [.obj
                    [("id", bad.fieldOf "identifier"), ("path", bad.fieldOf "path")],
                    .obj [("project", args "project"), ("team", args "team")]]⟩]),
             .error ex)) := by
  intro ctx args env res s0 items pre post bad ex
  refine ⟨?_, ?_, ?_, ?_, ?_, ?_, ?_, ?_⟩
  · intro hargs hapi hok
    unfold branch_wit_update_work_items_batch
    simp only [bind_run, mCall_run, mOfExcept_run, hapi, hargs, Arg.asList]
    rw [forSeq_mCall_ok "witApi.updateWorkItem"
          (fun i => [.null, i.fieldOf "updates", i.fieldOf "id"]) res env items hok]
    simp [pure, M.pure]
  · intro hargs hapi hok hbad
    unfold branch_wit_update_work_items_batch
    simp only [bind_run, mCall_run, mOfExcept_run, hapi, hargs, Arg.asList]
    rw [forSeq_mCall_err "witApi.updateWorkItem"
          (fun i => [.null, i.fieldOf "updates", i.fieldOf "id"]) res env pre bad post ex hok hbad]
    simp
  · intro hargs hapi hok
    unfold branch_wit_add_child_work_items
    simp only [bind_run, mCall_run, mOfExcept_run, hapi, hargs, Arg.asList]
    rw [forSeq_mCall_ok "witApi.updateWorkItem" _ res env items hok]
    simp [pure, M.pure]
  · intro hargs hapi hok hbad
    unfold branch_wit_add_child_work_items
    simp only [bind_run, mCall_run, mOfExcept_run, hapi, hargs, Arg.asList]
    rw [forSeq_mCall_err "witApi.updateWorkItem" _ res env pre bad post ex hok hbad]
    simp
  · intro hargs hapi hok
    unfold branch_work_create_iterations
    simp only [bind_run, mCall_run, mOfExcept_run, hapi, hargs, Arg.asList]
    rw [forSeq_mCall_ok "witApi.createOrUpdateClassificationNode" _ res env items hok]
    simp [pure, M.pure]
  · intro hargs hapi hok hbad
    unfold branch_work_create_iterations
    simp only [bind_run, mCall_run, mOfExcept_run, hapi, hargs, Arg.asList]
    rw [forSeq_mCall_err "witApi.createOrUpdateClassificationNode" _ res env pre bad post ex
          hok hbad]
    simp
  · intro hargs hapi hok
    unfold branch_work_assign_iterations
    simp only [bind_run, mCall_run, mOfExcept_run, hapi, hargs, Arg.asList]
    rw [forSeq_mCall_ok "workApi.postTeamIteration" _ res env items hok]
    simp [pure, M.pure]
  · intro hargs hapi hok hbad
    unfold branch_work_assign_iterations
    simp only [bind_run, mCall_run, mOfExcept_run, hapi, hargs, Arg.asList]
    rw [forSeq_mCall_err "workApi.postTeamIteration" _ res env pre bad post ex hok hbad]
    simp

/-- C6 witness: a concrete two-item batch issues both calls in order;
with a failing update call, only the api getter and the first (failing)
update are issued and its exception is the result. -/
theorem C6_witness :
    branch_wit_update_work_items_batch ctx0 bulkArgs trivialEnv []
      = (⟨"connection.getWorkItemTrackingApi", []⟩
          :: bulkItems.map (fun i => (⟨"witApi.updateWorkItem",
               [.null, i.fieldOf "updates", i.fieldOf "id"]⟩ : Call)),
         .ok (textResult (jstrList (bulkItems.map (fun _ => "r")))))
    ∧ branch_wit_update_work_items_batch ctx0 bulkArgs bulkFailEnv []
      = (⟨"connection.getWorkItemTrackingApi", []⟩
          :: [⟨"witApi.updateWorkItem",
               [.null, (bulkItems.headD .undefined).fieldOf "updates",
                (bulkItems.headD .undefined).fieldOf "id"]⟩],
         .error (.err "boom")) := by
  constructor
  · exact (C6_bulk_loops_sequential_non_transactional ctx0 bulkArgs trivialEnv (fun _ => "r") "r"
      bulkItems [] [] .undefined .other).1 rfl rfl (fun i hi => rfl)
  · have h := (C6_bulk_loops_sequential_non_transactional ctx0 bulkArgs bulkFailEnv (fun _ => "r") "r"
      bulkItems [] [.obj [("id", .num 2), ("updates", .str "u2")]]
      (.obj [("id", .num 1), ("updates", .str "u1")]) (.err "boom")).2.1
      rfl rfl (fun i hi => absurd hi (List.not_mem_nil i)) rfl
    exact h

theorem mNamed_run (api : String) (as : List Arg) (env : DevOpsEnv) (tr : List Call) :
    mNamed api as env tr = (tr ++ [⟨api, as⟩], env.fetchNamed ⟨api, as⟩) := rfl

theorem listContainsSub_iff [DecidableEq α] (hay needle : List α) :
    listContainsSub hay needle = true ↔ needle <:+: hay := by
  induction hay with
  | nil =>
    show (needle.isPrefixOf [] || false) = true ↔ _
    simp [List.isPrefixOf_iff_prefix]
  | cons c t ih =>
    show (needle.isPrefixOf (c :: t) || listContainsSub t needle) = true ↔ _
    rw [Bool.or_eq_true, List.isPrefixOf_iff_prefix, ih, List.infix_cons_iff]

theorem jsIncludesCI_iff (x : Option String) (flt : String) :
    jsIncludesCI x flt = true
      ↔ ∃ nm, x = some nm ∧ (flt.data.map Char.toLower) <:+: (nm.data.map Char.toLower) := by
  cases x with
  | none => simp [jsIncludesCI]
  | some nm => simp [jsIncludesCI, listContainsSub_iff]

set_option maxRecDepth 100000 in
/-- C9 counterexample: with 101 fetched repositories and no filter,
`repo_list_repos_by_project` returns only the first 100 — the returned
list is the `slice(skip, skip + top)` (defaults 0, 100) of the fetched
list, so it is not the unchanged fetched list the claim requires. -/
theorem C9_counterexample :
    jsSlice (List.replicate 101 (some "r" : Option String)) 0 (0 + 100)
      = List.replicate 100 (some "r")
    ∧ (List.replicate 100 (some "r" : Option String) ≠ List.replicate 101 (some "r"))
    ∧ branch_repo_list_repos_by_project ctx0 emptyArgs env101 []
      = ([⟨"connection.getGitApi", []⟩, ⟨"gitApi.getRepositories", [.undefined]⟩],
         .ok (textResult (jstrNamed (List.replicate 100 (some "r"))))) := by
  refine ⟨by decide, by decide, ?_⟩
  rfl

/-- C9 (amended): the client-side name-filtering step of
`core_list_projects` and `repo_list_repos_by_project` yields exactly the
fetched items whose name contains the filter case-insensitively
(preserving order: it is a sublist), and an empty or absent filter leaves
the fetched list unchanged; `core_list_projects` returns that filtered
list itself, while `repo_list_repos_by_project` returns its
`slice(skip, skip + top)` with defaults skip 0 and top 100. -/
theorem C9_amended_filter_then_slice :
    ∀ (items : List (Option String)) (flt : Arg),
      ((if flt.truthy then items.filter (fun p => jsIncludesCI p flt.asStr) else items).Sublist items)
      ∧ (flt.truthy = true → ∀ x,
          (x ∈ items.filter (fun p => jsIncludesCI p flt.asStr)
            ↔ x ∈ items ∧ ∃ nm, x = some nm ∧ (flt.asStr.data.map Char.toLower) <:+: (nm.data.map Char.toLower)))
      ∧ (flt.truthy = false →
          (if flt.truthy then items.filter (fun p => jsIncludesCI p flt.asStr) else items) = items)
      ∧ (∀ ctx args env s0, args "projectNameFilter" = flt →
          env.call ⟨"connection.getCoreApi", []⟩ = .ok s0 →
          env.fetchNamed ⟨"coreApi.getProjects", [args "stateFilter", args "top", args "skip"]⟩
            = .ok items →
          branch_core_list_projects ctx args env []
            = ([⟨"connection.getCoreApi", []⟩,
                ⟨"coreApi.getProjects", [args "stateFilter", args "top", args "skip"]⟩],
               .ok (textResult (jstrNamed
                 (if flt.truthy then items.filter (fun p => jsIncludesCI p flt.asStr) else items)))))
      ∧ (∀ ctx args env s0, args "repoNameFilter" = flt →
          env.call ⟨"connection.getGitApi", []⟩ = .ok s0 →
          env.fetchNamed ⟨"gitApi.getRepositories", [args "project"]⟩ = .ok items →
          branch_repo_list_repos_by_project ctx args env []
            = ([⟨"connection.getGitApi", []⟩, ⟨"gitApi.getRepositories", [args "project"]⟩],
               .ok (textResult (jstrNamed (jsSlice
                 (if flt.truthy then items.filter (fun r => jsIncludesCI r flt.asStr) else items)
                 (((args "skip").withDefault (.num 0)).asInt)
                 ((((args "skip").withDefault (.num 0)).asInt)
                   + (((args "top").withDefault (.num 100)).asInt))))))) := by
  intro items flt
  refine ⟨?_, ?_, ?_, ?_, ?_⟩
  · split
    · exact List.filter_sublist items
    · exact List.Sublist.refl items
  · intro htr x
    rw [List.mem_filter]
    constructor
    · rintro ⟨hx, hp⟩
      exact ⟨hx, (jsIncludesCI_iff x flt.asStr).mp hp⟩
    · rintro ⟨hx, hinf⟩
      exact ⟨hx, (jsIncludesCI_iff x flt.asStr).mpr hinf⟩
  · intro htr
    rw [if_neg (by simp [htr])]
  · intro ctx args env s0 hflt hapi hfetch
    unfold branch_core_list_projects
    simp only [bind_run, mCall_run, mNamed_run, hapi, hfetch, hflt]
    rfl
  · intro ctx args env s0 hflt hapi hfetch
    unfold branch_repo_list_repos_by_project
    simp only [bind_run, mCall_run, mNamed_run, hapi, hfetch, hflt]
    rfl

/-- C9 witness: a concrete fetched list is filtered case-insensitively. -/
theorem C9_witness :
    branch_core_list_projects ctx0 projArgs projEnv []
      = ([⟨"connection.getCoreApi", []⟩, ⟨"coreApi.getProjects", [.undefined, .undefined, .undefined]⟩],
         .ok (textResult (jstrNamed [some "Alpha"]))) := by
  have h := (C9_amended_filter_then_slice [some "Alpha", some "beta", none] (.str "al")).2.2.2.1
    ctx0 projArgs projEnv "r" rfl rfl rfl
  exact h.trans (by rfl)

theorem b64IndexOf_b64CharOf : ∀ k < 64, b64IndexOf (b64CharOf k) = some k := by decide

theorem b64CharOf_ne_pad : ∀ k < 64, b64CharOf k ≠ '=' := by decide

theorem b64_roundtrip : ∀ l : List Nat, (∀ b ∈ l, b < 256) →
    b64DecodeList (b64EncodeList l) = some l
  | [] => fun _ => rfl
  | [b1] => fun h => by
      have hb1 : b1 < 256 := h b1 (by simp)
      show b64DecodeList [b64CharOf (b1 * 16 / 64), b64CharOf (b1 * 16 % 64), '=', '='] = some [b1]
      rw [b64DecodeList, b64IndexOf_b64CharOf _ (by omega), b64IndexOf_b64CharOf _ (by omega)]
      simp
      omega
  | [b1, b2] => fun h => by
      have hb1 : b1 < 256 := h b1 (by simp)
      have hb2 : b2 < 256 := h b2 (by simp)
      have hne3 := b64CharOf_ne_pad ((b1 * 1024 + b2 * 4) % 64) (by omega)
      show b64DecodeList [b64CharOf ((b1 * 1024 + b2 * 4) / 4096),
        b64CharOf ((b1 * 1024 + b2 * 4) / 64 % 64), b64CharOf ((b1 * 1024 + b2 * 4) % 64), '=']
        = some [b1, b2]
      rw [b64DecodeList, b64IndexOf_b64CharOf _ (by omega), b64IndexOf_b64CharOf _ (by omega)]
      simp only [Option.some_bind]
      rw [if_neg hne3, b64IndexOf_b64CharOf _ (by omega)]
      simp
      omega
  | b1 :: b2 :: b3 :: rest => fun h => by
      have hb1 : b1 < 256 := h b1 (by simp)
      have hb2 : b2 < 256 := h b2 (by simp)
      have hb3 : b3 < 256 := h b3 (by simp)
      have hrest := b64_roundtrip rest (fun b hb => h b (by simp [hb]))
      have hne3 := b64CharOf_ne_pad ((b1 * 65536 + b2 * 256 + b3) / 64 % 64) (by omega)
      have hne4 := b64CharOf_ne_pad ((b1 * 65536 + b2 * 256 + b3) % 64) (by omega)
      show b64DecodeList (b64CharOf ((b1 * 65536 + b2 * 256 + b3) / 262144)
        :: b64CharOf ((b1 * 65536 + b2 * 256 + b3) / 4096 % 64)
        :: b64CharOf ((b1 * 65536 + b2 * 256 + b3) / 64 % 64)
        :: b64CharOf ((b1 * 65536 + b2 * 256 + b3) % 64)
        :: b64EncodeList rest) = some (b1 :: b2 :: b3 :: rest)
      rw [b64DecodeList, b64IndexOf_b64CharOf _ (by omega), b64IndexOf_b64CharOf _ (by omega)]
      simp only [Option.some_bind]
      rw [if_neg hne3, b64IndexOf_b64CharOf _ (by omega)]
      simp only [Option.some_bind]
      rw [if_neg hne4, b64IndexOf_b64CharOf _ (by omega)]
      simp only [Option.some_bind]
      rw [hrest]
      simp
      refine ⟨?_, ?_, ?_⟩ <;> omega

theorem char_toNat_lt (c : Char) : c.toNat < 1114112 := by
  rcases c.valid with h | ⟨h1, h2⟩
  · exact Nat.lt_trans h (by norm_num)
  · exact h2

set_option maxRecDepth 4000 in
theorem utf8DecodeOne_encodeChar (c : Char) (r : List Nat) :
    utf8DecodeOne (utf8EncodeChar c ++ r) = some (c.toNat, r) := by
  have hn : c.toNat < 1114112 := char_toNat_lt c
  unfold utf8EncodeChar
  by_cases h1 : c.toNat < 128
  · rw [if_pos h1]
    show utf8DecodeOne (c.toNat :: r) = some (c.toNat, r)
    simp only [utf8DecodeOne]
    rw [if_pos h1]
  rw [if_neg h1]
  by_cases h2 : c.toNat < 2048
  · rw [if_pos h2]
    show utf8DecodeOne ((192 + c.toNat / 64) :: (128 + c.toNat % 64) :: r) = some (c.toNat, r)
    simp only [utf8DecodeOne]
    rw [if_neg (by omega), if_neg (by omega), if_pos (by omega), if_pos (by omega)]
    congr 2
    simp only [Nat.add_sub_cancel_left]
    omega
  rw [if_neg h2]
  by_cases h3 : c.toNat < 65536
  · rw [if_pos h3]
    show utf8DecodeOne ((224 + c.toNat / 4096) :: (128 + c.toNat / 64 % 64) :: (128 + c.toNat % 64) :: r)
        = some (c.toNat, r)
    simp only [utf8DecodeOne]
    rw [if_neg (by omega), if_neg (by omega), if_neg (by omega), if_pos (by omega),
      if_pos (by omega)]
    congr 2
    simp only [Nat.add_sub_cancel_left]
    omega
  rw [if_neg h3]
  show utf8DecodeOne ((240 + c.toNat / 262144) :: (128 + c.toNat / 4096 % 64)
      :: (128 + c.toNat / 64 % 64) :: (128 + c.toNat % 64) :: r) = some (c.toNat, r)
  simp only [utf8DecodeOne]
  rw [if_neg (by omega), if_neg (by omega), if_neg (by omega), if_neg (by omega),
    if_pos (by omega), if_pos (by omega)]
  congr 2
  simp only [Nat.add_sub_cancel_left]
  omega

theorem utf8EncodeChar_ne_nil (c : Char) : utf8EncodeChar c ≠ [] := by
  unfold utf8EncodeChar
  by_cases h1 : c.toNat < 128
  · simp [h1]
  by_cases h2 : c.toNat < 2048
  · simp [h1, h2]
  by_cases h3 : c.toNat < 65536
  · simp [h1, h2, h3]
  · simp [h1, h2, h3]

theorem utf8EncodeChar_bytes_lt (c : Char) : ∀ b ∈ utf8EncodeChar c, b < 256 := by
  have hn : c.toNat < 1114112 := char_toNat_lt c
  intro b hb
  unfold utf8EncodeChar at hb
  by_cases h1 : c.toNat < 128
  · simp [h1] at hb; omega
  by_cases h2 : c.toNat < 2048
  · simp [h1, h2] at hb; rcases hb with rfl | rfl <;> omega
  by_cases h3 : c.toNat < 65536
  · simp [h1, h2, h3] at hb; rcases hb with rfl | rfl | rfl <;> omega
  · simp [h1, h2, h3] at hb; rcases hb with rfl | rfl | rfl | rfl <;> omega

theorem utf8Encode_bytes_lt (s : String) : ∀ b ∈ utf8Encode s, b < 256 := by
  intro b hb
  unfold utf8Encode at hb
  rcases List.mem_flatten.mp hb with ⟨l, hl, hbl⟩
  rcases List.mem_map.mp hl with ⟨c, hc, rfl⟩
  exact utf8EncodeChar_bytes_lt c b hbl

theorem utf8DecodeChars_encode (cs : List Char) :
    ∀ fuel, (cs.map utf8EncodeChar).flatten.length ≤ fuel →
      utf8DecodeChars fuel (cs.map utf8EncodeChar).flatten = some cs := by
  induction cs with
  | nil => intro fuel hf; cases fuel <;> rfl
  | cons c cr ih =>
    intro fuel hf
    have hvalid : Nat.isValidChar c.toNat := c.valid
    rcases he : utf8EncodeChar c with _ | ⟨e, es⟩
    · exact absurd he (utf8EncodeChar_ne_nil c)
    have hlen : (List.map utf8EncodeChar (c :: cr)).flatten.length
        = (utf8EncodeChar c).length + (List.map utf8EncodeChar cr).flatten.length := by
      simp
    have hpos : 1 ≤ (utf8EncodeChar c).length := by rw [he]; simp
    rw [hlen] at hf
    obtain ⟨f, rfl⟩ : ∃ f, fuel = f + 1 := ⟨fuel - 1, by omega⟩
    have hdec := utf8DecodeOne_encodeChar c (List.map utf8EncodeChar cr).flatten
    rw [he] at hdec
    show utf8DecodeChars (f + 1) ((utf8EncodeChar c) ++ (List.map utf8EncodeChar cr).flatten)
        = some (c :: cr)
    rw [he]
    show (utf8DecodeOne (e :: (es ++ (List.map utf8EncodeChar cr).flatten))).bind _ = some (c :: cr)
    rw [show e :: (es ++ (List.map utf8EncodeChar cr).flatten)
        = (e :: es) ++ (List.map utf8EncodeChar cr).flatten from rfl, hdec]
    simp only [Option.some_bind]
    rw [if_pos hvalid]
    have hfr : (List.map utf8EncodeChar cr).flatten.length ≤ f := by omega
    rw [ih f hfr]
    simp [Char.ofNat_toNat]

/-- C8: the PAT Basic header round-trips: for every PAT string the
produced header is `Basic ` followed by a base64 payload, and decoding
that payload (base64 to bytes, bytes to text via UTF-8) yields exactly
the string `":" + pat`. -/
theorem C8_auth_header_round_trip :
    ∀ pat : String, ∃ payload : String,
      getPatAuthHeader pat = "Basic " ++ payload
      ∧ (b64DecodeList payload.data).bind utf8DecodeString = some (":" ++ pat) := by
  intro pat
  refine ⟨String.mk (b64EncodeList (utf8Encode (":" ++ pat))), rfl, ?_⟩
  show (b64DecodeList (b64EncodeList (utf8Encode (":" ++ pat)))).bind utf8DecodeString = _
  rw [b64_roundtrip (utf8Encode (":" ++ pat)) (utf8Encode_bytes_lt (":" ++ pat))]
  simp only [Option.some_bind]
  unfold utf8DecodeString utf8Encode
  rw [utf8DecodeChars_encode _ _ (le_refl _)]
  show some (String.mk (":" ++ pat).data) = some (":" ++ pat)
  congr 1
